import Mathlib

/-!
# Weather API: access gate and reading catalogue

A shallow embedding of the access-control middleware
(`src/middlewares/auth.js`), the reading model (`src/models/weatherReading.js`)
and the reading controllers (`src/controllers/weatherReading.js`).

Conventions of the embedding:

* a collection of the document store is the list of its documents in natural
  (encounter) order;
* a `Date` is its time value, an integer number of milliseconds since the epoch;
* a JavaScript number that holds an integer (a page number, a count) is an `Int`,
  rounded to a double where the source parses it from a string;
  measurements are integers on a fixed scale, only their order is used here;
* a header or query parameter is an `Option String`, `none` when it is absent;
* what a middleware does with `res` and `next` is the list of its effects in
  the order they happen.
-/

namespace WeatherAPI

/-! ## Data model -/

/-- A user document of the `users` collection. `authToken` is `none` when the
field is unset or `false` (logged out). -/
structure User where
  _id : String
  username : String
  email : String
  password : String
  role : String
  authToken : Option String
  lastLogin : Option Int
  lastAccess : Option Int
  createdAt : Option Int
deriving DecidableEq, Repr

/-- A document of the `WeatherData` collection, as built by `WeatherReading`. -/
structure Reading where
  _id : String
  deviceName : String
  precipitation : Int
  time : Int
  latitude : Int
  longitude : Int
  temperature : Int
  atmosphericPressure : Int
  maxWindSpeed : Int
  solarRadiation : Int
  vaporPressure : Int
  humidity : Int
  windDirection : Int
deriving DecidableEq, Repr

/-- What a middleware does: it sends a JSON response or calls `next`. -/
inductive Effect where
  | respond (status : Nat) (message : String)
  | next
deriving DecidableEq, Repr

/-- The JSON envelope sent by a reading controller: `status`, `message` and,
on success, `totalPages` and the list payload (`weatherData` or `data`). -/
structure Response (α : Type) where
  status : Nat
  message : String
  totalPages : Option Int
  data : Option (List α)
deriving DecidableEq, Repr

/-! ## JavaScript primitives used by the source -/

/-- Truthiness of a string-or-undefined value: `!v` is `true` exactly when `v`
is `undefined` or the empty string. -/
def truthy (v : Option String) : Bool :=
  match v with
  | none => false
  | some s => s != ""

/-- White space skipped by `parseInt` (ECMAScript `StrWhiteSpaceChar`). -/
def isStrWhiteSpaceChar (c : Char) : Bool :=
  let n := c.toNat
  n == 0x09 || n == 0x0A || n == 0x0B || n == 0x0C || n == 0x0D || n == 0x20 ||
  n == 0xA0 || n == 0x1680 || (0x2000 ≤ n && n ≤ 0x200A) || n == 0x2028 ||
  n == 0x2029 || n == 0x202F || n == 0x205F || n == 0x3000 || n == 0xFEFF

/-- Value of a character as a digit of base 36, if it is one. -/
def digitValue (c : Char) : Option Nat :=
  let n := c.toNat
  if 48 ≤ n ∧ n ≤ 57 then some (n - 48)
  else if 97 ≤ n ∧ n ≤ 122 then some (n - 87)
  else if 65 ≤ n ∧ n ≤ 90 then some (n - 55)
  else none

/-- Value of a character as a digit of radix `R`, if it is one. -/
def radixDigit (R : Nat) (c : Char) : Option Nat :=
  match digitValue c with
  | some v => if v < R then some v else none
  | none => none

/-- The longest prefix of radix-`R` digits, as digit values. -/
def takeDigits (R : Nat) : List Char → List Nat
  | [] => []
  | c :: cs =>
    match radixDigit R c with
    | some v => v :: takeDigits R cs
    | none => []

/-- The integer denoted by a list of radix-`R` digit values. -/
def digitsValue (R : Nat) (ds : List Nat) : Nat :=
  ds.foldl (fun acc v => acc * R + v) 0

/-- Sign step of `parseInt`: a leading `-` or `+` is removed. -/
def stripSign : List Char → Int × List Char
  | '-' :: r => (-1, r)
  | '+' :: r => (1, r)
  | S => (1, S)

/-- Radix step of `parseInt` called without a radix: `0x`/`0X` selects 16. -/
def stripHex : List Char → Nat × List Char
  | '0' :: 'x' :: r => (16, r)
  | '0' :: 'X' :: r => (16, r)
  | S => (10, S)

/-- The steps of `parseInt(string)` before the conversion to a Number: the
integer `sign × mathInt` that the string denotes, `none` when it starts with
no digit. An absent argument is `undefined`, whose string form is
`"undefined"`. -/
def mathInt (input : Option String) : Option Int :=
  let inputString := input.getD "undefined"
  let S := inputString.toList.dropWhile isStrWhiteSpaceChar
  let signed := stripSign S
  let radixed := stripHex signed.2
  let Z := takeDigits radixed.1 radixed.2
  if Z.isEmpty then none else some (signed.1 * (digitsValue radixed.1 Z : Int))

/-- The number of binary digits of `n`, with `fuel` steps at hand. -/
def bitLengthAux : Nat → Nat → Nat
  | 0, _ => 0
  | fuel + 1, n => if n = 0 then 0 else bitLengthAux fuel (n / 2) + 1

/-- The number of binary digits of `n`: 0 for 0, and `k + 1` when
`2 ^ k ≤ n < 2 ^ (k + 1)`. -/
def bitLength (n : Nat) : Nat := bitLengthAux n n

/-- The integer nearest to `n / d`, a half going to the even neighbour. -/
def roundHalfEven (n d : Nat) : Nat :=
  let q := n / d
  let r := n % d
  if 2 * r < d then q
  else if d < 2 * r then q + 1
  else if q % 2 = 0 then q else q + 1

/-- The Number value of a non-negative integer: the nearest number with 53
significant binary digits, a tie going to the even significand (IEEE 754
round to nearest, ties to even). The exponent range of a double is not
modelled: from `2 ^ 1024 - 2 ^ 970` on, where the Number value is `Infinity`,
this is still the rounded integer. -/
def roundInteger (n : Nat) : Nat :=
  let e := bitLength n - 53
  roundHalfEven n (2 ^ e) * 2 ^ e

/-- The global `parseInt(string)` of ECMAScript, called with one argument:
the Number value of the integer the string denotes. `none` is `NaN`. A result
is a double, so an integer of more than 53 significant binary digits is
rounded; results of magnitude `2 ^ 1024` or more stand for `Infinity`, which
this model does not follow further. -/
def parseInt (input : Option String) : Option Int :=
  (mathInt input).map (fun n => n.sign * (roundInteger n.natAbs : Int))

/-- The constant `Number.MAX_SAFE_INTEGER`: up to it, the integers and their
sums and products that stay below it are exact in a double. -/
def MAX_SAFE_INTEGER : Int := 2 ^ 53 - 1

/-- A decimal digit. -/
def isDecimalDigit (c : Char) : Bool := decide (48 ≤ c.toNat) && decide (c.toNat ≤ 57)

/-- The words "starts with an integer" of the pagination rule, read as
`parseInt` reads a string: after leading white space and one optional sign,
the next character is a decimal digit. -/
def startsWithInteger (s : String) : Bool :=
  match (stripSign (s.toList.dropWhile isStrWhiteSpaceChar)).2 with
  | [] => false
  | c :: _ => isDecimalDigit c

/-- The expression `v || d` for a number `v`: `NaN` and `0` are falsy. -/
def orDefault (v : Option Int) (d : Int) : Int :=
  match v with
  | some n => if n = 0 then d else n
  | none => d

/-- The statement `parseInt(page) || 1` of the three paginated controllers. -/
def pageNumber (page : Option String) : Int := orDefault (parseInt page) 1

/-- The statement `parseInt(limit) || 10` of the three paginated controllers. -/
def limitNumber (limit : Option String) : Int := orDefault (parseInt limit) 10

/-- The floor of the quotient `a / b` of two integers, `b ≠ 0`. -/
def floorDiv (a b : Int) : Int := if 0 ≤ b then a / b else (-a) / (-b)

/-- The expression `Math.ceil(a / b)` for integers `a` and `b ≠ 0`. -/
def mathCeilDiv (a b : Int) : Int := -(floorDiv (-a) b)

/-- The expression `Math.round(a / b)` for integers `a` and `b ≠ 0`: the
nearest integer, halves towards plus infinity, which is `floor(a / b + 1/2)`. -/
def mathRoundDiv (a b : Int) : Int := floorDiv (2 * a + b) (2 * b)

/-- The method `Array.prototype.slice(start, end)` with integer arguments. -/
def jsSlice {α : Type} (xs : List α) (start stop : Int) : List α :=
  let len : Int := xs.length
  let k : Int := if start < 0 then max (len + start) 0 else min start len
  let final : Int := if stop < 0 then max (len + stop) 0 else min stop len
  (xs.drop k.toNat).take (final - k).toNat

/-! ## Users and the access gate (`models/user.js`, `middlewares/auth.js`) -/

/-- The query `db.collection("users").findOne(authToken: authToken)`: the first
user in natural order whose `authToken` is the given string. -/
def UserModel.getUserByAuthToken (users : List User) (authToken : String) : Option User :=
  users.find? (fun u => u.authToken == some authToken)

/-- The middleware returned by `controlAccess(allowedRoles)`, run on a request
whose `Auth-Key` header is `authKey`. -/
def controlAccess (allowedRoles : List String) (users : List User)
    (authKey : Option String) : List Effect :=
  match authKey with
  | none => [Effect.respond 400 "Authorization token not provided."]
  | some userAuthToken =>
    if !truthy (some userAuthToken) then
      [Effect.respond 400 "Authorization token not provided."]
    else
      match UserModel.getUserByAuthToken users userAuthToken with
      | none => [Effect.respond 401 "Invalid authorization token."]
      | some userData =>
        if !allowedRoles.contains userData.role then
          [Effect.respond 403 "Access forbidden for this role."]
        else
          [Effect.next]


/-! ## The document store's find cursor -/

/-- The call `cursor.skip(skip).limit(limit).toArray()` on a find cursor whose
matching documents, in result order, are `docs`. The store rejects a negative
skip (the call throws); a limit of zero is no limit and a negative limit
returns its absolute value of documents. -/
def skipLimitToArray {α : Type} (docs : List α) (skip limit : Int) : Except String (List α) :=
  if skip < 0 then
    Except.error ("MongoServerError: Skip value must be non-negative, but received: "
      ++ toString skip)
  else if limit = 0 then
    Except.ok (docs.drop skip.toNat)
  else
    Except.ok ((docs.drop skip.toNat).take limit.natAbs)

/-! ## Dates (`Date.prototype.getUTCHours`, `setUTCHours`) -/

def msPerSecond : Int := 1000

def msPerMinute : Int := 60000

def msPerHour : Int := 3600000

def msPerDay : Int := 86400000

/-- Day number of a time value: `floor(t / msPerDay)`. -/
def Day (t : Int) : Int := t / msPerDay

/-- The method `getUTCHours`: `floor(t / msPerHour) modulo 24`. -/
def getUTCHours (t : Int) : Int := (t / msPerHour) % 24

/-- ECMAScript `MakeTime(hour, min, sec, ms)`. -/
def MakeTime (hour min sec ms : Int) : Int :=
  hour * msPerHour + min * msPerMinute + sec * msPerSecond + ms

/-- ECMAScript `MakeDate(day, time)`. -/
def MakeDate (day time : Int) : Int := day * msPerDay + time

/-- The method `setUTCHours(hour, min, sec, ms)` on a date of time value `t`:
the new time value. The range limit of `Date` is not modelled. -/
def setUTCHours (t hour min sec ms : Int) : Int :=
  MakeDate (Day t) (MakeTime hour min sec ms)

/-- The host's time zone, as ECMAScript sees it: `localTZA t isUTC` is the
offset `LocalTZA(t, isUTC)` in milliseconds. -/
structure TimeZone where
  localTZA : Int → Bool → Int

/-- ECMAScript `LocalTime(t)`. -/
def LocalTime (tz : TimeZone) (t : Int) : Int := t + tz.localTZA t true

/-- ECMAScript `UTC(t)`. -/
def UTC (tz : TimeZone) (t : Int) : Int := t - tz.localTZA t false

/-- The method `setHours(hour, min, sec, ms)` on a date of time value `t`, in
the host's local time: the new time value. The range limit of `Date` is not
modelled. -/
def setHours (tz : TimeZone) (t hour min sec ms : Int) : Int :=
  UTC tz (MakeDate (Day (LocalTime tz t)) (MakeTime hour min sec ms))


/-- Local 00:00:00.000 of the local day of `t`, as a time value. -/
def localMidnight (tz : TimeZone) (t : Int) : Int :=
  UTC tz (Day (LocalTime tz t) * msPerDay)

/-- Local 23:59:59.999 of the local day of `t`, as a time value. -/
def localEndOfDay (tz : TimeZone) (t : Int) : Int :=
  UTC tz (Day (LocalTime tz t) * msPerDay + (msPerDay - 1))

/-! ## The reading model (`models/weatherReading.js`) -/

namespace Readings

/-- The query `db.collection("WeatherData").find()`: every reading, in
natural order. -/
def getAllReadings (store : List Reading) : List Reading := store

/-- The query `find("Device Name": deviceName).sort(Time: -1)`. The store
leaves the order of readings with equal `Time` open; here they keep their
natural order. -/
def getAllReadingsByDeviceName (store : List Reading) (deviceName : String) : List Reading :=
  (store.filter (fun r => r.deviceName == deviceName)).insertionSort
    (fun a b => b.time ≤ a.time)

/-- A row of the narrower projection of `getReadingsByDeviceAndDateTime`. -/
structure FormattedReading where
  DeviceName : String
  Time : Int
  Temperature : Int
  AtmosphericPressure : Int
  SolarRadiation : Int
  Precipitation : Int
deriving DecidableEq, Repr

/-- The local `startDate` of `getReadingsByDeviceAndDateTime`. -/
def bucketStartDate (inputDate : Int) : Int :=
  setUTCHours inputDate (getUTCHours inputDate) 0 0 0

/-- The local `endDate` of `getReadingsByDeviceAndDateTime`. -/
def bucketEndDate (inputDate : Int) : Int :=
  setUTCHours inputDate (getUTCHours inputDate + 1) 0 0 0

/-- The mapping to the six projected fields. -/
def formatReading (data : Reading) : FormattedReading :=
  { DeviceName := data.deviceName
    Time := data.time
    Temperature := data.temperature
    AtmosphericPressure := data.atmosphericPressure
    SolarRadiation := data.solarRadiation
    Precipitation := data.precipitation }

/-- The function `getReadingsByDeviceAndDateTime(deviceName, inputDateTime)`,
where `inputDate` is the time value of `new Date(inputDateTime)`. -/
def getReadingsByDeviceAndDateTime (store : List Reading) (deviceName : String)
    (inputDate : Int) : List FormattedReading :=
  let startDate := bucketStartDate inputDate
  let endDate := bucketEndDate inputDate
  let weatherData := store.filter (fun r =>
    r.deviceName == deviceName && (decide (startDate ≤ r.time) && decide (r.time ≤ endDate)))
  let sorted := weatherData.insertionSort (fun a b => a.time ≤ b.time)
  sorted.map formatReading

/-- A row produced by the pipeline of `findMaxPrecipitationLast5Months`. -/
structure MaxPrecipitationRow where
  _id : String
  deviceName : String
  readingDateTime : Int
  maxPrecipitation : Int
deriving DecidableEq, Repr

/-- The group keys of a `$group` by `"$Device Name"`: the distinct device
names, in the order of their first reading. -/
def groupIds : List Reading → List String
  | [] => []
  | r :: rs => r.deviceName :: (groupIds rs).filter (fun k => k != r.deviceName)

/-- The `$group` and `$project` stages of `findMaxPrecipitationLast5Months`
for one group key: `$max` of the precipitation, `$last` of `Time` and `_id`. -/
def maxPrecipitationGroup (matched : List Reading) (key : String) :
    Option MaxPrecipitationRow :=
  match matched.filter (fun r => r.deviceName == key) with
  | [] => none
  | r :: rs =>
    let lastDoc := (r :: rs).getLast (List.cons_ne_nil r rs)
    some { _id := lastDoc._id
           deviceName := key
           readingDateTime := lastDoc.time
           maxPrecipitation := rs.foldl (fun m x => max m x.precipitation) r.precipitation }

/-- The `$match` stage of `findMaxPrecipitationLast5Months`. -/
def matchLast5Months (store : List Reading) (deviceName : String)
    (fiveMonthsAgo currentDate : Int) : List Reading :=
  store.filter (fun r =>
    r.deviceName == deviceName &&
      (decide (fiveMonthsAgo ≤ r.time) && decide (r.time ≤ currentDate)))

/-- The function `findMaxPrecipitationLast5Months(deviceName)`. The two dates
it builds from the clock are inputs: `currentDate` is `new Date()` and
`fiveMonthsAgo` is `new Date()` after `setMonth(getMonth() - 5)`, a
calendar step in the host's local time. -/
def findMaxPrecipitationLast5Months (store : List Reading) (deviceName : String)
    (fiveMonthsAgo currentDate : Int) : List MaxPrecipitationRow :=
  let matched := matchLast5Months store deviceName fiveMonthsAgo currentDate
  (groupIds matched).filterMap (maxPrecipitationGroup matched)

/-- A row produced by the pipeline of `findMaxTemperatureInRange`. -/
structure MaxTemperatureRow where
  DeviceName : String
  ReadingDateTime : Int
  MaxTemperature : Int
deriving DecidableEq, Repr

/-- The `$match` stage of `findMaxTemperatureInRange`, on the two dates the
function has built. -/
def matchInRange (store : List Reading) (startDate endDate : Int) : List Reading :=
  store.filter (fun r => decide (startDate ≤ r.time) && decide (r.time ≤ endDate))

/-- The `$group` and `$project` stages of `findMaxTemperatureInRange` for one
group key: `$max` of the temperature, `$first` of `Time`. -/
def maxTemperatureGroup (matched : List Reading) (key : String) :
    Option MaxTemperatureRow :=
  match matched.filter (fun r => r.deviceName == key) with
  | [] => none
  | r :: rs =>
    some { DeviceName := key
           ReadingDateTime := r.time
           MaxTemperature := rs.foldl (fun m x => max m x.temperature) r.temperature }

/-- The function `findMaxTemperatureInRange(startDateQuery, endDateQuery)`,
where the two arguments are the time values of `new Date(startDateQuery)` and
`new Date(endDateQuery)`. The groups come out in the order of their first
reading; the store leaves that order open. -/
def findMaxTemperatureInRange (tz : TimeZone) (store : List Reading)
    (startDateQuery endDateQuery : Int) : List MaxTemperatureRow :=
  let startDate := setHours tz startDateQuery 0 0 0 0
  let endDate := setHours tz endDateQuery 23 59 59 999
  let matched := matchInRange store startDate endDate
  (groupIds matched).filterMap (maxTemperatureGroup matched)

end Readings

/-! ## The reading controllers (`controllers/weatherReading.js`) -/

/-- The controller `getAllReadings` for `GET /weather-reading`, on a request
with query parameters `page` and `limit`. -/
def getAllReadings (store : List Reading) (page limit : Option String) : Response Reading :=
  let pageNumber := pageNumber page
  let limitNumber := limitNumber limit
  let readings := Readings.getAllReadings store
  let countDbReadings : Int := readings.length
  let skip := (pageNumber - 1) * limitNumber
  match skipLimitToArray readings skip limitNumber with
  | Except.ok weatherData =>
    { status := 200
      message := "Got list of all weather data readings"
      totalPages := some (mathCeilDiv countDbReadings limitNumber)
      data := some weatherData }
  | Except.error error =>
    { status := 500
      message := "Failed to get all weather data readings" ++ error
      totalPages := none
      data := none }

/-- The controller `getAllReadingsByDeviceName` for
`GET /weather-reading/by-device`. -/
def getAllReadingsByDeviceName (store : List Reading) (deviceName page limit : Option String) :
    Response Reading :=
  let pageNumber := pageNumber page
  let limitNumber := limitNumber limit
  match deviceName with
  | none =>
    { status := 400
      message := "Device Name is required. Please provide a device name."
      totalPages := none, data := none }
  | some name =>
    if !truthy (some name) then
      { status := 400
        message := "Device Name is required. Please provide a device name."
        totalPages := none, data := none }
    else
      let readings := Readings.getAllReadingsByDeviceName store name
      let countDbReadings : Int := readings.length
      let skip := (pageNumber - 1) * limitNumber
      match skipLimitToArray readings skip limitNumber with
      | Except.ok weatherData =>
        let totalPages := mathCeilDiv countDbReadings limitNumber
        if weatherData.length = 0 then
          { status := 404
            message := "No weather data found for the specified device name."
            totalPages := none, data := none }
        else
          { status := 200
            message := "Successfully fetched weather data for " ++ name ++ "."
            totalPages := some totalPages
            data := some weatherData }
      | Except.error error =>
        { status := 500
          message := "Failed to retrieve weather data." ++ error
          totalPages := none, data := none }

/-- The controller `getReadingsByDeviceAndDateTime` for
`GET /weather-reading/weather-data`. The parameter `newDate` gives the time
value of `new Date(dateTime)` for the date strings of the request. -/
def getReadingsByDeviceAndDateTime (newDate : String → Int) (store : List Reading)
    (deviceName dateTime page limit : Option String) :
    Response Readings.FormattedReading :=
  let pageNumber := pageNumber page
  let limitNumber := limitNumber limit
  match deviceName, dateTime with
  | some name, some dt =>
    if !truthy (some name) || !truthy (some dt) then
      { status := 400
        message := "Device name and date/time are required."
        totalPages := none, data := none }
    else
      let weatherData := Readings.getReadingsByDeviceAndDateTime store name (newDate dt)
      let totalPages := mathRoundDiv weatherData.length limitNumber
      if weatherData.length = 0 then
        { status := 404
          message := "Weather data could not be found. Data may not recorded at that station or date/time."
          totalPages := none, data := none }
      else
        let startIndex := (pageNumber - 1) * limitNumber
        let endIndex := pageNumber * limitNumber
        let paginateData := jsSlice weatherData startIndex endIndex
        { status := 200
          message := "Weather data found for the specified station \x27" ++ name ++ "\x27 at "
            ++ dt ++ "."
          totalPages := some totalPages
          data := some paginateData }
  | _, _ =>
    { status := 400
      message := "Device name and date/time are required."
      totalPages := none, data := none }

/-! ## Object ids (`new ObjectId(..)` of the store's driver) -/

/-- A hexadecimal digit. -/
def isHexChar (c : Char) : Bool :=
  let n := c.toNat
  (decide (48 ≤ n) && decide (n ≤ 57)) || (decide (97 ≤ n) && decide (n ≤ 102)) ||
    (decide (65 ≤ n) && decide (n ≤ 70))

/-- A well-formed reference of the store as a string: 24 hexadecimal digits. -/
def isValidObjectIdString (s : String) : Bool :=
  decide (s.toList.length = 24) && s.toList.all isHexChar

/-- An argument of `new ObjectId(..)`: an object id already built (one read
from a stored document), or a string taken from a request. -/
inductive IdArg where
  | oid (id : String)
  | text (s : String)
deriving DecidableEq, Repr

/-- The constructor `new ObjectId(arg)`. An object id is represented by its
string form, for one built from a string its 24 hexadecimal digits in lower
case; a string that is not well formed makes the constructor throw. -/
def newObjectId : IdArg → Except String String
  | IdArg.oid id => Except.ok id
  | IdArg.text s =>
    if isValidObjectIdString s then Except.ok (String.mk (s.toList.map Char.toLower))
    else Except.error "BSONError: input must be a 24 character hex string, 12 byte Uint8Array, or an integer"

/-! ## The user model (`models/user.js`) -/

/-- A `$set` document over the fields of a user: `none` leaves a field alone,
`some v` overwrites it with `v`. -/
structure UserPatch where
  username : Option String := none
  email : Option String := none
  password : Option String := none
  role : Option String := none
  authToken : Option (Option String) := none
  lastLogin : Option (Option Int) := none
  lastAccess : Option (Option Int) := none
  createdAt : Option (Option Int) := none
deriving DecidableEq, Repr

/-- The effect of `$set` on one user document. -/
def applyPatch (u : User) (p : UserPatch) : User :=
  { _id := u._id
    username := p.username.getD u.username
    email := p.email.getD u.email
    password := p.password.getD u.password
    role := p.role.getD u.role
    authToken := p.authToken.getD u.authToken
    lastLogin := p.lastLogin.getD u.lastLogin
    lastAccess := p.lastAccess.getD u.lastAccess
    createdAt := p.createdAt.getD u.createdAt }

/-- A document that holds an `_id` and nothing else; an absent string field
is the empty string. -/
def blankUser (id : String) : User :=
  { _id := id, username := "", email := "", password := "", role := "",
    authToken := none, lastLogin := none, lastAccess := none, createdAt := none }

/-- The store operation `updateOne` without upsert: the first document that
satisfies `p` is replaced by its image under `f`. -/
def updateFirst {α : Type} (p : α → Bool) (f : α → α) : List α → List α
  | [] => []
  | x :: xs => if p x then f x :: xs else x :: updateFirst p f xs

namespace UserModel

/-- The query `findOne(_id: new ObjectId(id))` of `getUserById`. -/
def getUserById (users : List User) (id : IdArg) : Except String (Option User) :=
  match newObjectId id with
  | Except.error e => Except.error e
  | Except.ok oid => Except.ok (users.find? (fun u => u._id == oid))

/-- The function `updateUserById(userId, updatedData)`: `updateOne` with
`$set` and `upsert: true`. The new collection is returned. -/
def updateUserById (users : List User) (userId : IdArg) (updatedData : UserPatch) :
    Except String (List User) :=
  match newObjectId userId with
  | Except.error e => Except.error e
  | Except.ok oid =>
    if users.any (fun u => u._id == oid) then
      Except.ok (updateFirst (fun u => u._id == oid) (fun u => applyPatch u updatedData) users)
    else
      Except.ok (users ++ [applyPatch (blankUser oid) updatedData])

/-- The filter of `updateRoleInDateRange`: `createdAt` is a date between the
two bounds and `role` is not one of the excluded roles. -/
def inRoleUpdateFilter (gteQuery lteQuery : Int) (u : User) : Bool :=
  (match u.createdAt with
    | some c => decide (gteQuery ≤ c) && decide (c ≤ lteQuery)
    | none => false) &&
  !(["station", "admin"].contains u.role)

/-- The function `updateRoleInDateRange(startDate, endDate, newRole)`, where
the two dates are the time values of `new Date(startDate)` and
`new Date(endDate)` and `newRole` is the `$set` document, which the
controller builds as `role: newRole`. The new collection is returned. -/
def updateRoleInDateRange (users : List User) (startDate endDate : Int)
    (newRole : UserPatch) : List User :=
  users.map (fun u => if inRoleUpdateFilter startDate endDate u then applyPatch u newRole else u)

/-- The filter of `deleteStudentsByLastLogin`. -/
def inStudentDeleteFilter (startDate endDate : Int) (u : User) : Bool :=
  u.role == "student" &&
  (match u.lastLogin with
    | some l => decide (startDate ≤ l) && decide (l ≤ endDate)
    | none => false)

/-- The function `deleteStudentsByLastLogin(startDate, endDate)`: the
`deletedCount` of the result and the new collection. -/
def deleteStudentsByLastLogin (users : List User) (startDate endDate : Int) :
    Nat × List User :=
  ((users.filter (inStudentDeleteFilter startDate endDate)).length,
   users.filter (fun u => !inStudentDeleteFilter startDate endDate u))

end UserModel

/-! ## The passive access recorder (`middlewares/studentAccess.js`) -/

/-- A call of the middleware to the user model. -/
inductive StoreCall where
  | getUserByAuthToken (authToken : String)
  | updateUserById (userId : String) (lastAccess : Int)
deriving DecidableEq, Repr

/-- What the store does to the calls of one request: a lookup or a write may
reject with an error, and a write may resolve to a falsy value. -/
structure StoreFaults where
  lookupError : Option String
  writeError : Option String
  writeFalsy : Bool
deriving DecidableEq, Repr

/-- A store that answers every call. -/
def noFaults : StoreFaults := { lookupError := none, writeError := none, writeFalsy := false }

/-- One run of a middleware: the user collection afterwards, the responses
and `next` calls in order, the calls to the user model in order, and the
error the returned promise rejects with, if it does. -/
structure MiddlewareRun where
  users : List User
  effects : List Effect
  storeCalls : List StoreCall
  rejected : Option String
deriving DecidableEq, Repr

/-- The middleware `updateDataAccess`, run at time `now` on a request whose
`Auth-Key` header is `authKey`. -/
def updateDataAccess (faults : StoreFaults) (now : Int) (users : List User)
    (authKey : Option String) : MiddlewareRun :=
  match authKey with
  | none => { users := users, effects := [Effect.next], storeCalls := [], rejected := none }
  | some checkUser =>
    if !truthy (some checkUser) then
      { users := users, effects := [Effect.next], storeCalls := [], rejected := none }
    else
      match faults.lookupError with
      | some e =>
        { users := users, effects := [],
          storeCalls := [StoreCall.getUserByAuthToken checkUser], rejected := some e }
      | none =>
        match UserModel.getUserByAuthToken users checkUser with
        | none =>
          { users := users, effects := [Effect.next],
            storeCalls := [StoreCall.getUserByAuthToken checkUser], rejected := none }
        | some userData =>
          if userData.role == "student" then
            match faults.writeError with
            | some e =>
              { users := users, effects := [],
                storeCalls := [StoreCall.getUserByAuthToken checkUser,
                  StoreCall.updateUserById userData._id now],
                rejected := some e }
            | none =>
              if faults.writeFalsy then
                { users := users, effects := [Effect.next, Effect.next],
                  storeCalls := [StoreCall.getUserByAuthToken checkUser,
                    StoreCall.updateUserById userData._id now],
                  rejected := none }
              else
                match UserModel.updateUserById users (IdArg.oid userData._id)
                    { lastAccess := some (some now) } with
                | Except.ok updated =>
                  { users := updated, effects := [Effect.next],
                    storeCalls := [StoreCall.getUserByAuthToken checkUser,
                      StoreCall.updateUserById userData._id now],
                    rejected := none }
                | Except.error e =>
                  { users := users, effects := [],
                    storeCalls := [StoreCall.getUserByAuthToken checkUser,
                      StoreCall.updateUserById userData._id now],
                    rejected := some e }
          else
            { users := users, effects := [Effect.next],
              storeCalls := [StoreCall.getUserByAuthToken checkUser], rejected := none }

/-! ## Request values and stored documents -/

/-- A value of a request body field, or of a stored field: a JSON value, or
one of the numbers a JSON text cannot hold. A finite number is given by its
value, a rational; the sign of zero is not kept. -/
inductive JsValue where
  | undefined
  | null
  | bool (b : Bool)
  | num (q : ℚ)
  | nan
  | inf (negative : Bool)
  | str (s : String)
deriving DecidableEq, Repr

/-- Truthiness of a value: `!v` is `true` exactly when this is `false`. -/
def JsValue.truthy : JsValue → Bool
  | JsValue.undefined => false
  | JsValue.null => false
  | JsValue.bool b => b
  | JsValue.num q => decide (q ≠ 0)
  | JsValue.nan => false
  | JsValue.inf _ => true
  | JsValue.str s => s != ""

/-- The exponent part of a decimal literal, `e` or `E`, an optional sign and
digits; 0 when there is none. -/
def parseExponent : List Char → Int
  | [] => 0
  | c :: r =>
    if c == 'e' || c == 'E' then
      let signed := stripSign r
      let ds := takeDigits 10 signed.2
      if ds.isEmpty then 0 else signed.1 * (digitsValue 10 ds : Int)
    else 0

/-- What `parseFloat` finds at the start of a string: nothing it can read,
`Infinity`, or a decimal literal, given by its sign, the values of its
integer and fraction digits, the number of fraction digits and the exponent. -/
inductive DecimalPrefix where
  | notANumber
  | infinity (negative : Bool)
  | decimal (sign : Int) (intPart fracPart fracDigits : Nat) (exponent : Int)
deriving DecidableEq, Repr

/-- The scan of `parseFloat`: leading white space, an optional sign, then the
longest prefix that is a decimal literal. -/
def scanDecimal (cs : List Char) : DecimalPrefix :=
  let S := cs.dropWhile isStrWhiteSpaceChar
  let signed := stripSign S
  if "Infinity".toList.isPrefixOf signed.2 then
    DecimalPrefix.infinity (decide (signed.1 < 0))
  else
    let ip := takeDigits 10 signed.2
    let r1 := signed.2.drop ip.length
    let fp := match r1 with
      | '.' :: r => takeDigits 10 r
      | _ => []
    let r2 := match r1 with
      | '.' :: r => r.drop fp.length
      | _ => r1
    if ip.isEmpty && fp.isEmpty then DecimalPrefix.notANumber
    else DecimalPrefix.decimal signed.1 (digitsValue 10 ip) (digitsValue 10 fp) fp.length
      (parseExponent r2)

/-- The double nearest to `n / d`, for `d > 0`, as a pair `(m, u)` of value
`m * 2 ^ u`; `none` when the result is beyond the largest double. This is
IEEE 754 round to nearest, ties to even: `e` is the binary exponent of
`n / d`, a normal number has 53 significant binary digits and a subnormal one
the unit `2 ^ -1074`. -/
def nearestDouble (n d : Nat) : Option (Nat × Int) :=
  if n = 0 then some (0, 0) else
  let k : Int := (bitLength n : Int) - (bitLength d : Int)
  let ge : Bool :=
    if 0 ≤ k then decide (d * 2 ^ k.toNat ≤ n) else decide (d ≤ n * 2 ^ (-k).toNat)
  let e : Int := if ge then k else k - 1
  let u : Int := max e (-1022) - 52
  let m : Nat :=
    if 0 ≤ u then roundHalfEven n (d * 2 ^ u.toNat) else roundHalfEven (n * 2 ^ (-u).toNat) d
  if 0 ≤ u ∧ 2 ^ 1024 ≤ m * 2 ^ u.toNat then none else some (m, u)

/-- The Number value of the rational `n / d`, negated when `negative`: the
nearest double, or an infinity beyond the largest double. -/
def numberValue (negative : Bool) (n d : Nat) : JsValue :=
  match nearestDouble n d with
  | none => JsValue.inf negative
  | some (m, u) => JsValue.num ((if negative then -1 else 1) * (m : ℚ) * (2 : ℚ) ^ u)

/-- The global `parseFloat` of ECMAScript on the characters of a string: the
Number value of the decimal literal it finds, which is the number
`sign * (intPart * 10 ^ fracDigits + fracPart) * 10 ^ (exponent - fracDigits)`. -/
def parseFloatChars (cs : List Char) : JsValue :=
  match scanDecimal cs with
  | DecimalPrefix.notANumber => JsValue.nan
  | DecimalPrefix.infinity negative => JsValue.inf negative
  | DecimalPrefix.decimal sign intPart fracPart fracDigits exponent =>
    let digits := intPart * 10 ^ fracDigits + fracPart
    let scale : Int := exponent - fracDigits
    numberValue (decide (sign < 0)) (digits * 10 ^ scale.toNat) (10 ^ (-scale).toNat)

/-- The global `parseFloat(value)`: the argument is first turned into a
string; the string of a number parses back to that number, and `undefined`,
`null`, `true` and `false` give `NaN`. -/
def parseFloat : JsValue → JsValue
  | JsValue.str s => parseFloatChars s.toList
  | JsValue.num q => JsValue.num q
  | JsValue.nan => JsValue.nan
  | JsValue.inf b => JsValue.inf b
  | JsValue.undefined => JsValue.nan
  | JsValue.null => JsValue.nan
  | JsValue.bool _ => JsValue.nan

/-- A document of the `WeatherData` collection with the values its fields
hold, in memory as the constructor builds it or in the store. `Reading` is
the same document read by the queries, where every measurement is a number.
`Time` is `none` for an invalid date, which only a document in memory has. -/
structure StoredReading where
  _id : String
  deviceName : JsValue
  precipitation : JsValue
  time : Option Int
  latitude : JsValue
  longitude : JsValue
  temperature : JsValue
  atmosphericPressure : JsValue
  maxWindSpeed : JsValue
  solarRadiation : JsValue
  vaporPressure : JsValue
  humidity : JsValue
  windDirection : JsValue
deriving DecidableEq, Repr

/-- The body of an insert request: `_id` is absent or a string. -/
structure ReadingBody where
  _id : Option String
  deviceName : JsValue
  precipitation : JsValue
  time : JsValue
  latitude : JsValue
  longitude : JsValue
  temperature : JsValue
  atmosphericPressure : JsValue
  maxWindSpeed : JsValue
  solarRadiation : JsValue
  vaporPressure : JsValue
  humidity : JsValue
  windDirection : JsValue
deriving DecidableEq, Repr

/-- A response `status`, `message`. -/
structure Reply where
  status : Nat
  message : String
deriving DecidableEq, Repr

/-- What an async controller does: it sends a response, or it throws out of
its own body, so that its promise rejects and it sends nothing. -/
inductive Outcome where
  | sent (reply : Reply)
  | threw (error : String)
deriving DecidableEq, Repr

/-- The `data` of a successful precipitation patch. -/
structure PatchData where
  PreviousValue : JsValue
  UpdatedValue : JsValue
deriving DecidableEq, Repr

/-- The response of the precipitation patch. -/
structure PatchReply where
  status : Nat
  message : String
  data : Option PatchData
deriving DecidableEq, Repr

/-- The response of `deleteWeatherData`. -/
structure DeleteReply where
  status : Nat
  message : String
  deletedCount : Option Nat
deriving DecidableEq, Repr

/-- The response of the user controller `getUserById`. -/
structure UserReply where
  status : Nat
  message : String
  userData : Option User
deriving DecidableEq, Repr

namespace Readings

/-- The constructor `WeatherReading(_id, deviceName, ..., windDirection)`.
An absent `_id` gives a new object id, `freshId`; `newDate` is the time value
of `new Date(time)`. -/
def WeatherReading (freshId : String) (newDate : JsValue → Option Int)
    (_id : Option String) (deviceName precipitation time latitude longitude temperature
      atmosphericPressure maxWindSpeed solarRadiation vaporPressure humidity
      windDirection : JsValue) : Except String StoredReading :=
  match (match _id with
    | none => Except.ok freshId
    | some s => newObjectId (IdArg.text s)) with
  | Except.error e => Except.error e
  | Except.ok oid =>
    Except.ok
      { _id := oid
        deviceName := deviceName
        precipitation := parseFloat precipitation
        time := newDate time
        latitude := parseFloat latitude
        longitude := parseFloat longitude
        temperature := parseFloat temperature
        atmosphericPressure := parseFloat atmosphericPressure
        maxWindSpeed := parseFloat maxWindSpeed
        solarRadiation := parseFloat solarRadiation
        vaporPressure := parseFloat vaporPressure
        humidity := parseFloat humidity
        windDirection := parseFloat windDirection }

/-- The query `findOne(_id: new ObjectId(_id))` of `getReadingById`. -/
def getReadingById (store : List StoredReading) (_id : IdArg) :
    Except String (Option StoredReading) :=
  match newObjectId _id with
  | Except.error e => Except.error e
  | Except.ok oid => Except.ok (store.find? (fun r => r._id == oid))

/-- The document the driver writes for a reading: an invalid date is written
as the date of time value 0 and `undefined` as `null`; numbers, also `NaN`
and the infinities, and strings are written as they are. -/
def toStored (reading : StoredReading) : StoredReading :=
  { reading with
    deviceName := (match reading.deviceName with
      | JsValue.undefined => JsValue.null
      | v => v)
    time := some (reading.time.getD 0) }

/-- The call `insertOne(reading)`: the store refuses a second document with
the same `_id`. The new collection is returned. -/
def insertReading (store : List StoredReading) (reading : StoredReading) :
    Except String (List StoredReading) :=
  if store.any (fun r => r._id == reading._id) then
    Except.error "MongoServerError: E11000 duplicate key error"
  else Except.ok (store ++ [toStored reading])

/-- An ordered bulk insert: the documents are inserted one by one and the
first refusal stops the batch; what was inserted before stays. -/
def insertInOrder : List StoredReading → List StoredReading →
    List StoredReading × Option String
  | store, [] => (store, none)
  | store, d :: ds =>
    if store.any (fun r => r._id == d._id) then
      (store, some "MongoBulkWriteError: E11000 duplicate key error")
    else insertInOrder (store ++ [toStored d]) ds

/-- The call `insertMany(readings)`: the new collection, and the error it
throws, if it does. An empty batch is refused. -/
def insertMultipleReadings (store : List StoredReading) (readings : List StoredReading) :
    List StoredReading × Option String :=
  if readings.isEmpty then
    (store, some "MongoInvalidArgumentError: Invalid BulkOperation, Batch cannot be empty")
  else insertInOrder store readings

/-- The function `updatePrecipitationById(_id, precipitation)`: the value it
resolves to and the new collection, or the reason it throws or rejects. -/
def updatePrecipitationById (store : List StoredReading) (_id : IdArg)
    (precipitation : JsValue) : Except String (PatchData × List StoredReading) :=
  match newObjectId _id with
  | Except.error e => Except.error e
  | Except.ok oid =>
    match store.find? (fun r => r._id == oid) with
    | some existingEntry =>
      let previousValue := existingEntry.precipitation
      let updated := updateFirst (fun r => r._id == oid)
        (fun r => { r with precipitation := precipitation }) store
      Except.ok ({ PreviousValue := previousValue, UpdatedValue := precipitation }, updated)
    | none => Except.error "Weather Data not found"

/-- The call `deleteOne(_id: new ObjectId(dataId))`: the `deletedCount` and
the new collection. -/
def deleteDataById (store : List StoredReading) (dataId : IdArg) :
    Except String (Nat × List StoredReading) :=
  match newObjectId dataId with
  | Except.error e => Except.error e
  | Except.ok oid =>
    Except.ok ((if store.any (fun r => r._id == oid) then 1 else 0),
      store.eraseP (fun r => r._id == oid))

end Readings

/-! ## The writing controllers (`controllers/weatherReading.js`, `controllers/user.js`) -/

/-- The constructor call of the insert controllers on one request item. -/
def constructReading (freshId : String) (newDate : JsValue → Option Int)
    (newReading : ReadingBody) : Except String StoredReading :=
  Readings.WeatherReading freshId newDate newReading._id newReading.deviceName
    newReading.precipitation newReading.time newReading.latitude newReading.longitude
    newReading.temperature newReading.atmosphericPressure newReading.maxWindSpeed
    newReading.solarRadiation newReading.vaporPressure newReading.humidity
    newReading.windDirection

/-- The controller `insertReading` for `POST /weather-reading`: what it does
and the collection afterwards. The constructor is called before the promise
chain, so what it throws is not caught. -/
def insertReading (freshId : String) (newDate : JsValue → Option Int)
    (store : List StoredReading) (newReading : ReadingBody) :
    Outcome × List StoredReading :=
  match constructReading freshId newDate newReading with
  | Except.error e => (Outcome.threw e, store)
  | Except.ok reading =>
    match Readings.insertReading store reading with
    | Except.ok inserted =>
      (Outcome.sent (Reply.mk 200 "Added a new weather data reading."), inserted)
    | Except.error error =>
      (Outcome.sent
        (Reply.mk 500 ("Failed to add the new reading to the database." ++ error)), store)

/-- The call `req.body.map(reading => WeatherReading(..))`: the items are
built in order, item `i` with the new object id `freshIds i` when it has no
`_id`, and the first throw ends the map. -/
def constructAll (freshIds : Nat → String) (newDate : JsValue → Option Int) :
    Nat → List ReadingBody → Except String (List StoredReading)
  | _, [] => Except.ok []
  | i, b :: bs =>
    match constructReading (freshIds i) newDate b with
    | Except.error e => Except.error e
    | Except.ok r =>
      match constructAll freshIds newDate (i + 1) bs with
      | Except.error e => Except.error e
      | Except.ok rs => Except.ok (r :: rs)

/-- The controller `insertMultipleReadings` for
`POST /weather-reading/insert-readings`. The map over the body runs before
the `try` block. -/
def insertMultipleReadings (freshIds : Nat → String) (newDate : JsValue → Option Int)
    (store : List StoredReading) (body : List ReadingBody) :
    Outcome × List StoredReading :=
  match constructAll freshIds newDate 0 body with
  | Except.error e => (Outcome.threw e, store)
  | Except.ok newReadings =>
    match Readings.insertMultipleReadings store newReadings with
    | (inserted, none) =>
      (Outcome.sent
        (Reply.mk 200 "Added multiple weather data readings for a single station."),
        inserted)
    | (inserted, some error) =>
      (Outcome.sent
        (Reply.mk 500 ("Failed to add multiple readings to the database. " ++ error)),
        inserted)

/-- The controller `updatePrecipitationById` for
`PATCH /weather-reading/update-precipitation`, on a body with the fields
`_id` and `newPrecipitation`. The value the model resolves to is an object,
so the test `!updatedReading` of the controller is never met. -/
def updatePrecipitationById (store : List StoredReading) (_id : Option String)
    (newPrecipitation : JsValue) : PatchReply × List StoredReading :=
  match _id with
  | none =>
    ({ status := 400, message := "ID and new precipitation value are required.",
       data := none }, store)
  | some id =>
    if !truthy (some id) || !newPrecipitation.truthy then
      ({ status := 400, message := "ID and new precipitation value are required.",
         data := none }, store)
    else
      match Readings.updatePrecipitationById store (IdArg.text id) newPrecipitation with
      | Except.ok (updatedReading, updated) =>
        ({ status := 200, message := "Precipitation value updated successfully.",
           data := some updatedReading }, updated)
      | Except.error error =>
        ({ status := 500, message := "Failed to update precipitation value. " ++ error,
           data := none }, store)

/-- The controller `deleteWeatherData` for `DELETE /weather-reading/delete`,
on a body with the field `weatherDataId`. -/
def deleteWeatherData (store : List StoredReading) (weatherDataId : Option String) :
    DeleteReply × List StoredReading :=
  match weatherDataId with
  | none => ({ status := 400, message := "Invalid weatherDataId format.",
               deletedCount := none }, store)
  | some id =>
    if !truthy (some id) || id == "" then
      ({ status := 400, message := "Invalid weatherDataId format.", deletedCount := none },
        store)
    else
      match Readings.getReadingById store (IdArg.text id) with
      | Except.error error =>
        ({ status := 500, message := "Failed to delete weather data." ++ error,
           deletedCount := none }, store)
      | Except.ok none =>
        ({ status := 404, message := "No weather data found with id " ++ id,
           deletedCount := none }, store)
      | Except.ok (some _) =>
        match Readings.deleteDataById store (IdArg.text id) with
        | Except.error error =>
          ({ status := 500, message := "Failed to delete weather data." ++ error,
             deletedCount := none }, store)
        | Except.ok (deletedCount, remaining) =>
          ({ status := 200, message := "Weather data deleted and logged successfully.",
             deletedCount := some deletedCount }, remaining)

/-- The controller `getUserById` for `GET /user/:id`: the responses it sends,
in order. The test of an empty `id` sends 400 and does not return. -/
def getUserById (users : List User) (id : String) : List UserReply :=
  (if !truthy (some id) then
    [{ status := 400,
       message := "Please provide a valid User ID (insert in ObjectId format)",
       userData := none }]
  else []) ++
  (match UserModel.getUserById users (IdArg.text id) with
  | Except.error error =>
    [{ status := 500, message := "Database error finding user" ++ error, userData := none }]
  | Except.ok none =>
    [{ status := 404, message := "No user was found with this ID!", userData := none }]
  | Except.ok (some userData) =>
    [{ status := 200, message := "User Found", userData := some userData }])

/-! ## The user and authentication controllers (`controllers/user.js`, `controllers/auth.js`) -/

/-- The body of a create-user or register request. -/
structure NewUserBody where
  username : String
  email : String
  password : String
  role : String
deriving DecidableEq, Repr

/-- The response of `loginUser`. -/
structure LoginReply where
  status : Nat
  message : String
  authToken : Option String
deriving DecidableEq, Repr

namespace UserModel

/-- The query `findOne(email: email)` of `getUserByEmail`. -/
def getUserByEmail (users : List User) (email : String) : Option User :=
  users.find? (fun u => u.email == email)

/-- The call `insertOne(user)` of `createUser` on a user built with a null
`_id`: the driver gives it the new object id `freshId`, and the store refuses
a second document with the same `_id`. The new collection is returned. -/
def createUser (freshId : String) (users : List User) (user : User) :
    Except String (List User) :=
  if users.any (fun u => u._id == freshId) then
    Except.error "MongoServerError: E11000 duplicate key error"
  else Except.ok (users ++ [{ user with _id := freshId }])

end UserModel

/-- The constructor `User(_id, username, email, password, role, lastLogin,
createdAt)` of the user model; the object has no `authToken` and no
`lastAccess`. -/
def UserModel.User (_id username email password role : String) (lastLogin createdAt : Option Int) :
    User :=
  { _id := _id, username := username, email := email, password := password, role := role,
    authToken := none, lastLogin := lastLogin, lastAccess := none, createdAt := createdAt }

/-- The controller `createUser` for `POST /user/create-user`, run at time
`now`; `hashSync` is the salted hash of the request and `freshId` the object
id the insert gives the user. The insert result is an object, so the test
`!insertedUser` is never met. -/
def createUser (hashSync : String → String) (freshId : String) (now : Int)
    (users : List User) (newUserData : NewUserBody) : Reply × List User :=
  match UserModel.getUserByEmail users newUserData.email with
  | some _ =>
    (Reply.mk 409 "The provided email address is already associated with an account.", users)
  | none =>
    let hashedPassword := hashSync newUserData.password
    let userData := UserModel.User "" newUserData.username newUserData.email hashedPassword
      newUserData.role none (some now)
    match UserModel.createUser freshId users userData with
    | Except.ok inserted => (Reply.mk 200 "New user created", inserted)
    | Except.error error => (Reply.mk 500 ("Error create new user" ++ error), users)

/-- The controller `registerUser` for `POST /auth/register`. -/
def registerUser (hashSync : String → String) (freshId : String) (now : Int)
    (users : List User) (registrationData : NewUserBody) : Reply × List User :=
  match UserModel.getUserByEmail users registrationData.email with
  | some _ => (Reply.mk 409 "Email already exists", users)
  | none =>
    let hashedPassword := hashSync registrationData.password
    let newUser := UserModel.User "" registrationData.username registrationData.email
      hashedPassword "student" none (some now)
    match UserModel.createUser freshId users newUser with
    | Except.ok inserted => (Reply.mk 200 "User registered successfully", inserted)
    | Except.error error => (Reply.mk 500 ("Failed to register user. " ++ error), users)

/-- The controller `loginUser` for `POST /auth/login`, run at time `now`;
`compare` is the password check and `uuid4` the token the call generates. -/
def loginUser (compare : String → String → Bool) (uuid4 : String) (now : Int)
    (users : List User) (email password : String) : LoginReply × List User :=
  match UserModel.getUserByEmail users email with
  | none => (LoginReply.mk 404 "User not found with this email" none, users)
  | some checkEmail =>
    if !compare password checkEmail.password then
      (LoginReply.mk 401 "Invalid password" none, users)
    else
      match UserModel.updateUserById users (IdArg.oid checkEmail._id)
          { authToken := some (some uuid4), lastLogin := some (some now) } with
      | Except.error error => (LoginReply.mk 500 ("Error in Login User: " ++ error) none, users)
      | Except.ok updated =>
        match UserModel.getUserById updated (IdArg.oid checkEmail._id) with
        | Except.ok (some userWithToken) =>
          (LoginReply.mk 200 "Logged in successfully" userWithToken.authToken, updated)
        | Except.ok none =>
          (LoginReply.mk 500 "Error in Login User: TypeError: Cannot read properties of null"
            none, updated)
        | Except.error error =>
          (LoginReply.mk 500 ("Error in Login User: " ++ error) none, updated)

/-- The controller `logoutUser` for `POST /auth/logout`, on a body with the
field `authToken`. -/
def logoutUser (users : List User) (authToken : Option String) : Reply × List User :=
  match authToken with
  | none => (Reply.mk 400 "Authentication token is required for logout.", users)
  | some token =>
    if !truthy (some token) then
      (Reply.mk 400 "Authentication token is required for logout.", users)
    else
      match UserModel.getUserByAuthToken users token with
      | none => (Reply.mk 404 "User not found. Invalid authentication token.", users)
      | some user =>
        match UserModel.updateUserById users (IdArg.oid user._id) { authToken := some none } with
        | Except.ok updated => (Reply.mk 200 "User logged out successfully.", updated)
        | Except.error error => (Reply.mk 500 ("Failed to logout user. " ++ error), users)

/-- The controller `updateUserById` for `PATCH /user/update-user/:id`, on the
path parameter `id` and the body `newUserData`. -/
def updateUserById (users : List User) (id : String) (newUserData : UserPatch) :
    Reply × List User :=
  match UserModel.getUserById users (IdArg.text id) with
  | Except.error error => (Reply.mk 500 ("Failed to update user data. " ++ error), users)
  | Except.ok none => (Reply.mk 404 "User not found.", users)
  | Except.ok (some _) =>
    match UserModel.updateUserById users (IdArg.text id) newUserData with
    | Except.error error => (Reply.mk 500 ("Failed to update user data. " ++ error), users)
    | Except.ok updated => (Reply.mk 200 "User updated successfully.", updated)

/-- The controller `updateRoleInDateRange` for `PATCH /user/update-role`, on
a body with the fields `startDate`, `endDate` and `newRole`; `newDate` gives
the time value of `new Date(..)` for the date strings of the request. -/
def updateRoleInDateRange (newDate : String → Int) (users : List User)
    (startDate endDate newRole : Option String) : Reply × List User :=
  match startDate, endDate, newRole with
  | some s, some e, some r =>
    if !truthy (some s) || !truthy (some e) || !truthy (some r) then
      (Reply.mk 400 "Please provide valid input data.", users)
    else
      (Reply.mk 200 "New Role updated successfully.",
        UserModel.updateRoleInDateRange users (newDate s) (newDate e) { role := some r })
  | _, _, _ => (Reply.mk 400 "Please provide valid input data.", users)

/-! ## The gated routes (`routes/user.js`, `routes/weatherReading.js`) -/

/-- A route registered with `controlAccess(allowedRoles)`. -/
structure GatedRoute where
  method : String
  path : String
  allowedRoles : List String
deriving DecidableEq, Repr

/-- The routes of `userRouter`, mounted at `/user`; every one is gated. -/
def userRoutes : List GatedRoute :=
  [GatedRoute.mk "GET" "/user" ["teacher"],
   GatedRoute.mk "GET" "/user/:id" ["teacher"],
   GatedRoute.mk "POST" "/user/create-user" ["teacher"],
   GatedRoute.mk "PATCH" "/user/update-user/:id" ["teacher"],
   GatedRoute.mk "PATCH" "/user/update-role" ["teacher"],
   GatedRoute.mk "DELETE" "/user/delete-user/:id" ["teacher"],
   GatedRoute.mk "DELETE" "/user/delete-students" ["teacher"]]

/-- The gated routes of `weatherRouter`, mounted at `/weather-reading`; its
other routes run `updateDataAccess` and no gate. -/
def weatherGatedRoutes : List GatedRoute :=
  [GatedRoute.mk "POST" "/weather-reading" ["station", "teacher"],
   GatedRoute.mk "POST" "/weather-reading/insert-readings" ["station", "teacher"],
   GatedRoute.mk "PATCH" "/weather-reading/update-precipitation" ["station", "teacher"],
   GatedRoute.mk "DELETE" "/weather-reading/delete" ["teacher"]]

/-- Every route of the two routers that is registered with `controlAccess`. -/
def gatedRoutes : List GatedRoute := userRoutes ++ weatherGatedRoutes

/-! ## Sequences of user operations -/

/-- One request to the user directory, with what its run takes from the
environment: the hash, the new object id, the generated token, the clock. -/
inductive UserOp where
  | register (hashSync : String → String) (freshId : String) (now : Int) (body : NewUserBody)
  | create (hashSync : String → String) (freshId : String) (now : Int)
      (body : NewUserBody)
  | updateById (id : String) (body : UserPatch)
  | updateRole (newDate : String → Int) (startDate endDate newRole : Option String)
  | login (compare : String → String → Bool) (uuid4 : String) (now : Int)
      (email password : String)
  | logout (authToken : Option String)

/-- The user collection after one request. -/
def UserOp.apply (users : List User) : UserOp → List User
  | UserOp.register hashSync freshId now body =>
    (registerUser hashSync freshId now users body).2
  | UserOp.create hashSync freshId now body =>
    (createUser hashSync freshId now users body).2
  | UserOp.updateById id body => (updateUserById users id body).2
  | UserOp.updateRole newDate startDate endDate newRole =>
    (updateRoleInDateRange newDate users startDate endDate newRole).2
  | UserOp.login compare uuid4 now email password =>
    (loginUser compare uuid4 now users email password).2
  | UserOp.logout authToken => (logoutUser users authToken).2

/-- The user collection after a sequence of requests, run one after the
other. -/
def runUserOps (users : List User) (ops : List UserOp) : List User :=
  ops.foldl UserOp.apply users

/-- One of the four roles of the data model. -/
def isKnownRole (role : String) : Bool :=
  role == "admin" || role == "teacher" || role == "student" || role == "station"

/-- The role a request asks the store to write, if it names one. -/
def UserOp.requestedRole : UserOp → Option String
  | UserOp.register _ _ _ _ => none
  | UserOp.create _ _ _ body => some body.role
  | UserOp.updateById _ body => body.role
  | UserOp.updateRole _ _ _ newRole => newRole
  | UserOp.login _ _ _ _ _ => none
  | UserOp.logout _ => none

/-- A value is a number, as `typeof` sees it. -/
def JsValue.isNumber : JsValue → Bool
  | JsValue.num _ => true
  | JsValue.nan => true
  | JsValue.inf _ => true
  | _ => false

/-! ## Decimal numerals, as the round-trip property reads them -/

/-- The character of a decimal digit. -/
def digitChar (d : Fin 10) : Char := Char.ofNat (48 + d.val)

/-- A decimal numeral: an optional minus sign, integer digits, and fraction
digits after a point when there are any; most significant digit first. -/
structure DecimalNumeral where
  negative : Bool
  intDigits : List (Fin 10)
  fracDigits : List (Fin 10)
deriving DecidableEq, Repr

/-- The characters of a decimal numeral. -/
def DecimalNumeral.chars (n : DecimalNumeral) : List Char :=
  (if n.negative then ['-'] else []) ++
    (n.intDigits.map digitChar ++
      (if n.fracDigits.isEmpty then [] else '.' :: n.fracDigits.map digitChar))

/-- The string of a decimal numeral. -/
def DecimalNumeral.render (n : DecimalNumeral) : String := String.mk n.chars

/-- The number a decimal numeral denotes. -/
def DecimalNumeral.value (n : DecimalNumeral) : ℚ :=
  (if n.negative then -1 else 1) *
    ((Nat.ofDigits 10 (n.intDigits.reverse.map Fin.val) : ℚ) +
      (Nat.ofDigits 10 (n.fracDigits.reverse.map Fin.val) : ℚ) / (10 : ℚ) ^ n.fracDigits.length)

/-- The digits of a decimal numeral read as one integer, without the point. -/
def DecimalNumeral.numerator (n : DecimalNumeral) : Nat :=
  Nat.ofDigits 10 (n.intDigits.reverse.map Fin.val) * 10 ^ n.fracDigits.length +
    Nat.ofDigits 10 (n.fracDigits.reverse.map Fin.val)

/-- The power of ten that the point of a decimal numeral divides by. -/
def DecimalNumeral.denominator (n : DecimalNumeral) : Nat := 10 ^ n.fracDigits.length

/-- The Number value of the number a decimal numeral denotes, which is
`numerator / denominator` with the sign of the numeral. -/
def DecimalNumeral.numberValue (n : DecimalNumeral) : JsValue :=
  WeatherAPI.numberValue n.negative n.numerator n.denominator

/-- The ten measurement and geolocation fields of an insert body. -/
def ReadingBody.measurements (b : ReadingBody) : List JsValue :=
  [b.precipitation, b.latitude, b.longitude, b.temperature, b.atmosphericPressure,
   b.maxWindSpeed, b.solarRadiation, b.vaporPressure, b.humidity, b.windDirection]

/-- The ten measurement and geolocation fields of a stored reading. -/
def StoredReading.measurements (r : StoredReading) : List JsValue :=
  [r.precipitation, r.latitude, r.longitude, r.temperature, r.atmosphericPressure,
   r.maxWindSpeed, r.solarRadiation, r.vaporPressure, r.humidity, r.windDirection]

/-! ## Sample data -/

/-- A teacher holding token `"tok"`. -/
def sampleTeacher : User :=
  { _id := "u1", username := "t", email := "t@example.org", password := "x",
    role := "teacher", authToken := some "tok", lastLogin := none,
    lastAccess := none, createdAt := none }

/-- A reading with the given id, device name, time and precipitation. -/
def sampleReading (i d : String) (t pr : Int) : Reading :=
  { _id := i, deviceName := d, precipitation := pr, time := t, latitude := 0,
    longitude := 0, temperature := 0, atmosphericPressure := 0, maxWindSpeed := 0,
    solarRadiation := 0, vaporPressure := 0, humidity := 0, windDirection := 0 }

/-- Five readings `a`, `b`, `c`, `d`, `e` of the two devices `D` and `E`. -/
def sampleStore : List Reading :=
  [sampleReading "a" "D" 10 5, sampleReading "b" "E" 20 1, sampleReading "c" "D" 30 2,
   sampleReading "d" "D" 20 9, sampleReading "e" "D" 20 3]

/-- A reading with the given id, device name, time and temperature. -/
def sampleTemperatureReading (i d : String) (t temp : Int) : Reading :=
  { _id := i, deviceName := d, precipitation := 0, time := t, latitude := 0,
    longitude := 0, temperature := temp, atmosphericPressure := 0, maxWindSpeed := 0,
    solarRadiation := 0, vaporPressure := 0, humidity := 0, windDirection := 0 }

/-- Three readings of device `D` and one of device `E`, at UTC times within
2024-03-14, with temperatures 11, 30, 25 and 17. -/
def sampleTemperatureStore : List Reading :=
  [sampleTemperatureReading "a" "D" 1710412200000 11,
   sampleTemperatureReading "b" "E" 1710415800000 30,
   sampleTemperatureReading "c" "D" 1710419400000 25,
   sampleTemperatureReading "d" "D" 1710423000000 17]

/-- A host in the UTC time zone. -/
def utcZone : TimeZone := { localTZA := fun _ _ => 0 }

/-- A student holding token `"stu"`, last seen at time 5. -/
def sampleStudent : User :=
  { _id := "u2", username := "s", email := "s@example.org", password := "x",
    role := "student", authToken := some "stu", lastLogin := some 100,
    lastAccess := some 5, createdAt := some 50 }

/-- A station account created at time 60. -/
def sampleStation : User :=
  { _id := "u3", username := "st", email := "st@example.org", password := "x",
    role := "station", authToken := none, lastLogin := none,
    lastAccess := none, createdAt := some 60 }

/-- A student that has never logged in. -/
def sampleNewStudent : User :=
  { _id := "u4", username := "n", email := "n@example.org", password := "x",
    role := "student", authToken := none, lastLogin := none,
    lastAccess := none, createdAt := some 70 }

/-- A collection of four users. -/
def sampleUsers : List User := [sampleTeacher, sampleStudent, sampleStation, sampleNewStudent]

/-- A store whose token lookup rejects. -/
def lookupFails : StoreFaults :=
  { lookupError := some "MongoNetworkError", writeError := none, writeFalsy := false }

/-- A store whose write of `lastAccess` rejects. -/
def writeFails : StoreFaults :=
  { lookupError := none, writeError := some "MongoNetworkError", writeFalsy := false }

/-- A store whose write of `lastAccess` resolves to a falsy value. -/
def writeReportsNothing : StoreFaults :=
  { lookupError := none, writeError := none, writeFalsy := true }

/-- A stored reading with the given id and precipitation. -/
def sampleStoredReading (i : String) (p : JsValue) : StoredReading :=
  { _id := i, deviceName := JsValue.str "D", precipitation := p, time := some 10,
    latitude := JsValue.num 0, longitude := JsValue.num 0, temperature := JsValue.num 0,
    atmosphericPressure := JsValue.num 0, maxWindSpeed := JsValue.num 0,
    solarRadiation := JsValue.num 0, vaporPressure := JsValue.num 0,
    humidity := JsValue.num 0, windDirection := JsValue.num 0 }

/-- A collection of two stored readings. -/
def sampleStoredStore : List StoredReading :=
  [sampleStoredReading "65f027649250bb7f552f6801" (JsValue.num 5),
   sampleStoredReading "65f027649250bb7f552f6802" (JsValue.num 1)]

/-- An insert body whose measurements are decimal-numeral strings. -/
def sampleBody (i : Option String) : ReadingBody :=
  { _id := i, deviceName := JsValue.str "D", precipitation := JsValue.str "3.5",
    time := JsValue.str "2024-03-14T10:30:00Z", latitude := JsValue.str "-27.47",
    longitude := JsValue.str "153.02", temperature := JsValue.str "21",
    atmosphericPressure := JsValue.str "101.3", maxWindSpeed := JsValue.str "4.25",
    solarRadiation := JsValue.str "600", vaporPressure := JsValue.str "1.9",
    humidity := JsValue.str "75.5", windDirection := JsValue.str "180" }

/-- A date parser that knows one date string. -/
def sampleNewDate : JsValue → Option Int
  | JsValue.str "2024-03-14T10:30:00Z" => some 1710412200000
  | _ => none

/-- The numerals of the ten measurement fields of `sampleBody`. -/
def sampleNumerals : List DecimalNumeral :=
  [{ negative := false, intDigits := [3], fracDigits := [5] },
   { negative := true, intDigits := [2, 7], fracDigits := [4, 7] },
   { negative := false, intDigits := [1, 5, 3], fracDigits := [0, 2] },
   { negative := false, intDigits := [2, 1], fracDigits := [] },
   { negative := false, intDigits := [1, 0, 1], fracDigits := [3] },
   { negative := false, intDigits := [4], fracDigits := [2, 5] },
   { negative := false, intDigits := [6, 0, 0], fracDigits := [] },
   { negative := false, intDigits := [1], fracDigits := [9] },
   { negative := false, intDigits := [7, 5], fracDigits := [5] },
   { negative := false, intDigits := [1, 8, 0], fracDigits := [] }]

/-- The reading that the constructor builds from `sampleBody none` when the
new object id is `65f027649250bb7f552f6809`. -/
def sampleConstructedReading : StoredReading :=
  { _id := "65f027649250bb7f552f6809", deviceName := JsValue.str "D",
    precipitation := parseFloat (JsValue.str "3.5"), time := some 1710412200000,
    latitude := parseFloat (JsValue.str "-27.47"),
    longitude := parseFloat (JsValue.str "153.02"),
    temperature := parseFloat (JsValue.str "21"),
    atmosphericPressure := parseFloat (JsValue.str "101.3"),
    maxWindSpeed := parseFloat (JsValue.str "4.25"),
    solarRadiation := parseFloat (JsValue.str "600"),
    vaporPressure := parseFloat (JsValue.str "1.9"),
    humidity := parseFloat (JsValue.str "75.5"),
    windDirection := parseFloat (JsValue.str "180") }

/-- The time value of `new Date(s)` for the two date-time strings of the
sample role request: 0 ms and 100 ms after the epoch. -/
def sampleDateValue (s : String) : Int :=
  if s == "1970-01-01T00:00:00.100Z" then 100 else 0

/-- A role reassignment over the creation times 0 to 100 that asks for the
role `superuser`. -/
def sampleRoleRequest : UserOp :=
  UserOp.updateRole sampleDateValue (some "1970-01-01T00:00:00.000Z")
    (some "1970-01-01T00:00:00.100Z") (some "superuser")

/-- A create-user request for a second teacher. -/
def sampleCreateRequest : UserOp :=
  UserOp.create (fun password => "hash:" ++ password) "65f027649250bb7f552f6810" 80
    (NewUserBody.mk "t2" "t2@example.org" "pw" "teacher")

/-- The numeral `1` followed by 309 zeros: the number `10 ^ 309`, which is
beyond the largest double. -/
def sampleHugeNumeral : DecimalNumeral :=
  { negative := false, intDigits := 1 :: List.replicate 309 0, fracDigits := [] }

/-- The body `sampleBody none` with the precipitation `sampleHugeNumeral`. -/
def sampleHugeBody : ReadingBody :=
  { sampleBody none with precipitation := JsValue.str sampleHugeNumeral.render }

/-! ## Theorems -/

/-! ### Lemmas on the primitives -/

theorem truthy_eq_false_iff (v : Option String) :
    truthy v = false ↔ v = none ∨ v = some "" := by
  cases v with
  | none => simp [truthy]
  | some s => simp [truthy]

theorem getUserByAuthToken_eq_none_iff (users : List User) (t : String) :
    UserModel.getUserByAuthToken users t = none ↔ ∀ u ∈ users, u.authToken ≠ some t := by
  simp [UserModel.getUserByAuthToken, List.find?_eq_none]

theorem getUserByAuthToken_some (users : List User) (t : String) (u : User)
    (h : UserModel.getUserByAuthToken users t = some u) : u ∈ users ∧ u.authToken = some t := by
  unfold UserModel.getUserByAuthToken at h
  refine ⟨List.mem_of_find?_eq_some h, ?_⟩
  have := List.find?_some h
  simpa using this


/-! ### Arithmetic of the page counts -/

theorem floorDiv_eq_floor (a b : Int) (hb : b ≠ 0) :
    floorDiv a b = ⌊(a : ℚ) / (b : ℚ)⌋ := by
  unfold floorDiv
  by_cases h : 0 ≤ b
  · rw [if_pos h]
    obtain ⟨n, rfl⟩ := Int.eq_ofNat_of_zero_le h
    have := Rat.floor_intCast_div_natCast a n
    simpa using this.symm
  · rw [if_neg h]
    have hneg : 0 ≤ -b := by omega
    obtain ⟨n, hn⟩ := Int.eq_ofNat_of_zero_le hneg
    have h1 := Rat.floor_intCast_div_natCast (-a) n
    have hq : ((-a : Int) : ℚ) / (n : ℚ) = (a : ℚ) / (b : ℚ) := by
      have hbq : (b : ℚ) = -(n : ℚ) := by
        have : b = -(n : Int) := by omega
        rw [this]; push_cast; ring
      rw [hbq]
      push_cast
      rw [neg_div, div_neg]
    rw [hq] at h1
    rw [h1, hn]

theorem mathCeilDiv_eq_ceil (a b : Int) (hb : b ≠ 0) :
    mathCeilDiv a b = ⌈(a : ℚ) / (b : ℚ)⌉ := by
  unfold mathCeilDiv
  rw [floorDiv_eq_floor _ _ hb]
  push_cast
  rw [neg_div, Int.floor_neg, neg_neg]

theorem mathRoundDiv_eq_floor (a b : Int) (hb : b ≠ 0) :
    mathRoundDiv a b = ⌊(a : ℚ) / (b : ℚ) + 1 / 2⌋ := by
  unfold mathRoundDiv
  have h2 : (2 * b : Int) ≠ 0 := by omega
  rw [floorDiv_eq_floor _ _ h2]
  congr 1
  have hbq : (b : ℚ) ≠ 0 := by exact_mod_cast hb
  push_cast
  field_simp
  ring

/-! ### Parsing of the page and limit parameters -/

theorem radixDigit_ten_of_not_digit (c : Char) (h : isDecimalDigit c = false) :
    radixDigit 10 c = none := by
  unfold isDecimalDigit at h
  simp only [Bool.and_eq_false_iff, decide_eq_false_iff_not] at h
  unfold radixDigit digitValue
  simp only []
  split_ifs with h1 h2 h3
  · omega
  · simp only [ite_eq_right_iff]
    intro hlt
    omega
  · simp only [ite_eq_right_iff]
    intro hlt
    omega
  · rfl

theorem stripHex_of_not_digit (c : Char) (r : List Char) (h : isDecimalDigit c = false) :
    stripHex (c :: r) = (10, c :: r) := by
  have hc : c ≠ '0' := by
    intro h0
    rw [h0] at h
    exact absurd h (by decide)
  unfold stripHex
  split
  · rename_i heq; cases heq; exact absurd rfl hc
  · rename_i heq; cases heq; exact absurd rfl hc
  · rfl

theorem mathInt_eq_none_of_not_startsWithInteger (s : String)
    (h : startsWithInteger s = false) : mathInt (some s) = none := by
  unfold startsWithInteger at h
  unfold mathInt
  simp only [Option.getD_some]
  cases hL : (stripSign (s.toList.dropWhile isStrWhiteSpaceChar)).2 with
  | nil => rfl
  | cons c r =>
    rw [hL] at h
    simp only at h
    rw [stripHex_of_not_digit c r h]
    simp only [takeDigits, radixDigit_ten_of_not_digit c h]
    rfl

theorem orDefault_of_nonzero (n d : Int) (hn : n ≠ 0) : orDefault (some n) d = n := by
  simp [orDefault, hn]

theorem takeDigits_nines (k : Nat) :
    takeDigits 10 (List.replicate k '9') = List.replicate k 9 := by
  induction k with
  | zero => rfl
  | succ k ih =>
    rw [List.replicate_succ, List.replicate_succ, takeDigits]
    have : radixDigit 10 '9' = some 9 := by decide
    rw [this, ih]

theorem foldl_digits_nines (k acc : Nat) :
    (List.replicate k 9).foldl (fun a v => a * 10 + v) acc + 1 = (acc + 1) * 10 ^ k := by
  induction k generalizing acc with
  | zero => simp
  | succ k ih =>
    rw [List.replicate_succ, List.foldl_cons, ih, pow_succ]
    ring

theorem digitsValue_nines (k : Nat) :
    ((digitsValue 10 (List.replicate k 9) : Nat) : Int) = 10 ^ k - 1 := by
  have h := congrArg (Nat.cast : Nat → Int) (foldl_digits_nines k 0)
  unfold digitsValue
  push_cast at h
  linarith

theorem mathInt_nines (k : Nat) :
    mathInt (some (String.mk ('9' :: List.replicate k '9'))) = some (10 ^ (k + 1) - 1) := by
  have hd : List.dropWhile isStrWhiteSpaceChar ('9' :: List.replicate k '9')
      = '9' :: List.replicate k '9' := by
    rw [List.dropWhile_cons]
    have : isStrWhiteSpaceChar '9' = false := by decide
    rw [this]; rfl
  have hs : stripSign ('9' :: List.replicate k '9') = (1, '9' :: List.replicate k '9') := rfl
  have hp : stripHex ('9' :: List.replicate k '9') = (10, '9' :: List.replicate k '9') := rfl
  have ht := takeDigits_nines (k + 1)
  rw [List.replicate_succ] at ht
  unfold mathInt
  simp only [Option.getD_some, String.toList, hd, hs, hp, ht, digitsValue_nines]
  rw [if_neg (by simp [List.replicate_succ])]
  congr 1
  ring

theorem mathInt_minus_nines (k : Nat) :
    mathInt (some (String.mk ('-' :: '9' :: List.replicate k '9')))
      = some (-(10 ^ (k + 1) - 1)) := by
  have hd : List.dropWhile isStrWhiteSpaceChar ('-' :: '9' :: List.replicate k '9')
      = '-' :: '9' :: List.replicate k '9' := by
    rw [List.dropWhile_cons]
    have : isStrWhiteSpaceChar '-' = false := by decide
    rw [this]; rfl
  have hs : stripSign ('-' :: '9' :: List.replicate k '9')
      = (-1, '9' :: List.replicate k '9') := rfl
  have hp : stripHex ('9' :: List.replicate k '9') = (10, '9' :: List.replicate k '9') := rfl
  have ht := takeDigits_nines (k + 1)
  rw [List.replicate_succ] at ht
  unfold mathInt
  simp only [Option.getD_some, String.toList, hd, hs, hp, ht, digitsValue_nines]
  rw [if_neg (by simp [List.replicate_succ])]
  congr 1
  ring

theorem parseInt_eq_none_of_not_startsWithInteger (s : String)
    (h : startsWithInteger s = false) : parseInt (some s) = none := by
  unfold parseInt
  rw [mathInt_eq_none_of_not_startsWithInteger s h]
  rfl

theorem bitLengthAux_le (fuel : Nat) :
    ∀ n k : Nat, n < 2 ^ k → bitLengthAux fuel n ≤ k := by
  induction fuel with
  | zero =>
    intro n k _
    simp [bitLengthAux]
  | succ fuel ih =>
    intro n k h
    unfold bitLengthAux
    split
    · exact Nat.zero_le _
    · rename_i hn
      cases k with
      | zero =>
        simp only [pow_zero, Nat.lt_one_iff] at h
        exact absurd h hn
      | succ k =>
        have h2 : n / 2 < 2 ^ k := by
          rw [Nat.div_lt_iff_lt_mul (by norm_num)]
          rw [pow_succ] at h
          exact h
        exact Nat.succ_le_succ (ih _ _ h2)

/-- An integer of at most 53 binary digits, and `2 ^ 53` itself, is its own
Number value. -/
theorem roundInteger_of_le (n : Nat) (h : n ≤ 2 ^ 53) : roundInteger n = n := by
  rcases Nat.lt_or_eq_of_le h with hlt | heq
  · have hb : bitLength n - 53 = 0 := by
      have := bitLengthAux_le n n 53 hlt
      unfold bitLength
      omega
    unfold roundInteger
    simp only [hb, pow_zero, mul_one]
    unfold roundHalfEven
    simp [Nat.mod_one]
  · subst heq
    decide

theorem parseInt_of_mathInt_safe (q : Option String) (n : Int)
    (hq : mathInt q = some n) (hn : n.natAbs ≤ 2 ^ 53) : parseInt q = some n := by
  unfold parseInt
  rw [hq, Option.map_some', roundInteger_of_le _ hn, Int.sign_mul_natAbs]

/-- C3, amended. In the three paginated controllers the page number is 1 and
the limit is 10 when the query parameter is absent or does not start with an
integer. Otherwise the value used is the non-zero Number that `parseInt`
returns, negative or large, with no clamping. That Number is the integer `n`
the parameter denotes whenever `|n| ≤ 2 ^ 53`; a larger integer is first
rounded to a double, as `parseInt` does. Each controller depends on the two
parameters only through these two numbers. Results of magnitude `2 ^ 1024` or
more, where the source has `Infinity`, are left out. -/
theorem pagination_defaults_and_passthrough :
    (pageNumber none = 1 ∧ limitNumber none = 10) ∧
    (∀ s : String, startsWithInteger s = false →
      pageNumber (some s) = 1 ∧ limitNumber (some s) = 10) ∧
    (∀ (q : Option String) (n : Int), parseInt q = some n → n ≠ 0 → n.natAbs < 2 ^ 1024 →
      pageNumber q = n ∧ limitNumber q = n) ∧
    (∀ (q : Option String) (n : Int), mathInt q = some n → n ≠ 0 → n.natAbs ≤ 2 ^ 53 →
      parseInt q = some n ∧ pageNumber q = n ∧ limitNumber q = n) ∧
    (∀ (store : List Reading) (page limit page2 limit2 : Option String),
      pageNumber page = pageNumber page2 → limitNumber limit = limitNumber limit2 →
      getAllReadings store page limit = getAllReadings store page2 limit2) ∧
    (∀ (store : List Reading) (deviceName page limit page2 limit2 : Option String),
      pageNumber page = pageNumber page2 → limitNumber limit = limitNumber limit2 →
      getAllReadingsByDeviceName store deviceName page limit
        = getAllReadingsByDeviceName store deviceName page2 limit2) ∧
    (∀ (newDate : String → Int) (store : List Reading)
      (deviceName dateTime page limit page2 limit2 : Option String),
      pageNumber page = pageNumber page2 → limitNumber limit = limitNumber limit2 →
      getReadingsByDeviceAndDateTime newDate store deviceName dateTime page limit
        = getReadingsByDeviceAndDateTime newDate store deviceName dateTime page2 limit2) := by
  refine ⟨⟨by decide, by decide⟩, ?_, ?_, ?_, ?_, ?_, ?_⟩
  · intro s h
    have hn := parseInt_eq_none_of_not_startsWithInteger s h
    simp [pageNumber, limitNumber, hn, orDefault]
  · intro q n hq hn _
    simp [pageNumber, limitNumber, hq, orDefault, hn]
  · intro q n hq hn hsafe
    have hp := parseInt_of_mathInt_safe q n hq hsafe
    refine ⟨hp, ?_, ?_⟩
    · simp [pageNumber, hp, orDefault, hn]
    · simp [limitNumber, hp, orDefault, hn]
  · intro store page limit page2 limit2 h1 h2
    simp only [getAllReadings, h1, h2]
  · intro store deviceName page limit page2 limit2 h1 h2
    simp only [getAllReadingsByDeviceName, h1, h2]
  · intro newDate store deviceName dateTime page limit page2 limit2 h1 h2
    simp only [getReadingsByDeviceAndDateTime, h1, h2]

theorem pagination_defaults_and_passthrough_witness :
    (pageNumber (some "abc") = 1 ∧ limitNumber (some "abc") = 10) ∧
    (parseInt (some "-3") = some (-3) ∧ pageNumber (some "-3") = -3 ∧
      limitNumber (some "-3") = -3) ∧
    (pageNumber (some "9999999999999999") = 10000000000000000 ∧
      limitNumber (some "9999999999999999") = 10000000000000000) :=
  ⟨pagination_defaults_and_passthrough.2.1 "abc" (by decide),
   pagination_defaults_and_passthrough.2.2.2.1 (some "-3") (-3) (by decide) (by decide)
     (by decide),
   pagination_defaults_and_passthrough.2.2.1 (some "9999999999999999") 10000000000000000
     (by decide) (by decide) (by norm_num)⟩

/-- C3, the claim as it stands fails. The parameter `9007199254740993`
denotes that integer, `2 ^ 53 + 1`, and the page number and the limit used
are `9007199254740992`; sixteen nines with a minus sign give `-10 ^ 16`. So
the value used is not, for every non-zero integer the parameter denotes,
exactly that integer. -/
theorem pagination_passthrough_counterexample :
    mathInt (some "9007199254740993") = some 9007199254740993 ∧
    pageNumber (some "9007199254740993") = 9007199254740992 ∧
    limitNumber (some "9007199254740993") = 9007199254740992 ∧
    mathInt (some "-9999999999999999") = some (-9999999999999999) ∧
    pageNumber (some "-9999999999999999") = -10000000000000000 ∧
    ¬ (∀ (q : Option String) (n : Int), mathInt q = some n → n ≠ 0 →
        pageNumber q = n ∧ limitNumber q = n) := by
  refine ⟨by decide, by decide, by decide, by decide, by decide, ?_⟩
  intro h
  have h1 := (h (some "9007199254740993") 9007199254740993 (by decide) (by decide)).1
  exact absurd h1 (by decide)

/-! ### Listing with pagination -/

theorem skipLimitToArray_of_nat {α : Type} (docs : List α) (s l : Nat) (hl : 1 ≤ l) :
    skipLimitToArray docs (s : Int) (l : Int) = Except.ok ((docs.drop s).take l) := by
  unfold skipLimitToArray
  rw [if_neg (by omega), if_neg (by omega)]
  simp

theorem skip_cast (p l : Nat) (hp : 1 ≤ p) :
    ((p : Int) - 1) * (l : Int) = (((p - 1) * l : Nat) : Int) := by
  obtain ⟨k, rfl⟩ : ∃ k, p = k + 1 := ⟨p - 1, by omega⟩
  push_cast
  simp

/-- C2. For page `p ≥ 1` and limit `l ≥ 1`, `getAllReadings` responds 200 with
the contiguous run of the store's readings that starts at index `(p-1)*l` and
has length `min(l, max(0, N-(p-1)*l))`, at most `l` items, and with
`totalPages = ceil(N/l)`, where `N` is the number of readings in the store.
The limit and the skip `(p-1)*l` are taken within `Number.MAX_SAFE_INTEGER`:
there the controller's arithmetic on doubles is exact and the store reads
both as 64-bit integers. -/
theorem getAllReadings_contiguous_page (store : List Reading) (page limit : Option String)
    (p l : Nat) (hp : 1 ≤ p) (hl : 1 ≤ l)
    (_hlimitSafe : (l : Int) ≤ MAX_SAFE_INTEGER)
    (_hskipSafe : (((p - 1) * l : Nat) : Int) ≤ MAX_SAFE_INTEGER)
    (hpage : pageNumber page = (p : Int)) (hlimit : limitNumber limit = (l : Int)) :
    ∃ weatherData : List Reading,
      getAllReadings store page limit =
        { status := 200, message := "Got list of all weather data readings",
          totalPages := some ⌈(store.length : ℚ) / (l : ℚ)⌉, data := some weatherData } ∧
      weatherData = (store.drop ((p - 1) * l)).take l ∧
      weatherData.length = min l (store.length - (p - 1) * l) ∧
      weatherData.length ≤ l ∧
      ∀ i, i < weatherData.length → weatherData[i]? = store[(p - 1) * l + i]? := by
  refine ⟨(store.drop ((p - 1) * l)).take l, ?_, rfl, ?_, ?_, ?_⟩
  · have hl0 : (l : Int) ≠ 0 := by omega
    have hceil := mathCeilDiv_eq_ceil (store.length : Int) (l : Int) hl0
    simp only [getAllReadings, Readings.getAllReadings, hpage, hlimit, skip_cast p l hp,
      skipLimitToArray_of_nat _ _ _ hl, hceil]
    simp
  · simp [List.length_take, List.length_drop]
  · simp only [List.length_take]
    exact Nat.min_le_left _ _
  · intro i hi
    simp only [List.length_take, List.length_drop] at hi
    rw [List.getElem?_take_of_lt (by omega), List.getElem?_drop]

theorem getAllReadings_contiguous_page_witness :
    ∃ weatherData : List Reading,
      getAllReadings sampleStore (some "2") (some "2") =
        { status := 200, message := "Got list of all weather data readings",
          totalPages := some ⌈(sampleStore.length : ℚ) / ((2 : Nat) : ℚ)⌉,
          data := some weatherData } ∧
      weatherData = (sampleStore.drop ((2 - 1) * 2)).take 2 ∧
      weatherData.length = min 2 (sampleStore.length - (2 - 1) * 2) ∧
      weatherData.length ≤ 2 ∧
      ∀ i, i < weatherData.length → weatherData[i]? = sampleStore[(2 - 1) * 2 + i]? :=
  getAllReadings_contiguous_page sampleStore (some "2") (some "2") 2 2 (by decide) (by decide)
    (by decide) (by decide) (by decide) (by decide)

/-! ### Listing by device name -/

theorem getAllReadingsByDeviceName_model_sorted (store : List Reading) (d : String) :
    List.Pairwise (fun a b : Reading => b.time ≤ a.time)
      (Readings.getAllReadingsByDeviceName store d) := by
  haveI : IsTotal Reading (fun a b : Reading => b.time ≤ a.time) :=
    ⟨fun a b => le_total b.time a.time⟩
  haveI : IsTrans Reading (fun a b : Reading => b.time ≤ a.time) :=
    ⟨fun _ _ _ hab hbc => le_trans hbc hab⟩
  exact List.sorted_insertionSort (fun a b : Reading => b.time ≤ a.time) _

theorem getAllReadingsByDeviceName_model_perm (store : List Reading) (d : String) :
    List.Perm (Readings.getAllReadingsByDeviceName store d)
      (store.filter (fun r => r.deviceName == d)) :=
  List.perm_insertionSort _ _

theorem getAllReadingsByDeviceName_model_length (store : List Reading) (d : String) :
    (Readings.getAllReadingsByDeviceName store d).length
      = (store.filter (fun r => r.deviceName == d)).length :=
  (getAllReadingsByDeviceName_model_perm store d).length_eq

theorem not_truthy_of_ne_empty (d : String) (hd : d ≠ "") : (!truthy (some d)) = false := by
  simp [truthy, hd]

/-- The value of the by-device controller on a non-empty device name, for a
non-negative skip and a non-zero limit. -/
theorem getAllReadingsByDeviceName_eval (store : List Reading) (d : String)
    (page limit : Option String) (hd : d ≠ "") (s : Nat)
    (hs : (pageNumber page - 1) * limitNumber limit = (s : Int))
    (hl : limitNumber limit ≠ 0) :
    getAllReadingsByDeviceName store (some d) page limit =
      if (((Readings.getAllReadingsByDeviceName store d).drop s).take
          (limitNumber limit).natAbs).length = 0 then
        { status := 404, message := "No weather data found for the specified device name.",
          totalPages := none, data := none }
      else
        { status := 200, message := "Successfully fetched weather data for " ++ d ++ ".",
          totalPages := some (mathCeilDiv
            ((Readings.getAllReadingsByDeviceName store d).length : Int) (limitNumber limit)),
          data := some (((Readings.getAllReadingsByDeviceName store d).drop s).take
            (limitNumber limit).natAbs) } := by
  have hskip : skipLimitToArray (Readings.getAllReadingsByDeviceName store d) (s : Int)
      (limitNumber limit) = Except.ok
        (((Readings.getAllReadingsByDeviceName store d).drop s).take
          (limitNumber limit).natAbs) := by
    unfold skipLimitToArray
    rw [if_neg (by omega), if_neg hl]
    simp
  simp only [getAllReadingsByDeviceName, not_truthy_of_ne_empty d hd, hs, hskip]
  rfl

/-- C4. For a device name `d`, page `p ≥ 1` and limit `l ≥ 1`, whenever the
by-device controller responds 200 its data holds only stored readings whose
device name is `d`, is sorted by `Time` in non-increasing order, has at most
`l` items and is the slice `[(p-1)*l, p*l)` of a list of all readings of `d`
sorted by `Time` descending; `totalPages` is `ceil(M/l)` for the number `M`
of readings of `d`. The limit and the skip `(p-1)*l` are taken within
`Number.MAX_SAFE_INTEGER`: there the controller's arithmetic on doubles is
exact and the store reads both as 64-bit integers. -/
theorem getAllReadingsByDeviceName_page (store : List Reading) (d : String)
    (page limit : Option String) (p l : Nat) (hp : 1 ≤ p) (hl : 1 ≤ l)
    (_hlimitSafe : (l : Int) ≤ MAX_SAFE_INTEGER)
    (_hskipSafe : (((p - 1) * l : Nat) : Int) ≤ MAX_SAFE_INTEGER)
    (hpage : pageNumber page = (p : Int)) (hlimit : limitNumber limit = (l : Int))
    (h200 : (getAllReadingsByDeviceName store (some d) page limit).status = 200) :
    ∃ data all : List Reading,
      (getAllReadingsByDeviceName store (some d) page limit).data = some data ∧
      (getAllReadingsByDeviceName store (some d) page limit).totalPages =
        some ⌈((store.filter (fun r => r.deviceName == d)).length : ℚ) / (l : ℚ)⌉ ∧
      (∀ r ∈ data, r ∈ store ∧ r.deviceName = d) ∧
      List.Pairwise (fun a b : Reading => b.time ≤ a.time) data ∧
      data.length ≤ l ∧
      List.Perm all (store.filter (fun r => r.deviceName == d)) ∧
      List.Pairwise (fun a b : Reading => b.time ≤ a.time) all ∧
      data = (all.drop ((p - 1) * l)).take l := by
  have hd : d ≠ "" := by
    intro h0
    subst h0
    have h400 : (getAllReadingsByDeviceName store (some "") page limit).status = 400 := by
      have ht : (!truthy (some "")) = true := by decide
      simp only [getAllReadingsByDeviceName, ht, if_true]
    rw [h400] at h200
    exact absurd h200 (by decide)
  have hl0 : limitNumber limit ≠ 0 := by omega
  have hs : (pageNumber page - 1) * limitNumber limit = (((p - 1) * l : Nat) : Int) := by
    rw [hpage, hlimit, skip_cast p l hp]
  have heval := getAllReadingsByDeviceName_eval store d page limit hd _ hs hl0
  have habs : (limitNumber limit).natAbs = l := by omega
  rw [habs] at heval
  have hperm := getAllReadingsByDeviceName_model_perm store d
  have hsorted := getAllReadingsByDeviceName_model_sorted store d
  by_cases hempty : (((Readings.getAllReadingsByDeviceName store d).drop ((p - 1) * l)).take
      l).length = 0
  · rw [if_pos hempty] at heval
    rw [heval] at h200
    exact absurd h200 (by decide)
  · rw [if_neg hempty] at heval
    refine ⟨((Readings.getAllReadingsByDeviceName store d).drop ((p - 1) * l)).take l,
      Readings.getAllReadingsByDeviceName store d, ?_, ?_, ?_, ?_, ?_, hperm, hsorted, rfl⟩
    · rw [heval]
    · rw [heval]
      have hl1 : (l : Int) ≠ 0 := by omega
      simp only [hlimit, mathCeilDiv_eq_ceil _ _ hl1,
        getAllReadingsByDeviceName_model_length]
      simp
    · intro r hr
      have h1 : r ∈ Readings.getAllReadingsByDeviceName store d :=
        List.mem_of_mem_drop (List.mem_of_mem_take hr)
      have h2 := hperm.mem_iff.1 h1
      rw [List.mem_filter] at h2
      exact ⟨h2.1, by simpa using h2.2⟩
    · exact (hsorted.sublist (List.drop_sublist _ _)).sublist (List.take_sublist _ _)
    · rw [List.length_take]
      exact Nat.min_le_left _ _

theorem getAllReadingsByDeviceName_page_witness :
    ∃ data all : List Reading,
      (getAllReadingsByDeviceName sampleStore (some "D") (some "1") (some "2")).data
        = some data ∧
      (getAllReadingsByDeviceName sampleStore (some "D") (some "1") (some "2")).totalPages =
        some ⌈((sampleStore.filter (fun r => r.deviceName == "D")).length : ℚ)
          / ((2 : Nat) : ℚ)⌉ ∧
      (∀ r ∈ data, r ∈ sampleStore ∧ r.deviceName = "D") ∧
      List.Pairwise (fun a b : Reading => b.time ≤ a.time) data ∧
      data.length ≤ 2 ∧
      List.Perm all (sampleStore.filter (fun r => r.deviceName == "D")) ∧
      List.Pairwise (fun a b : Reading => b.time ≤ a.time) all ∧
      data = (all.drop ((1 - 1) * 2)).take 2 :=
  getAllReadingsByDeviceName_page sampleStore "D" (some "1") (some "2") 1 2
    (by decide) (by decide) (by decide) (by decide) (by decide) (by decide) (by decide)

/-- C5. The by-device controller tests the fetched page, not the readings of
the device: the sample store holds four readings of device `D`, page 1 is
answered with 200, and page 2 with the default limit of 10 is answered with
404 and the message `No weather data found for the specified device name.`
The two other paginated controllers answer a page past the end with 200 and
an empty list. -/
theorem getAllReadingsByDeviceName_page_past_end_is_404 :
    (sampleStore.filter (fun r => r.deviceName == "D")).length = 4 ∧
    (getAllReadingsByDeviceName sampleStore (some "D") none none).status = 200 ∧
    getAllReadingsByDeviceName sampleStore (some "D") (some "2") none =
      { status := 404, message := "No weather data found for the specified device name.",
        totalPages := none, data := none } ∧
    getAllReadings sampleStore (some "2") none =
      { status := 200, message := "Got list of all weather data readings",
        totalPages := some 1, data := some [] } ∧
    (getReadingsByDeviceAndDateTime (fun _ => 10) sampleStore (some "D")
        (some "1970-01-01T00:00:00.010Z") (some "2") none).status = 200 ∧
    (getReadingsByDeviceAndDateTime (fun _ => 10) sampleStore (some "D")
        (some "1970-01-01T00:00:00.010Z") (some "2") none).data = some [] := by
  decide

/-! ### Point-in-time lookup -/

theorem bucketStartDate_eq (t : Int) : Readings.bucketStartDate t = t - t % 3600000 := by
  unfold Readings.bucketStartDate setUTCHours MakeDate MakeTime Day getUTCHours
    msPerDay msPerHour msPerMinute msPerSecond
  omega

theorem bucketEndDate_eq (t : Int) :
    Readings.bucketEndDate t = t - t % 3600000 + 3600000 := by
  unfold Readings.bucketEndDate setUTCHours MakeDate MakeTime Day getUTCHours
    msPerDay msPerHour msPerMinute msPerSecond
  omega

theorem mem_hour_filter (store : List Reading) (d : String) (t : Int) (r : Reading) :
    r ∈ store.filter (fun r => r.deviceName == d &&
        (decide (Readings.bucketStartDate t ≤ r.time) &&
          decide (r.time ≤ Readings.bucketEndDate t))) ↔
      r ∈ store ∧ r.deviceName = d ∧ t - t % 3600000 ≤ r.time ∧
        r.time ≤ t - t % 3600000 + 3600000 := by
  rw [List.mem_filter, bucketStartDate_eq, bucketEndDate_eq]
  simp

/-- C6. For a device name `d` and an instant `t`, the model function
`getReadingsByDeviceAndDateTime` returns exactly the stored readings of `d`
whose `Time` lies in the closed interval from the top of the hour of `t` to one
hour later, none missing and none from outside (with their multiplicity),
ordered by `Time` ascending, each reshaped to the six fields `DeviceName`,
`Time`, `Temperature`, `AtmosphericPressure`, `SolarRadiation`,
`Precipitation` of the same stored reading. -/
theorem getReadingsByDeviceAndDateTime_exact (store : List Reading) (d : String) (t : Int) :
    (∃ matched : List Reading,
      Readings.getReadingsByDeviceAndDateTime store d t = matched.map
        (fun r => { DeviceName := r.deviceName, Time := r.time, Temperature := r.temperature,
                    AtmosphericPressure := r.atmosphericPressure,
                    SolarRadiation := r.solarRadiation,
                    Precipitation := r.precipitation }) ∧
      List.Perm matched (store.filter (fun r => decide (r.deviceName = d ∧
        t - t % 3600000 ≤ r.time ∧ r.time ≤ t - t % 3600000 + 3600000)))) ∧
    List.Pairwise (fun a b : Readings.FormattedReading => a.Time ≤ b.Time)
      (Readings.getReadingsByDeviceAndDateTime store d t) ∧
    (∀ row : Readings.FormattedReading,
      row ∈ Readings.getReadingsByDeviceAndDateTime store d t ↔
        ∃ r ∈ store, r.deviceName = d ∧ t - t % 3600000 ≤ r.time ∧
          r.time ≤ t - t % 3600000 + 3600000 ∧
          row.DeviceName = r.deviceName ∧ row.Time = r.time ∧
          row.Temperature = r.temperature ∧
          row.AtmosphericPressure = r.atmosphericPressure ∧
          row.SolarRadiation = r.solarRadiation ∧ row.Precipitation = r.precipitation) := by
  haveI : IsTotal Reading (fun a b : Reading => a.time ≤ b.time) :=
    ⟨fun a b => le_total a.time b.time⟩
  haveI : IsTrans Reading (fun a b : Reading => a.time ≤ b.time) :=
    ⟨fun _ _ _ hab hbc => le_trans hab hbc⟩
  have hfilter : store.filter (fun r => r.deviceName == d &&
        (decide (Readings.bucketStartDate t ≤ r.time) &&
          decide (r.time ≤ Readings.bucketEndDate t))) =
      store.filter (fun r => decide (r.deviceName = d ∧
        t - t % 3600000 ≤ r.time ∧ r.time ≤ t - t % 3600000 + 3600000)) := by
    apply List.filter_congr
    intro r _
    rw [bucketStartDate_eq, bucketEndDate_eq]
    by_cases hrd : r.deviceName = d <;> simp [hrd]
  refine ⟨⟨_, rfl, ?_⟩, ?_, ?_⟩
  · rw [← hfilter]
    exact List.perm_insertionSort _ _
  · unfold Readings.getReadingsByDeviceAndDateTime
    rw [List.pairwise_map]
    exact List.sorted_insertionSort (fun a b : Reading => a.time ≤ b.time) _
  · intro row
    unfold Readings.getReadingsByDeviceAndDateTime
    simp only [List.mem_map, List.mem_insertionSort, mem_hour_filter]
    constructor
    · rintro ⟨r, ⟨hr, hd, h1, h2⟩, rfl⟩
      exact ⟨r, hr, hd, h1, h2, rfl, rfl, rfl, rfl, rfl, rfl⟩
    · rintro ⟨r, hr, hd, h1, h2, e1, e2, e3, e4, e5, e6⟩
      refine ⟨r, ⟨hr, hd, h1, h2⟩, ?_⟩
      cases row
      simp only [Readings.formatReading] at *
      simp [e1, e2, e3, e4, e5, e6]

/-- C7. For an instant `t` in milliseconds since the epoch, the bucket of
`getReadingsByDeviceAndDateTime` starts at `t - (t mod 3600000)`, the same UTC
day and hour with minutes, seconds and milliseconds zeroed, and ends 3600000
later, so `start ≤ t < end`; when the UTC hour of `t` is 23 the end is
00:00:00.000 of the following UTC day. -/
theorem hour_bucket_bounds (t : Int) :
    Readings.bucketStartDate t = t - t % 3600000 ∧
    Readings.bucketEndDate t = Readings.bucketStartDate t + 3600000 ∧
    Readings.bucketStartDate t ≤ t ∧ t < Readings.bucketEndDate t ∧
    Day (Readings.bucketStartDate t) = Day t ∧
    getUTCHours (Readings.bucketStartDate t) = getUTCHours t ∧
    Readings.bucketStartDate t % msPerHour = 0 ∧
    (getUTCHours t = 23 → Readings.bucketEndDate t = (Day t + 1) * msPerDay) := by
  rw [bucketEndDate_eq, bucketStartDate_eq]
  unfold Day getUTCHours msPerDay msPerHour
  refine ⟨rfl, rfl, ?_, ?_, ?_, ?_, ?_, ?_⟩ <;> omega

theorem hour_bucket_bounds_witness :
    getUTCHours 1710459000000 = 23 ∧
    Readings.bucketStartDate 1710459000000 = 1710457200000 ∧
    Readings.bucketEndDate 1710459000000 = (Day 1710459000000 + 1) * msPerDay :=
  ⟨by decide, by decide, (hour_bucket_bounds 1710459000000).2.2.2.2.2.2.2 (by decide)⟩

theorem jsSlice_of_nat {α : Type} (xs : List α) (s e : Nat) :
    jsSlice xs (s : Int) (e : Int) = (xs.take (min e xs.length)).drop s := by
  have hk : (if (s : Int) < 0 then max ((xs.length : Int) + s) 0 else min (s : Int) xs.length)
      = ((min s xs.length : Nat) : Int) := by
    rw [if_neg (by omega)]; omega
  have hf : (if (e : Int) < 0 then max ((xs.length : Int) + e) 0 else min (e : Int) xs.length)
      = ((min e xs.length : Nat) : Int) := by
    rw [if_neg (by omega)]; omega
  have hsub : (((min e xs.length : Nat) : Int) - ((min s xs.length : Nat) : Int)).toNat
      = min e xs.length - min s xs.length := by omega
  simp only [jsSlice, hk, hf, hsub, Int.toNat_ofNat]
  rw [List.drop_take]
  by_cases hs : s ≤ xs.length
  · rw [Nat.min_eq_left hs]
  · have h1 : min s xs.length = xs.length := by omega
    rw [h1, List.drop_of_length_le (le_refl _), List.drop_of_length_le (by omega)]
    simp

/-- C8. For page `p ≥ 1` and limit `l ≥ 1`, the point-in-time controller
answers a non-empty result of `n` rows with 200, with data equal to the slice
of the full sorted result from index `(p-1)*l` up to but excluding
`min(p*l, n)`, and with `totalPages` equal to `n/l` rounded to the nearest
integer, halves up; an empty result is answered with 404. The rounded page
count is not the ceiling: four rows with limit 10 give 0 pages, not 1. -/
theorem getReadingsByDeviceAndDateTime_paging :
    (∀ (newDate : String → Int) (store : List Reading) (name dt : String)
      (page limit : Option String) (p l : Nat) (rows : List Readings.FormattedReading),
      1 ≤ p → 1 ≤ l → pageNumber page = (p : Int) → limitNumber limit = (l : Int) →
      name ≠ "" → dt ≠ "" →
      rows = Readings.getReadingsByDeviceAndDateTime store name (newDate dt) →
      (rows.length = 0 →
        (getReadingsByDeviceAndDateTime newDate store (some name) (some dt) page
          limit).status = 404) ∧
      (rows.length ≠ 0 →
        (getReadingsByDeviceAndDateTime newDate store (some name) (some dt) page
          limit).status = 200 ∧
        (getReadingsByDeviceAndDateTime newDate store (some name) (some dt) page
          limit).data = some ((rows.take (min (p * l) rows.length)).drop ((p - 1) * l)) ∧
        (getReadingsByDeviceAndDateTime newDate store (some name) (some dt) page
          limit).totalPages = some ⌊(rows.length : ℚ) / (l : ℚ) + 1 / 2⌋)) ∧
    (∃ (store : List Reading) (rows : List Readings.FormattedReading),
      rows = Readings.getReadingsByDeviceAndDateTime store "D" 10 ∧ rows.length = 4 ∧
      (getReadingsByDeviceAndDateTime (fun _ => 10) store (some "D") (some "x") none
        (some "10")).totalPages = some 0 ∧
      ⌈((4 : Int) : ℚ) / ((10 : Int) : ℚ)⌉ = 1) := by
  constructor
  · intro newDate store name dt page limit p l rows hp hl hpage hlimit hname hdt hrows
    have hcond : (!truthy (some name) || !truthy (some dt)) = false := by
      simp [truthy, hname, hdt]
    have hl0 : (l : Int) ≠ 0 := by omega
    constructor
    · intro h0
      simp only [getReadingsByDeviceAndDateTime, hcond, ← hrows, h0]
      rfl
    · intro hne
      have hstart : ((p : Int) - 1) * (l : Int) = (((p - 1) * l : Nat) : Int) :=
        skip_cast p l hp
      have hend : (p : Int) * (l : Int) = ((p * l : Nat) : Int) := by push_cast; rfl
      have hround := mathRoundDiv_eq_floor (rows.length : Int) (l : Int) hl0
      simp only [getReadingsByDeviceAndDateTime, hcond, ← hrows, hne, hpage, hlimit, hstart,
        hend, jsSlice_of_nat, hround]
      simp
  · refine ⟨sampleStore, _, rfl, by decide, by decide, ?_⟩
    rw [← mathCeilDiv_eq_ceil 4 10 (by decide)]
    decide

theorem getReadingsByDeviceAndDateTime_paging_witness :
    (getReadingsByDeviceAndDateTime (fun _ => 10) sampleStore (some "D") (some "x")
        (some "2") (some "3")).status = 200 ∧
    (getReadingsByDeviceAndDateTime (fun _ => 10) sampleStore (some "D") (some "x")
        (some "2") (some "3")).data =
      some (((Readings.getReadingsByDeviceAndDateTime sampleStore "D" 10).take
        (min (2 * 3) (Readings.getReadingsByDeviceAndDateTime sampleStore "D" 10).length)).drop
          ((2 - 1) * 3)) ∧
    (getReadingsByDeviceAndDateTime (fun _ => 10) sampleStore (some "D") (some "x")
        (some "2") (some "3")).totalPages =
      some ⌊((Readings.getReadingsByDeviceAndDateTime sampleStore "D" 10).length : ℚ)
        / ((3 : Nat) : ℚ) + 1 / 2⌋ :=
  (getReadingsByDeviceAndDateTime_paging.1 (fun _ => 10) sampleStore "D" "x" (some "2")
    (some "3") 2 3 _ (by decide) (by decide) (by decide) (by decide) (by decide) (by decide)
    rfl).2 (by decide)

/-! ### Maximum precipitation in the trailing window -/

theorem mem_matchLast5Months (store : List Reading) (d : String) (lo now : Int)
    (r : Reading) :
    r ∈ Readings.matchLast5Months store d lo now ↔
      r ∈ store ∧ r.deviceName = d ∧ lo ≤ r.time ∧ r.time ≤ now := by
  unfold Readings.matchLast5Months
  rw [List.mem_filter]
  simp

theorem matchLast5Months_eq_filter (store : List Reading) (d : String) (lo now : Int) :
    Readings.matchLast5Months store d lo now =
      store.filter (fun r => decide (r.deviceName = d ∧ lo ≤ r.time ∧ r.time ≤ now)) := by
  unfold Readings.matchLast5Months
  apply List.filter_congr
  intro r _
  by_cases hrd : r.deviceName = d <;> simp [hrd]

theorem groupIds_of_single_device (d : String) (m : List Reading)
    (h : ∀ r ∈ m, r.deviceName = d) (hne : m ≠ []) : Readings.groupIds m = [d] := by
  induction m with
  | nil => exact absurd rfl hne
  | cons r rs ih =>
    have hr : r.deviceName = d := h r (List.mem_cons_self _ _)
    cases rs with
    | nil => simp [Readings.groupIds, hr]
    | cons r2 rs2 =>
      have ih2 := ih (fun x hx => h x (List.mem_cons_of_mem _ hx)) (List.cons_ne_nil _ _)
      rw [Readings.groupIds, ih2, hr]
      simp

theorem filter_single_device (d : String) (m : List Reading)
    (h : ∀ r ∈ m, r.deviceName = d) : m.filter (fun r => r.deviceName == d) = m := by
  rw [List.filter_eq_self]
  intro r hr
  simp [h r hr]

theorem foldl_max_ge_init (rs : List Reading) (acc : Int) :
    acc ≤ rs.foldl (fun m x => max m x.precipitation) acc := by
  induction rs generalizing acc with
  | nil => exact le_refl _
  | cons x xs ih => exact le_trans (le_max_left _ _) (ih _)

theorem foldl_max_ge_mem (rs : List Reading) (acc : Int) (x : Reading) (hx : x ∈ rs) :
    x.precipitation ≤ rs.foldl (fun m x => max m x.precipitation) acc := by
  induction rs generalizing acc with
  | nil => cases hx
  | cons y ys ih =>
    rcases List.mem_cons.1 hx with rfl | hmem
    · exact le_trans (le_max_right _ _) (foldl_max_ge_init ys _)
    · exact ih _ hmem

theorem foldl_max_attained (rs : List Reading) (acc : Int) :
    rs.foldl (fun m x => max m x.precipitation) acc = acc ∨
      ∃ x ∈ rs, x.precipitation = rs.foldl (fun m x => max m x.precipitation) acc := by
  induction rs generalizing acc with
  | nil => exact Or.inl rfl
  | cons y ys ih =>
    rcases ih (max acc y.precipitation) with h | ⟨x, hx, hxe⟩
    · rcases max_choice acc y.precipitation with hm | hm
      · left
        rw [List.foldl_cons, h, hm]
      · right
        refine ⟨y, List.mem_cons_self _ _, ?_⟩
        rw [List.foldl_cons, h, hm]
    · right
      exact ⟨x, List.mem_cons_of_mem _ hx, hxe⟩

/-- The value of the pipeline once the matched set is known. -/
theorem findMaxPrecipitationLast5Months_eval (store : List Reading) (d : String)
    (lo now : Int) :
    (Readings.matchLast5Months store d lo now = [] ∧
      Readings.findMaxPrecipitationLast5Months store d lo now = []) ∨
    (∃ r rs, Readings.matchLast5Months store d lo now = r :: rs ∧
      Readings.findMaxPrecipitationLast5Months store d lo now =
        [{ _id := ((r :: rs).getLast (List.cons_ne_nil r rs))._id
           deviceName := d
           readingDateTime := ((r :: rs).getLast (List.cons_ne_nil r rs)).time
           maxPrecipitation := rs.foldl (fun m x => max m x.precipitation) r.precipitation }]) := by
  have hall : ∀ r ∈ Readings.matchLast5Months store d lo now, r.deviceName = d :=
    fun r hr => ((mem_matchLast5Months store d lo now r).1 hr).2.1
  cases hm : Readings.matchLast5Months store d lo now with
  | nil =>
    left
    refine ⟨rfl, ?_⟩
    simp [Readings.findMaxPrecipitationLast5Months, hm, Readings.groupIds]
  | cons r rs =>
    right
    refine ⟨r, rs, rfl, ?_⟩
    rw [hm] at hall
    have hg := groupIds_of_single_device d (r :: rs) hall (List.cons_ne_nil _ _)
    have hf := filter_single_device d (r :: rs) hall
    simp only [Readings.findMaxPrecipitationLast5Months, hm, hg, List.filterMap_cons,
      List.filterMap_nil, Readings.maxPrecipitationGroup]
    rw [hf]

/-- C9. For a device name `d` and a window from `fiveMonthsAgo` to `now`,
`findMaxPrecipitationLast5Months` returns the empty list exactly when no
reading of `d` has its `Time` in the closed window; otherwise it returns
exactly one row, whose `deviceName` is `d` and whose `maxPrecipitation` is the
maximum of the precipitation over exactly the readings of `d` in the window:
it is attained by one of them and bounds all of them. -/
theorem findMaxPrecipitationLast5Months_max (store : List Reading) (d : String)
    (fiveMonthsAgo now : Int) :
    (Readings.findMaxPrecipitationLast5Months store d fiveMonthsAgo now = [] ↔
      ∀ r ∈ store, ¬ (r.deviceName = d ∧ fiveMonthsAgo ≤ r.time ∧ r.time ≤ now)) ∧
    ((∃ r ∈ store, r.deviceName = d ∧ fiveMonthsAgo ≤ r.time ∧ r.time ≤ now) →
      ∃ row : Readings.MaxPrecipitationRow,
        Readings.findMaxPrecipitationLast5Months store d fiveMonthsAgo now = [row] ∧
        row.deviceName = d ∧
        (∃ r ∈ store, r.deviceName = d ∧ fiveMonthsAgo ≤ r.time ∧ r.time ≤ now ∧
          r.precipitation = row.maxPrecipitation) ∧
        (∀ r ∈ store, r.deviceName = d → fiveMonthsAgo ≤ r.time → r.time ≤ now →
          r.precipitation ≤ row.maxPrecipitation)) := by
  have hmem := mem_matchLast5Months store d fiveMonthsAgo now
  rcases findMaxPrecipitationLast5Months_eval store d fiveMonthsAgo now with
    ⟨hm, hres⟩ | ⟨r, rs, hm, hres⟩
  · have hnone : ∀ r ∈ store, ¬ (r.deviceName = d ∧ fiveMonthsAgo ≤ r.time ∧ r.time ≤ now) := by
      intro r hr hc
      have := (hmem r).2 ⟨hr, hc⟩
      rw [hm] at this
      cases this
    refine ⟨⟨fun _ => hnone, fun _ => hres⟩, ?_⟩
    rintro ⟨r, hr, hc⟩
    exact absurd hc (hnone r hr)
  · have hr : r ∈ Readings.matchLast5Months store d fiveMonthsAgo now := by
      rw [hm]; exact List.mem_cons_self _ _
    have hr2 := (hmem r).1 hr
    constructor
    · constructor
      · intro h
        rw [hres] at h
        cases h
      · intro h
        exact absurd ⟨hr2.2.1, hr2.2.2.1, hr2.2.2.2⟩ (h r hr2.1)
    · intro _
      refine ⟨_, hres, rfl, ?_, ?_⟩
      · rcases foldl_max_attained rs r.precipitation with h | ⟨x, hx, hxe⟩
        · exact ⟨r, hr2.1, hr2.2.1, hr2.2.2.1, hr2.2.2.2, h.symm⟩
        · have hx2 := (hmem x).1 (by rw [hm]; exact List.mem_cons_of_mem _ hx)
          exact ⟨x, hx2.1, hx2.2.1, hx2.2.2.1, hx2.2.2.2, hxe⟩
      · intro x hxs hxd hx1 hx2
        have hxm := (hmem x).2 ⟨hxs, hxd, hx1, hx2⟩
        rw [hm] at hxm
        rcases List.mem_cons.1 hxm with rfl | hin
        · exact foldl_max_ge_init rs _
        · exact foldl_max_ge_mem rs _ x hin

theorem findMaxPrecipitationLast5Months_max_witness :
    ∃ row : Readings.MaxPrecipitationRow,
      Readings.findMaxPrecipitationLast5Months sampleStore "D" 0 25 = [row] ∧
      row.deviceName = "D" ∧
      (∃ r ∈ sampleStore, r.deviceName = "D" ∧ 0 ≤ r.time ∧ r.time ≤ 25 ∧
        r.precipitation = row.maxPrecipitation) ∧
      (∀ r ∈ sampleStore, r.deviceName = "D" → 0 ≤ r.time → r.time ≤ 25 →
        r.precipitation ≤ row.maxPrecipitation) :=
  (findMaxPrecipitationLast5Months_max sampleStore "D" 0 25).2
    ⟨sampleReading "a" "D" 10 5, by decide, by decide, by decide, by decide⟩

/-- C10. In the row returned by `findMaxPrecipitationLast5Months`,
`readingDateTime` and `_id` are the `Time` and `_id` of one and the same
reading, the last reading of the matched set in encounter order; and for the
sample store that reading's precipitation (3) is strictly less than the
returned `maxPrecipitation` (9), so the reported date is not that of a reading
attaining the maximum. -/
theorem findMaxPrecipitationLast5Months_last_not_argmax :
    (∀ (store : List Reading) (d : String) (fiveMonthsAgo now : Int)
      (row : Readings.MaxPrecipitationRow),
      row ∈ Readings.findMaxPrecipitationLast5Months store d fiveMonthsAgo now →
      ∃ r : Reading,
        (store.filter (fun r => decide (r.deviceName = d ∧ fiveMonthsAgo ≤ r.time ∧
          r.time ≤ now))).getLast? = some r ∧
        row.readingDateTime = r.time ∧ row._id = r._id) ∧
    (∃ (row : Readings.MaxPrecipitationRow) (r : Reading),
      Readings.findMaxPrecipitationLast5Months sampleStore "D" 0 25 = [row] ∧
      (sampleStore.filter (fun r => decide (r.deviceName = "D" ∧ 0 ≤ r.time ∧
        r.time ≤ 25))).getLast? = some r ∧
      row.readingDateTime = r.time ∧ row._id = r._id ∧
      r.precipitation < row.maxPrecipitation) := by
  constructor
  · intro store d lo now row hrow
    rw [← matchLast5Months_eq_filter]
    rcases findMaxPrecipitationLast5Months_eval store d lo now with
      ⟨_, hres⟩ | ⟨r, rs, hm, hres⟩
    · rw [hres] at hrow
      cases hrow
    · rw [hres] at hrow
      rw [List.mem_singleton] at hrow
      subst hrow
      exact ⟨(r :: rs).getLast (List.cons_ne_nil r rs),
        by rw [hm]; exact List.getLast?_eq_getLast _ _, rfl, rfl⟩
  · exact ⟨⟨"e", "D", 20, 9⟩, sampleReading "e" "D" 20 3, by decide, by decide, rfl, rfl,
      by decide⟩

theorem findMaxPrecipitationLast5Months_last_not_argmax_witness :
    ∃ r : Reading,
      (sampleStore.filter (fun r => decide (r.deviceName = "D" ∧ (0 : Int) ≤ r.time ∧
        r.time ≤ 25))).getLast? = some r ∧
      (20 : Int) = r.time ∧ "e" = r._id :=
  findMaxPrecipitationLast5Months_last_not_argmax.1 sampleStore "D" 0 25 ⟨"e", "D", 20, 9⟩
    (by decide)

/-! ### The access gate -/

/-- C1. The gate built by `controlAccess(allowedRoles)` has exactly one effect,
and it is: a 400 response when the `Auth-Key` header is absent or empty; a 401
response when the header is non-empty and no user holds it as `authToken`; a
403 response when the header resolves to a user whose role is not allowed; a
call of `next`, with no response, exactly when the header resolves to a user
whose role is allowed. -/
theorem controlAccess_four_outcomes (allowedRoles : List String) (users : List User)
    (authKey : Option String) :
    (controlAccess allowedRoles users authKey).length = 1 ∧
    ((authKey = none ∨ authKey = some "") →
      controlAccess allowedRoles users authKey =
        [Effect.respond 400 "Authorization token not provided."]) ∧
    (∀ t, authKey = some t → t ≠ "" → (∀ u ∈ users, u.authToken ≠ some t) →
      controlAccess allowedRoles users authKey =
        [Effect.respond 401 "Invalid authorization token."]) ∧
    (∀ t u, authKey = some t → t ≠ "" → UserModel.getUserByAuthToken users t = some u →
      u.role ∉ allowedRoles →
      controlAccess allowedRoles users authKey =
        [Effect.respond 403 "Access forbidden for this role."]) ∧
    (controlAccess allowedRoles users authKey = [Effect.next] ↔
      ∃ t u, authKey = some t ∧ t ≠ "" ∧ UserModel.getUserByAuthToken users t = some u ∧
        u.role ∈ allowedRoles) := by
  cases authKey with
  | none =>
    refine ⟨rfl, fun _ => rfl, ?_, ?_, ?_⟩
    · intro t h; cases h
    · intro t u h; cases h
    · constructor
      · intro h; cases h
      · rintro ⟨t, u, h, _⟩; cases h
  | some t =>
    by_cases ht : t = ""
    · subst ht
      have hval : controlAccess allowedRoles users (some "") =
          [Effect.respond 400 "Authorization token not provided."] := rfl
      refine ⟨by rw [hval]; rfl, fun _ => hval, ?_, ?_, ?_⟩
      · intro t h hne; cases h; exact absurd rfl hne
      · intro t u h hne; cases h; exact absurd rfl hne
      · rw [hval]
        constructor
        · intro h; cases h
        · rintro ⟨t, u, h, hne, _⟩; cases h; exact absurd rfl hne
    · have hnot : (!truthy (some t)) = false := by simp [truthy, ht]
      have hfalse : ¬ (some t = none ∨ some t = some "") := by
        rintro (h | h)
        · cases h
        · exact ht (Option.some.inj h)
      cases hu : UserModel.getUserByAuthToken users t with
      | none =>
        have hval : controlAccess allowedRoles users (some t) =
            [Effect.respond 401 "Invalid authorization token."] := by
          simp only [controlAccess, hnot, hu]; rfl
        refine ⟨by rw [hval]; rfl, fun h => absurd h hfalse, fun _ _ _ _ => hval, ?_, ?_⟩
        · intro t1 u h _ hres
          cases h
          rw [hu] at hres; cases hres
        · rw [hval]
          constructor
          · intro h; cases h
          · rintro ⟨t1, u, h, _, hres, _⟩
            cases h
            rw [hu] at hres; cases hres
      | some u =>
        have hmem := getUserByAuthToken_some users t u hu
        by_cases hr : u.role ∈ allowedRoles
        · have hval : controlAccess allowedRoles users (some t) = [Effect.next] := by
            simp [controlAccess, hnot, hu, hr]
          refine ⟨by rw [hval]; rfl, fun h => absurd h hfalse, ?_, ?_, ?_⟩
          · intro t1 h _ hall
            cases h
            exact absurd hmem.2 (hall u hmem.1)
          · intro t1 u1 h _ hres hnr
            cases h
            rw [hu] at hres; cases hres
            exact absurd hr hnr
          · rw [hval]
            exact ⟨fun _ => ⟨t, u, rfl, ht, hu, hr⟩, fun _ => rfl⟩
        · have hval : controlAccess allowedRoles users (some t) =
              [Effect.respond 403 "Access forbidden for this role."] := by
            simp [controlAccess, hnot, hu, hr]
          refine ⟨by rw [hval]; rfl, fun h => absurd h hfalse, ?_, fun _ _ _ _ _ _ => hval, ?_⟩
          · intro t1 h _ hall
            cases h
            exact absurd hmem.2 (hall u hmem.1)
          · rw [hval]
            constructor
            · intro h; cases h
            · rintro ⟨t1, u1, h, _, hres, hr1⟩
              cases h
              rw [hu] at hres; cases hres
              exact absurd hr1 hr

theorem controlAccess_four_outcomes_witness :
    controlAccess ["teacher"] [sampleTeacher] (some "tok") = [Effect.next] ∧
    controlAccess ["station"] [sampleTeacher] (some "tok") =
      [Effect.respond 403 "Access forbidden for this role."] ∧
    controlAccess ["teacher"] [sampleTeacher] (some "other") =
      [Effect.respond 401 "Invalid authorization token."] ∧
    controlAccess ["teacher"] [sampleTeacher] (some "") =
      [Effect.respond 400 "Authorization token not provided."] :=
  ⟨(controlAccess_four_outcomes ["teacher"] [sampleTeacher] (some "tok")).2.2.2.2.2
      ⟨"tok", sampleTeacher, rfl, by decide, by decide, by decide⟩,
   (controlAccess_four_outcomes ["station"] [sampleTeacher] (some "tok")).2.2.2.1
      "tok" sampleTeacher rfl (by decide) (by decide) (by decide),
   (controlAccess_four_outcomes ["teacher"] [sampleTeacher] (some "other")).2.2.1
      "other" rfl (by decide) (by decide),
   (controlAccess_four_outcomes ["teacher"] [sampleTeacher] (some "")).2.1 (Or.inr rfl)⟩

/-! ### Maximum temperature in an explicit range -/

theorem setHours_start_of_day (tz : TimeZone) (t : Int) :
    setHours tz t 0 0 0 0 = localMidnight tz t := by
  unfold setHours localMidnight MakeDate MakeTime
  simp

theorem setHours_end_of_day (tz : TimeZone) (t : Int) :
    setHours tz t 23 59 59 999 = localEndOfDay tz t := by
  unfold setHours localEndOfDay MakeDate MakeTime msPerHour msPerMinute msPerSecond msPerDay
  norm_num

theorem mem_matchInRange (store : List Reading) (lo hi : Int) (r : Reading) :
    r ∈ Readings.matchInRange store lo hi ↔ r ∈ store ∧ lo ≤ r.time ∧ r.time ≤ hi := by
  unfold Readings.matchInRange
  rw [List.mem_filter]
  simp

theorem mem_groupIds (m : List Reading) (k : String) :
    k ∈ Readings.groupIds m ↔ ∃ r ∈ m, r.deviceName = k := by
  induction m with
  | nil => simp [Readings.groupIds]
  | cons r rs ih =>
    rw [Readings.groupIds, List.mem_cons, List.mem_filter, ih]
    constructor
    · rintro (h | ⟨⟨x, hx, hxk⟩, _⟩)
      · exact ⟨r, List.mem_cons_self _ _, h.symm⟩
      · exact ⟨x, List.mem_cons_of_mem _ hx, hxk⟩
    · rintro ⟨x, hx, hxk⟩
      by_cases hk : k = r.deviceName
      · exact Or.inl hk
      · right
        rcases List.mem_cons.1 hx with rfl | hmem
        · exact absurd hxk.symm hk
        · exact ⟨⟨x, hmem, hxk⟩, by simpa using hk⟩

theorem nodup_groupIds (m : List Reading) : (Readings.groupIds m).Nodup := by
  induction m with
  | nil => simp [Readings.groupIds]
  | cons r rs ih =>
    rw [Readings.groupIds, List.nodup_cons]
    refine ⟨?_, ih.filter _⟩
    intro h
    rw [List.mem_filter] at h
    simpa using h.2

theorem foldl_maxBy_ge_init {α : Type} (f : α → Int) (rs : List α) (acc : Int) :
    acc ≤ rs.foldl (fun m x => max m (f x)) acc := by
  induction rs generalizing acc with
  | nil => exact le_refl _
  | cons x xs ih => exact le_trans (le_max_left _ _) (ih _)

theorem foldl_maxBy_ge_mem {α : Type} (f : α → Int) (rs : List α) (acc : Int) (x : α)
    (hx : x ∈ rs) : f x ≤ rs.foldl (fun m x => max m (f x)) acc := by
  induction rs generalizing acc with
  | nil => cases hx
  | cons y ys ih =>
    rcases List.mem_cons.1 hx with rfl | hmem
    · exact le_trans (le_max_right _ _) (foldl_maxBy_ge_init f ys _)
    · exact ih _ hmem

theorem foldl_maxBy_attained {α : Type} (f : α → Int) (rs : List α) (acc : Int) :
    rs.foldl (fun m x => max m (f x)) acc = acc ∨
      ∃ x ∈ rs, f x = rs.foldl (fun m x => max m (f x)) acc := by
  induction rs generalizing acc with
  | nil => exact Or.inl rfl
  | cons y ys ih =>
    rcases ih (max acc (f y)) with h | ⟨x, hx, hxe⟩
    · rcases max_choice acc (f y) with hm | hm
      · left
        rw [List.foldl_cons, h, hm]
      · right
        refine ⟨y, List.mem_cons_self _ _, ?_⟩
        rw [List.foldl_cons, h, hm]
    · right
      exact ⟨x, List.mem_cons_of_mem _ hx, hxe⟩

theorem maxTemperatureGroup_eq_some (m : List Reading) (k : String)
    (row : Readings.MaxTemperatureRow) (h : Readings.maxTemperatureGroup m k = some row) :
    row.DeviceName = k ∧
    ∃ r rs, m.filter (fun r => r.deviceName == k) = r :: rs ∧
      row.ReadingDateTime = r.time ∧
      row.MaxTemperature = rs.foldl (fun mx x => max mx x.temperature) r.temperature := by
  unfold Readings.maxTemperatureGroup at h
  cases hf : m.filter (fun r => r.deviceName == k) with
  | nil => rw [hf] at h; cases h
  | cons r rs =>
    rw [hf] at h
    simp only [Option.some.injEq] at h
    subst h
    exact ⟨rfl, r, rs, rfl, rfl, rfl⟩

theorem maxTemperatureGroup_isSome (m : List Reading) (k : String)
    (h : ∃ r ∈ m, r.deviceName = k) : ∃ row, Readings.maxTemperatureGroup m k = some row := by
  obtain ⟨r, hr, hk⟩ := h
  have hmem : r ∈ m.filter (fun r => r.deviceName == k) := by
    rw [List.mem_filter]; exact ⟨hr, by simpa using hk⟩
  unfold Readings.maxTemperatureGroup
  cases hf : m.filter (fun r => r.deviceName == k) with
  | nil => rw [hf] at hmem; cases hmem
  | cons a as => exact ⟨_, rfl⟩

theorem filterMap_keys_sublist (f : String → Option Readings.MaxTemperatureRow)
    (hf : ∀ k row, f k = some row → row.DeviceName = k) (l : List String) :
    List.Sublist ((l.filterMap f).map (fun row => row.DeviceName)) l := by
  induction l with
  | nil => exact List.Sublist.slnil
  | cons k ks ih =>
    cases hk : f k with
    | none =>
      rw [List.filterMap_cons_none hk]
      exact List.Sublist.cons _ ih
    | some row =>
      rw [List.filterMap_cons_some hk, List.map_cons, hf k row hk]
      exact List.Sublist.cons₂ _ ih

/-- C11. For every start and end date, `findMaxTemperatureInRange` builds the
closed window from local 00:00:00.000 of the start date's day to local
23:59:59.999 of the end date's day, matches exactly the stored readings whose
`Time` lies in it, and returns exactly one row per device with a matched
reading and none for any other device; `MaxTemperature` is the maximum over
that device's matched readings and `ReadingDateTime` is the `Time` of that
device's first matched reading in encounter order. In the sample store that
first reading (11 degrees) does not attain the maximum (25 degrees). -/
theorem findMaxTemperatureInRange_rows :
    (∀ (tz : TimeZone) (store : List Reading) (s e : Int),
      setHours tz s 0 0 0 0 = localMidnight tz s ∧
      setHours tz e 23 59 59 999 = localEndOfDay tz e ∧
      (∀ r, r ∈ Readings.matchInRange store (setHours tz s 0 0 0 0)
            (setHours tz e 23 59 59 999) ↔
          r ∈ store ∧ localMidnight tz s ≤ r.time ∧ r.time ≤ localEndOfDay tz e) ∧
      (∀ k : String,
        (∃ row ∈ Readings.findMaxTemperatureInRange tz store s e, row.DeviceName = k) ↔
          ∃ r ∈ store, r.deviceName = k ∧ localMidnight tz s ≤ r.time ∧
            r.time ≤ localEndOfDay tz e) ∧
      ((Readings.findMaxTemperatureInRange tz store s e).map
        (fun row => row.DeviceName)).Nodup ∧
      (∀ row ∈ Readings.findMaxTemperatureInRange tz store s e,
        (∃ r ∈ store, r.deviceName = row.DeviceName ∧ localMidnight tz s ≤ r.time ∧
          r.time ≤ localEndOfDay tz e ∧ r.temperature = row.MaxTemperature) ∧
        (∀ r ∈ store, r.deviceName = row.DeviceName → localMidnight tz s ≤ r.time →
          r.time ≤ localEndOfDay tz e → r.temperature ≤ row.MaxTemperature) ∧
        (∃ first : Reading,
          (store.filter (fun r => decide (r.deviceName = row.DeviceName ∧
            localMidnight tz s ≤ r.time ∧ r.time ≤ localEndOfDay tz e))).head? = some first ∧
          row.ReadingDateTime = first.time))) ∧
    (∃ (row : Readings.MaxTemperatureRow) (first : Reading),
      row ∈ Readings.findMaxTemperatureInRange utcZone sampleTemperatureStore
        1710412200000 1710412200000 ∧
      (sampleTemperatureStore.filter (fun r => decide (r.deviceName = row.DeviceName ∧
        localMidnight utcZone 1710412200000 ≤ r.time ∧
        r.time ≤ localEndOfDay utcZone 1710412200000))).head? = some first ∧
      row.ReadingDateTime = first.time ∧ first.temperature < row.MaxTemperature) := by
  constructor
  · intro tz store s e
    have hlo := setHours_start_of_day tz s
    have hhi := setHours_end_of_day tz e
    have hmem := mem_matchInRange store (localMidnight tz s) (localEndOfDay tz e)
    have hrows : Readings.findMaxTemperatureInRange tz store s e =
        (Readings.groupIds (Readings.matchInRange store (localMidnight tz s)
          (localEndOfDay tz e))).filterMap
          (Readings.maxTemperatureGroup (Readings.matchInRange store (localMidnight tz s)
            (localEndOfDay tz e))) := by
      simp only [Readings.findMaxTemperatureInRange, hlo, hhi]
    refine ⟨hlo, hhi, ?_, ?_, ?_, ?_⟩
    · intro r
      rw [hlo, hhi]
      exact hmem r
    · intro k
      rw [hrows]
      constructor
      · rintro ⟨row, hrow, hk⟩
        rw [List.mem_filterMap] at hrow
        obtain ⟨k2, hk2, hsome⟩ := hrow
        have hdev := (maxTemperatureGroup_eq_some _ _ _ hsome).1
        obtain ⟨r, hr, hrk⟩ := (mem_groupIds _ _).1 hk2
        have hr2 := (hmem r).1 hr
        exact ⟨r, hr2.1, by rw [hrk, ← hdev, hk], hr2.2.1, hr2.2.2⟩
      · rintro ⟨r, hr, hrk, h1, h2⟩
        have hrm := (hmem r).2 ⟨hr, h1, h2⟩
        obtain ⟨row, hsome⟩ := maxTemperatureGroup_isSome _ k ⟨r, hrm, hrk⟩
        refine ⟨row, ?_, (maxTemperatureGroup_eq_some _ _ _ hsome).1⟩
        rw [List.mem_filterMap]
        exact ⟨k, (mem_groupIds _ _).2 ⟨r, hrm, hrk⟩, hsome⟩
    · rw [hrows]
      exact (nodup_groupIds _).sublist
        (filterMap_keys_sublist _ (fun k row h => (maxTemperatureGroup_eq_some _ k row h).1) _)
    · intro row hrow
      rw [hrows, List.mem_filterMap] at hrow
      obtain ⟨k, _, hsome⟩ := hrow
      obtain ⟨hdev, r, rs, hfilter, htime, hmax⟩ := maxTemperatureGroup_eq_some _ _ _ hsome
      have hin : ∀ x, x ∈ r :: rs → x ∈ store ∧ x.deviceName = k ∧
          localMidnight tz s ≤ x.time ∧ x.time ≤ localEndOfDay tz e := by
        intro x hx
        rw [← hfilter, List.mem_filter] at hx
        have hx1 := (hmem x).1 hx.1
        exact ⟨hx1.1, by simpa using hx.2, hx1.2.1, hx1.2.2⟩
      refine ⟨?_, ?_, ?_⟩
      · rcases foldl_maxBy_attained (fun x : Reading => x.temperature) rs r.temperature with
          h | ⟨x, hx, hxe⟩
        · have h1 := hin r (List.mem_cons_self _ _)
          exact ⟨r, h1.1, by rw [hdev]; exact h1.2.1, h1.2.2.1, h1.2.2.2, by rw [hmax, h]⟩
        · have h1 := hin x (List.mem_cons_of_mem _ hx)
          exact ⟨x, h1.1, by rw [hdev]; exact h1.2.1, h1.2.2.1, h1.2.2.2, by rw [hmax, hxe]⟩
      · intro x hxs hxd hx1 hx2
        have hxm : x ∈ r :: rs := by
          rw [← hfilter, List.mem_filter]
          exact ⟨(hmem x).2 ⟨hxs, hx1, hx2⟩, by rw [hdev] at hxd; simpa using hxd⟩
        rw [hmax]
        rcases List.mem_cons.1 hxm with rfl | hin2
        · exact foldl_maxBy_ge_init (fun x : Reading => x.temperature) rs _
        · exact foldl_maxBy_ge_mem (fun x : Reading => x.temperature) rs _ x hin2
      · refine ⟨r, ?_, htime⟩
        have heq : store.filter (fun r => decide (r.deviceName = row.DeviceName ∧
            localMidnight tz s ≤ r.time ∧ r.time ≤ localEndOfDay tz e)) =
            (Readings.matchInRange store (localMidnight tz s) (localEndOfDay tz e)).filter
              (fun r => r.deviceName == k) := by
          unfold Readings.matchInRange
          rw [List.filter_filter, hdev]
          apply List.filter_congr
          intro x _
          by_cases hxk : x.deviceName = k <;> simp [hxk]
        rw [heq, hfilter]
        rfl
  · exact ⟨⟨"D", 1710412200000, 25⟩, sampleTemperatureReading "a" "D" 1710412200000 11,
      by decide, by decide, rfl, by decide⟩

theorem findMaxTemperatureInRange_rows_witness :
    (∃ r ∈ sampleTemperatureStore, r.deviceName = "E" ∧
      localMidnight utcZone 1710412200000 ≤ r.time ∧
      r.time ≤ localEndOfDay utcZone 1710412200000 ∧ r.temperature = 30) ∧
    (∀ r ∈ sampleTemperatureStore, r.deviceName = "E" →
      localMidnight utcZone 1710412200000 ≤ r.time →
      r.time ≤ localEndOfDay utcZone 1710412200000 → r.temperature ≤ 30) ∧
    (∃ first : Reading,
      (sampleTemperatureStore.filter (fun r => decide (r.deviceName = "E" ∧
        localMidnight utcZone 1710412200000 ≤ r.time ∧
        r.time ≤ localEndOfDay utcZone 1710412200000))).head? = some first ∧
      (1710415800000 : Int) = first.time) :=
  (findMaxTemperatureInRange_rows.1 utcZone sampleTemperatureStore 1710412200000
    1710412200000).2.2.2.2.2 ⟨"E", 1710415800000, 30⟩ (by decide)

/-! ### Bulk operations of the user model -/

theorem applyPatch_role (u : User) (newRole : String) :
    applyPatch u { role := some newRole } = { u with role := newRole } := rfl

theorem inRoleUpdateFilter_iff (startDate endDate : Int) (u : User) :
    UserModel.inRoleUpdateFilter startDate endDate u = true ↔
      (∃ c, u.createdAt = some c ∧ startDate ≤ c ∧ c ≤ endDate) ∧
        u.role ≠ "station" ∧ u.role ≠ "admin" := by
  unfold UserModel.inRoleUpdateFilter
  cases hc : u.createdAt with
  | none => simp
  | some c => simp [and_assoc]

/-- C19. After `UserModel.updateRoleInDateRange` with the `$set` document
`role: newRole`, no user is added or removed, every field other than `role`
of every user is unchanged, a user whose `createdAt` lies in the closed
window and whose role is neither `station` nor `admin` has the new role, and
every user whose role is `station` or `admin` or whose `createdAt` is not in
the window is unchanged. -/
theorem updateRoleInDateRange_frame (users : List User) (startDate endDate : Int)
    (newRole : String) :
    (UserModel.updateRoleInDateRange users startDate endDate
      { role := some newRole }).length = users.length ∧
    ∀ (i : Nat) (u : User), users[i]? = some u →
      ∃ v : User,
        (UserModel.updateRoleInDateRange users startDate endDate
          { role := some newRole })[i]? = some v ∧
        v._id = u._id ∧ v.username = u.username ∧ v.email = u.email ∧
        v.password = u.password ∧ v.authToken = u.authToken ∧
        v.lastLogin = u.lastLogin ∧ v.lastAccess = u.lastAccess ∧
        v.createdAt = u.createdAt ∧
        ((∃ c, u.createdAt = some c ∧ startDate ≤ c ∧ c ≤ endDate) →
          u.role ≠ "station" → u.role ≠ "admin" → v.role = newRole) ∧
        (u.role = "station" ∨ u.role = "admin" → v = u) ∧
        ((¬ ∃ c, u.createdAt = some c ∧ startDate ≤ c ∧ c ≤ endDate) → v = u) := by
  refine ⟨by simp [UserModel.updateRoleInDateRange], ?_⟩
  intro i u hu
  have hiff := inRoleUpdateFilter_iff startDate endDate u
  by_cases hf : UserModel.inRoleUpdateFilter startDate endDate u = true
  · refine ⟨{ u with role := newRole }, ?_, rfl, rfl, rfl, rfl, rfl, rfl, rfl, rfl, ?_, ?_, ?_⟩
    · simp [UserModel.updateRoleInDateRange, hu, hf, applyPatch_role]
    · intro _ _ _; rfl
    · rintro (h | h)
      · exact absurd h (hiff.1 hf).2.1
      · exact absurd h (hiff.1 hf).2.2
    · intro h
      exact absurd (hiff.1 hf).1 h
  · refine ⟨u, ?_, rfl, rfl, rfl, rfl, rfl, rfl, rfl, rfl, ?_, fun _ => rfl, fun _ => rfl⟩
    · simp [UserModel.updateRoleInDateRange, hu, hf]
    · intro h1 h2 h3
      exact absurd (hiff.2 ⟨h1, h2, h3⟩) hf

theorem updateRoleInDateRange_frame_witness :
    ∃ v : User,
      (UserModel.updateRoleInDateRange sampleUsers 0 100 { role := some "teacher" })[1]?
        = some v ∧
      v._id = sampleStudent._id ∧ v.username = sampleStudent.username ∧
      v.email = sampleStudent.email ∧ v.password = sampleStudent.password ∧
      v.authToken = sampleStudent.authToken ∧ v.lastLogin = sampleStudent.lastLogin ∧
      v.lastAccess = sampleStudent.lastAccess ∧ v.createdAt = sampleStudent.createdAt ∧
      ((∃ c, sampleStudent.createdAt = some c ∧ (0 : Int) ≤ c ∧ c ≤ 100) →
        sampleStudent.role ≠ "station" → sampleStudent.role ≠ "admin" → v.role = "teacher") ∧
      (sampleStudent.role = "station" ∨ sampleStudent.role = "admin" → v = sampleStudent) ∧
      ((¬ ∃ c, sampleStudent.createdAt = some c ∧ (0 : Int) ≤ c ∧ c ≤ 100) →
        v = sampleStudent) :=
  (updateRoleInDateRange_frame sampleUsers 0 100 "teacher").2 1 sampleStudent (by decide)

theorem inStudentDeleteFilter_iff (startDate endDate : Int) (u : User) :
    UserModel.inStudentDeleteFilter startDate endDate u = true ↔
      u.role = "student" ∧ ∃ l, u.lastLogin = some l ∧ startDate ≤ l ∧ l ≤ endDate := by
  unfold UserModel.inStudentDeleteFilter
  cases hl : u.lastLogin with
  | none => simp
  | some l => simp

/-- C20. For every window, `deleteStudentsByLastLogin` removes exactly the
users whose role is `student` and whose `lastLogin` is a date in the closed
window: the users that remain are the others, unchanged and in their order,
among them every user with another role, every student whose `lastLogin` is
outside the window and every student that has never logged in; and the
reported `deletedCount` is the number of users removed. -/
theorem deleteStudentsByLastLogin_exact (users : List User) (startDate endDate : Int) :
    List.Sublist (UserModel.deleteStudentsByLastLogin users startDate endDate).2 users ∧
    (∀ u ∈ users, (u ∈ (UserModel.deleteStudentsByLastLogin users startDate endDate).2 ↔
      ¬ (u.role = "student" ∧
        ∃ l, u.lastLogin = some l ∧ startDate ≤ l ∧ l ≤ endDate))) ∧
    (∀ u ∈ users, u.role ≠ "student" →
      u ∈ (UserModel.deleteStudentsByLastLogin users startDate endDate).2) ∧
    (∀ u ∈ users, u.lastLogin = none →
      u ∈ (UserModel.deleteStudentsByLastLogin users startDate endDate).2) ∧
    (∀ u ∈ users, (∀ l, u.lastLogin = some l → l < startDate ∨ endDate < l) →
      u ∈ (UserModel.deleteStudentsByLastLogin users startDate endDate).2) ∧
    (UserModel.deleteStudentsByLastLogin users startDate endDate).1 +
      (UserModel.deleteStudentsByLastLogin users startDate endDate).2.length
        = users.length ∧
    (UserModel.deleteStudentsByLastLogin users startDate endDate).1 =
      users.countP (UserModel.inStudentDeleteFilter startDate endDate) := by
  have hmem : ∀ u ∈ users,
      (u ∈ (UserModel.deleteStudentsByLastLogin users startDate endDate).2 ↔
        ¬ (u.role = "student" ∧
          ∃ l, u.lastLogin = some l ∧ startDate ≤ l ∧ l ≤ endDate)) := by
    intro u hu
    rw [← inStudentDeleteFilter_iff]
    simp [UserModel.deleteStudentsByLastLogin, List.mem_filter, hu]
  refine ⟨?_, hmem, ?_, ?_, ?_, ?_, ?_⟩
  · exact List.filter_sublist _
  · intro u hu hrole
    exact (hmem u hu).2 (fun h => hrole h.1)
  · intro u hu hnone
    refine (hmem u hu).2 ?_
    rintro ⟨_, l, hl, _⟩
    rw [hnone] at hl
    cases hl
  · intro u hu hout
    refine (hmem u hu).2 ?_
    rintro ⟨_, l, hl, h1, h2⟩
    rcases hout l hl with h | h <;> omega
  · simp only [UserModel.deleteStudentsByLastLogin]
    have h := List.length_eq_countP_add_countP
      (UserModel.inStudentDeleteFilter startDate endDate) (l := users)
    rw [List.countP_eq_length_filter, List.countP_eq_length_filter] at h
    have h2 : users.filter (fun u => !UserModel.inStudentDeleteFilter startDate endDate u)
        = users.filter (fun a => ¬ UserModel.inStudentDeleteFilter startDate endDate a = true) := by
      apply List.filter_congr
      intro x _
      cases UserModel.inStudentDeleteFilter startDate endDate x <;> simp
    rw [h2]
    omega
  · simp only [UserModel.deleteStudentsByLastLogin, List.countP_eq_length_filter]

theorem deleteStudentsByLastLogin_exact_witness :
    sampleNewStudent ∈ (UserModel.deleteStudentsByLastLogin sampleUsers 0 100).2 ∧
    sampleTeacher ∈ (UserModel.deleteStudentsByLastLogin sampleUsers 0 100).2 ∧
    sampleStudent ∉ (UserModel.deleteStudentsByLastLogin sampleUsers 0 100).2 :=
  ⟨(deleteStudentsByLastLogin_exact sampleUsers 0 100).2.2.2.1 sampleNewStudent
      (by decide) rfl,
   (deleteStudentsByLastLogin_exact sampleUsers 0 100).2.2.1 sampleTeacher
      (by decide) (by decide),
   fun h => ((deleteStudentsByLastLogin_exact sampleUsers 0 100).2.1 sampleStudent
      (by decide)).1 h ⟨rfl, 100, rfl, by decide, by decide⟩⟩

/-! ### The passive access recorder -/

theorem updateFirst_length {α : Type} (p : α → Bool) (f : α → α) (l : List α) :
    (updateFirst p f l).length = l.length := by
  induction l with
  | nil => rfl
  | cons x xs ih =>
    unfold updateFirst
    split <;> simp [ih]

theorem updateFirst_unique_id (f : User → User) (u : User) (users : List User)
    (hids : (users.map (fun x => x._id)).Nodup) (hu : u ∈ users) :
    updateFirst (fun x => x._id == u._id) f users =
      users.map (fun x => if x = u then f x else x) := by
  induction users with
  | nil => cases hu
  | cons x xs ih =>
    rw [List.map_cons, List.nodup_cons] at hids
    unfold updateFirst
    by_cases hx : x._id = u._id
    · have hxu : x = u := by
        rcases List.mem_cons.1 hu with h | h
        · exact h.symm
        · exact absurd (List.mem_map.2 ⟨u, h, hx.symm⟩) hids.1
      have hrest : xs.map (fun y => if y = u then f y else y) = xs := by
        conv_rhs => rw [← List.map_id xs]
        apply List.map_congr_left
        intro y hy
        have hyu : y ≠ u := by
          intro h
          apply hids.1
          rw [← hxu] at h
          rw [← h]
          exact List.mem_map.2 ⟨y, hy, rfl⟩
        simp [hyu]
      simp [hx, hxu, hrest]
    · have hxu : x ≠ u := fun h => hx (by rw [h])
      have hu2 : u ∈ xs := by
        rcases List.mem_cons.1 hu with h | h
        · exact absurd h.symm hxu
        · exact h
      simp [hx, hxu, ih hids.2 hu2]

theorem updateDataAccess_student (now : Int) (users : List User) (t : String) (u : User)
    (ht : t ≠ "") (hu : UserModel.getUserByAuthToken users t = some u)
    (hrole : u.role = "student") :
    updateDataAccess noFaults now users (some t) =
      { users := updateFirst (fun x => x._id == u._id)
          (fun x => applyPatch x { lastAccess := some (some now) }) users
        effects := [Effect.next]
        storeCalls := [StoreCall.getUserByAuthToken t, StoreCall.updateUserById u._id now]
        rejected := none } := by
  have hmem := (getUserByAuthToken_some users t u hu).1
  have hany : users.any (fun x => x._id == u._id) = true := by
    rw [List.any_eq_true]
    exact ⟨u, hmem, by simp⟩
  simp [updateDataAccess, not_truthy_of_ne_empty t ht, noFaults, hu, hrole,
    UserModel.updateUserById, newObjectId, hany]

theorem updateDataAccess_unchanged (now : Int) (users : List User) (authKey : Option String)
    (h : ¬ ∃ t u, authKey = some t ∧ t ≠ "" ∧
      UserModel.getUserByAuthToken users t = some u ∧ u.role = "student") :
    (updateDataAccess noFaults now users authKey).users = users := by
  cases authKey with
  | none => rfl
  | some t =>
    by_cases ht : t = ""
    · subst ht; rfl
    · cases hu : UserModel.getUserByAuthToken users t with
      | none => simp [updateDataAccess, not_truthy_of_ne_empty t ht, noFaults, hu]
      | some u =>
        have hr : u.role ≠ "student" := fun hr => h ⟨t, u, rfl, ht, hu, hr⟩
        simp [updateDataAccess, not_truthy_of_ne_empty t ht, noFaults, hu, hr]

theorem map_eq_self_iff_forall {α : Type} (f : α → α) (l : List α) :
    l.map f = l ↔ ∀ x ∈ l, f x = x := by
  induction l with
  | nil => simp
  | cons a as ih => simp [ih]

theorem stamp_eq_self_iff (x : User) (now : Int) :
    applyPatch x { lastAccess := some (some now) } = x ↔ x.lastAccess = some now := by
  constructor
  · intro h
    have := congrArg User.lastAccess h
    simpa [applyPatch] using this.symm
  · intro h
    cases x
    simp only [applyPatch, Option.getD] at *
    simp [h]

/-- C17, as amended. On a store that answers every call and whose `_id`s are
distinct, `updateDataAccess` can change the user collection only when the
`Auth-Key` header is non-empty and resolves to a user whose role is exactly
`student`; then the collection afterwards is the one before with that
user's `lastAccess` set to the current time, every other field and every
other user unchanged, so it differs from before exactly when that user's
`lastAccess` was not already the current time; with no header, or an empty
one, the user model is not called at all. -/
theorem updateDataAccess_frame (now : Int) (users : List User) (authKey : Option String)
    (hids : (users.map (fun x => x._id)).Nodup) :
    ((updateDataAccess noFaults now users authKey).users ≠ users →
      ∃ t u, authKey = some t ∧ t ≠ "" ∧
        UserModel.getUserByAuthToken users t = some u ∧ u.role = "student") ∧
    (∀ t u, authKey = some t → t ≠ "" →
      UserModel.getUserByAuthToken users t = some u → u.role = "student" →
      (updateDataAccess noFaults now users authKey).users =
        users.map (fun x => if x = u then { x with lastAccess := some now } else x) ∧
      ((updateDataAccess noFaults now users authKey).users ≠ users ↔
        u.lastAccess ≠ some now)) ∧
    ((authKey = none ∨ authKey = some "") →
      (updateDataAccess noFaults now users authKey).storeCalls = [] ∧
      (updateDataAccess noFaults now users authKey).users = users) := by
  refine ⟨?_, ?_, ?_⟩
  · intro hne
    by_contra hno
    exact hne (updateDataAccess_unchanged now users authKey hno)
  · intro t u hkey ht hu hrole
    subst hkey
    have hmem := (getUserByAuthToken_some users t u hu).1
    have hrun := updateDataAccess_student now users t u ht hu hrole
    have hmap := updateFirst_unique_id
      (fun x => applyPatch x { lastAccess := some (some now) }) u users hids hmem
    have husers : (updateDataAccess noFaults now users (some t)).users =
        users.map (fun x => if x = u then { x with lastAccess := some now } else x) := by
      rw [hrun]
      exact hmap
    refine ⟨husers, ?_⟩
    rw [husers, not_iff_not]
    constructor
    · intro h
      have h1 := (map_eq_self_iff_forall _ users).1 h
      have h2 := h1 u hmem
      rw [if_pos rfl] at h2
      exact (stamp_eq_self_iff u now).1 h2
    · intro h
      apply (map_eq_self_iff_forall _ users).2
      intro x _
      by_cases hx : x = u
      · rw [if_pos hx, hx]
        exact (stamp_eq_self_iff u now).2 h
      · rw [if_neg hx]
  · rintro (h | h) <;> subst h <;> exact ⟨rfl, rfl⟩

/-- C17, as stated, fails: a student whose `lastAccess` already is the current
time sends a valid token, and the collection is the same afterwards. -/
theorem updateDataAccess_differs_counterexample :
    ¬ (∀ (now : Int) (users : List User) (authKey : Option String),
        (users.map (fun x => x._id)).Nodup →
        ((updateDataAccess noFaults now users authKey).users ≠ users ↔
          ∃ t u, authKey = some t ∧ UserModel.getUserByAuthToken users t = some u ∧
            u.role = "student")) := by
  intro h
  have h1 := (h 5 [sampleStudent] (some "stu") (by decide)).2
    ⟨"stu", sampleStudent, rfl, by decide, by decide⟩
  exact h1 (by decide)

theorem updateDataAccess_frame_witness :
    (updateDataAccess noFaults 9 sampleUsers (some "stu")).users =
      sampleUsers.map (fun x => if x = sampleStudent then { x with lastAccess := some 9 }
        else x) ∧
    ((updateDataAccess noFaults 9 sampleUsers (some "stu")).users ≠ sampleUsers ↔
      sampleStudent.lastAccess ≠ some 9) :=
  (updateDataAccess_frame 9 sampleUsers (some "stu") (by decide)).2.1 "stu" sampleStudent
    rfl (by decide) (by decide) (by decide)

/-- C18 at a failing input: when the token lookup rejects, or the write of
`lastAccess` rejects, `updateDataAccess` calls nothing, neither `next` nor a
response, and its promise rejects; when the write resolves to a falsy value
`next` is called twice. -/
theorem updateDataAccess_store_failure_blocks :
    (updateDataAccess lookupFails 9 sampleUsers (some "stu")).effects = [] ∧
    (updateDataAccess lookupFails 9 sampleUsers (some "stu")).rejected
      = some "MongoNetworkError" ∧
    (updateDataAccess writeFails 9 sampleUsers (some "stu")).effects = [] ∧
    (updateDataAccess writeFails 9 sampleUsers (some "stu")).rejected
      = some "MongoNetworkError" ∧
    (updateDataAccess writeReportsNothing 9 sampleUsers (some "stu")).effects
      = [Effect.next, Effect.next] := by
  decide

/-! ### The precipitation patch -/

theorem updateFirst_spec {α : Type} (p : α → Bool) (f : α → α) (l : List α) (r : α)
    (hr : l.find? p = some r) (hp : p (f r) = true) :
    (updateFirst p f l).find? p = some (f r) ∧
    ∃ i : Nat, l[i]? = some r ∧ (updateFirst p f l)[i]? = some (f r) ∧
      ∀ j : Nat, j ≠ i → (updateFirst p f l)[j]? = l[j]? := by
  induction l with
  | nil => cases hr
  | cons x xs ih =>
    unfold updateFirst
    by_cases hx : p x = true
    · have hxr : x = r := by
        rw [List.find?_cons_of_pos _ hx] at hr
        exact Option.some.inj hr
      subst hxr
      rw [if_pos hx]
      refine ⟨List.find?_cons_of_pos _ hp, 0, by simp, by simp, ?_⟩
      intro j hj
      cases j with
      | zero => exact absurd rfl hj
      | succ k => simp
    · rw [List.find?_cons_of_neg _ hx] at hr
      obtain ⟨h1, i, h2, h3, h4⟩ := ih hr
      rw [if_neg hx]
      refine ⟨by rw [List.find?_cons_of_neg _ hx]; exact h1, i + 1, by simpa using h2,
        by simpa using h3, ?_⟩
      intro j hj
      cases j with
      | zero => simp
      | succ k =>
        have hk : k ≠ i := fun h => hj (by rw [h])
        simpa using h4 k hk

theorem valid_id_ne_empty (id oid : String)
    (h : newObjectId (IdArg.text id) = Except.ok oid) : id ≠ "" := by
  intro h0
  subst h0
  have hbad : newObjectId (IdArg.text "") = Except.error
      "BSONError: input must be a 24 character hex string, 12 byte Uint8Array, or an integer" :=
    rfl
  rw [hbad] at h
  cases h

/-- The patch on a well-formed id that no reading has: the model rejects, and
the controller answers 500 and leaves the collection as it was. -/
theorem updatePrecipitationById_not_found (store : List StoredReading) (id : String)
    (v : JsValue) (hget : Readings.getReadingById store (IdArg.text id) = Except.ok none)
    (hv : v.truthy = true) :
    updatePrecipitationById store (some id) v =
      ({ status := 500,
         message := "Failed to update precipitation value. Weather Data not found",
         data := none }, store) := by
  unfold Readings.getReadingById at hget
  cases hoid : newObjectId (IdArg.text id) with
  | error e => rw [hoid] at hget; cases hget
  | ok oid =>
    rw [hoid] at hget
    have hfind : store.find? (fun r => r._id == oid) = none := by
      simpa using hget
    have hid := valid_id_ne_empty id oid hoid
    simp only [updatePrecipitationById, Readings.updatePrecipitationById, hoid, hfind,
      not_truthy_of_ne_empty id hid, hv]
    rfl

/-- C12 at a failing input: the id is well formed and matches no reading of
the sample collection, the new value 7 is not zero, and the patch answers 500,
not 404; the collection is unchanged. -/
theorem updatePrecipitationById_unknown_id_is_500 :
    isValidObjectIdString "65f027649250bb7f552f6803" = true ∧
    Readings.getReadingById sampleStoredStore (IdArg.text "65f027649250bb7f552f6803")
      = Except.ok none ∧
    updatePrecipitationById sampleStoredStore (some "65f027649250bb7f552f6803")
        (JsValue.num 7) =
      ({ status := 500,
         message := "Failed to update precipitation value. Weather Data not found",
         data := none }, sampleStoredStore) :=
  ⟨by decide, rfl,
   updatePrecipitationById_not_found sampleStoredStore "65f027649250bb7f552f6803"
     (JsValue.num 7) rfl (by decide)⟩

/-- C13. For an id that get-by-id resolves to the reading `r` and a truthy
new value `v`, the precipitation patch responds 200 with `PreviousValue` the
precipitation of `r` and `UpdatedValue` equal to `v`; afterwards get-by-id of
that id returns `r` with its precipitation replaced by `v` and every other
field as before, the collection has the same size, and every other position
of it is unchanged. -/
theorem updatePrecipitationById_existing (store : List StoredReading) (id : String)
    (v : JsValue) (r : StoredReading)
    (hget : Readings.getReadingById store (IdArg.text id) = Except.ok (some r))
    (hv : v.truthy = true) :
    ∃ (updated : List StoredReading) (i : Nat),
      updatePrecipitationById store (some id) v =
        ({ status := 200, message := "Precipitation value updated successfully.",
           data := some { PreviousValue := r.precipitation, UpdatedValue := v } },
          updated) ∧
      Readings.getReadingById updated (IdArg.text id)
        = Except.ok (some { r with precipitation := v }) ∧
      updated.length = store.length ∧
      store[i]? = some r ∧ updated[i]? = some { r with precipitation := v } ∧
      ∀ j : Nat, j ≠ i → updated[j]? = store[j]? := by
  unfold Readings.getReadingById at hget
  cases hoid : newObjectId (IdArg.text id) with
  | error e => rw [hoid] at hget; cases hget
  | ok oid =>
    rw [hoid] at hget
    have hfind : store.find? (fun x => x._id == oid) = some r := by
      simpa using hget
    have hid := valid_id_ne_empty id oid hoid
    have hrid : (r._id == oid) = true := by
      have := List.find?_some hfind
      simpa using this
    obtain ⟨h1, i, h2, h3, h4⟩ := updateFirst_spec (fun x : StoredReading => x._id == oid)
      (fun x => { x with precipitation := v }) store r hfind hrid
    refine ⟨updateFirst (fun x => x._id == oid) (fun x => { x with precipitation := v }) store,
      i, ?_, ?_, updateFirst_length _ _ _, h2, h3, h4⟩
    · simp only [updatePrecipitationById, Readings.updatePrecipitationById, hoid, hfind,
        not_truthy_of_ne_empty id hid, hv]
      rfl
    · simp only [Readings.getReadingById, hoid, h1]

theorem updatePrecipitationById_existing_witness :
    ∃ (updated : List StoredReading) (i : Nat),
      updatePrecipitationById sampleStoredStore (some "65f027649250bb7f552f6802")
          (JsValue.num 7) =
        ({ status := 200, message := "Precipitation value updated successfully.",
           data := some (PatchData.mk
             (sampleStoredReading "65f027649250bb7f552f6802" (JsValue.num 1)).precipitation
             (JsValue.num 7)) },
          updated) ∧
      Readings.getReadingById updated (IdArg.text "65f027649250bb7f552f6802")
        = Except.ok (some { sampleStoredReading "65f027649250bb7f552f6802" (JsValue.num 1)
            with precipitation := JsValue.num 7 }) ∧
      updated.length = sampleStoredStore.length ∧
      sampleStoredStore[i]?
        = some (sampleStoredReading "65f027649250bb7f552f6802" (JsValue.num 1)) ∧
      updated[i]? = some { sampleStoredReading "65f027649250bb7f552f6802" (JsValue.num 1)
          with precipitation := JsValue.num 7 } ∧
      ∀ j : Nat, j ≠ i → updated[j]? = sampleStoredStore[j]? :=
  updatePrecipitationById_existing sampleStoredStore "65f027649250bb7f552f6802"
    (JsValue.num 7) (sampleStoredReading "65f027649250bb7f552f6802" (JsValue.num 1))
    rfl (by decide)

/-! ### Malformed ids -/

/-- An insert-one body whose `_id` is not well formed: the constructor throws
out of the controller, which sends nothing, and nothing is persisted. -/
theorem insertReading_malformed_id (freshId : String) (newDate : JsValue → Option Int)
    (store : List StoredReading) (body : ReadingBody) (s : String)
    (hid : body._id = some s) (hbad : isValidObjectIdString s = false) :
    insertReading freshId newDate store body =
      (Outcome.threw "BSONError: input must be a 24 character hex string, 12 byte Uint8Array, or an integer",
        store) := by
  simp [insertReading, constructReading, Readings.WeatherReading, hid, newObjectId, hbad]

/-- C15 at a failing input: an insert-one body, and an insert-many body whose
second item, has the `_id` `"xyz"`. Nothing is persisted, but the controller
sends no response at all: the constructor throws outside its error handling. -/
theorem insert_malformed_id_sends_nothing :
    insertReading "65f027649250bb7f552f6809" sampleNewDate sampleStoredStore
        (sampleBody (some "xyz")) =
      (Outcome.threw "BSONError: input must be a 24 character hex string, 12 byte Uint8Array, or an integer",
        sampleStoredStore) ∧
    insertMultipleReadings (fun _ => "65f027649250bb7f552f6809") sampleNewDate
        sampleStoredStore [sampleBody none, sampleBody (some "xyz")] =
      (Outcome.threw "BSONError: input must be a 24 character hex string, 12 byte Uint8Array, or an integer",
        sampleStoredStore) := by
  constructor
  · exact insertReading_malformed_id _ _ _ _ "xyz" rfl (by decide)
  · simp [insertMultipleReadings, constructAll, constructReading, Readings.WeatherReading,
      sampleBody, newObjectId]
    decide

/-- C16 at a failing input: for the id `"abc"`, which is not empty and not a
well-formed object id, `getUserById` and `deleteWeatherData` answer 500, not
400. -/
theorem malformed_id_is_500 :
    isValidObjectIdString "abc" = false ∧
    getUserById sampleUsers "abc" =
      [{ status := 500,
         message := "Database error finding userBSONError: input must be a 24 character hex string, 12 byte Uint8Array, or an integer",
         userData := none }] ∧
    deleteWeatherData sampleStoredStore (some "abc") =
      ({ status := 500,
         message := "Failed to delete weather data.BSONError: input must be a 24 character hex string, 12 byte Uint8Array, or an integer",
         deletedCount := none }, sampleStoredStore) := by
  refine ⟨by decide, by decide, by decide⟩

/-! ### Construction, insertion and lookup of a reading -/

theorem radixDigit_digitChar : ∀ d : Fin 10, radixDigit 10 (digitChar d) = some d.val := by
  decide

theorem digitChar_not_special : ∀ d : Fin 10,
    isStrWhiteSpaceChar (digitChar d) = false ∧ digitChar d ≠ '-' ∧ digitChar d ≠ '+' ∧
      digitChar d ≠ 'I' := by
  decide

theorem takeDigits_digitChars (ds : List (Fin 10)) (rest : List Char)
    (hrest : takeDigits 10 rest = []) :
    takeDigits 10 (ds.map digitChar ++ rest) = ds.map Fin.val := by
  induction ds with
  | nil => simpa using hrest
  | cons d ds ih =>
    rw [List.map_cons, List.cons_append, takeDigits, radixDigit_digitChar d]
    simp [ih]

theorem foldl_digits_ofDigits (ds : List Nat) (acc : Nat) :
    ds.foldl (fun a v => a * 10 + v) acc = acc * 10 ^ ds.length + Nat.ofDigits 10 ds.reverse := by
  induction ds generalizing acc with
  | nil => simp
  | cons d ds ih =>
    rw [List.foldl_cons, ih, List.reverse_cons, Nat.ofDigits_append, Nat.ofDigits_singleton,
      List.length_reverse, List.length_cons, pow_succ]
    ring

theorem digitsValue_eq_ofDigits (ds : List Nat) :
    digitsValue 10 ds = Nat.ofDigits 10 ds.reverse := by
  unfold digitsValue
  rw [foldl_digits_ofDigits]
  simp

theorem stripSign_of_not_sign (c : Char) (r : List Char) (h1 : c ≠ '-') (h2 : c ≠ '+') :
    stripSign (c :: r) = (1, c :: r) := by
  unfold stripSign
  split
  · rename_i heq; cases heq; exact absurd rfl h1
  · rename_i heq; cases heq; exact absurd rfl h2
  · rfl

theorem infinity_not_at (c : Char) (r : List Char) (h : c ≠ 'I') :
    "Infinity".toList.isPrefixOf (c :: r) = false := by
  have hI : "Infinity".toList = 'I' :: "nfinity".toList := rfl
  rw [hI]
  simp only [List.isPrefixOf, Bool.and_eq_false_imp, beq_iff_eq]
  intro h2
  exact absurd h2.symm h

/-- The scan of `parseFloat` on digits, then nothing or a point and digits. -/
theorem scanDecimal_digits (sign : Int) (pre : List Char) (ip fp : List (Fin 10))
    (hip : ip ≠ [])
    (hpre : stripSign (List.dropWhile isStrWhiteSpaceChar
        (pre ++ (ip.map digitChar ++ (if fp.isEmpty then [] else '.' :: fp.map digitChar))))
      = (sign, ip.map digitChar ++ (if fp.isEmpty then [] else '.' :: fp.map digitChar))) :
    scanDecimal (pre ++ (ip.map digitChar ++
        (if fp.isEmpty then [] else '.' :: fp.map digitChar))) =
      DecimalPrefix.decimal sign (Nat.ofDigits 10 (ip.reverse.map Fin.val))
        (Nat.ofDigits 10 (fp.reverse.map Fin.val)) fp.length 0 := by
  obtain ⟨d, ds, rfl⟩ := List.exists_cons_of_ne_nil hip
  have hdot : takeDigits 10 ('.' :: fp.map digitChar) = [] := by
    rw [takeDigits]
    have : radixDigit 10 '.' = none := by decide
    rw [this]
  have hrest : takeDigits 10 (if fp.isEmpty then [] else '.' :: fp.map digitChar) = [] := by
    split
    · rfl
    · exact hdot
  have hip2 := takeDigits_digitChars (d :: ds) _ hrest
  have hinf : "Infinity".toList.isPrefixOf (List.map digitChar (d :: ds) ++
      (if fp.isEmpty then [] else '.' :: fp.map digitChar)) = false :=
    infinity_not_at (digitChar d)
      (ds.map digitChar ++ (if fp.isEmpty then [] else '.' :: fp.map digitChar))
      (digitChar_not_special d).2.2.2
  have hdrop : List.drop ((d :: ds).map Fin.val).length
      (List.map digitChar (d :: ds) ++
        (if fp.isEmpty then [] else '.' :: fp.map digitChar))
      = (if fp.isEmpty then [] else '.' :: fp.map digitChar) := by
    have hlen : ((d :: ds).map Fin.val).length = ((d :: ds).map digitChar).length := by simp
    rw [hlen, List.drop_left]
  have hnonempty : ((d :: ds).map Fin.val).isEmpty = false := rfl
  unfold scanDecimal
  simp only [hpre, hinf, hip2, hdrop, hnonempty, Bool.false_eq_true, if_false, Bool.false_and]
  by_cases hfp : fp.isEmpty = true
  · have hfp2 : fp = [] := List.isEmpty_iff.1 hfp
    subst hfp2
    simp [digitsValue_eq_ofDigits, parseExponent, List.map_reverse]
  · have hfrac : takeDigits 10 (fp.map digitChar) = fp.map Fin.val := by
      have := takeDigits_digitChars fp [] rfl
      simpa using this
    have hdrop2 : List.drop (fp.map Fin.val).length (fp.map digitChar) = [] := by
      apply List.drop_of_length_le
      simp
    simp only [hfp, if_false, hfrac, hdrop2, Bool.false_eq_true]
    simp [digitsValue_eq_ofDigits, parseExponent, List.map_reverse]

/-- The model of `parseFloat` reads a decimal numeral as the Number value of
the number it denotes. -/
theorem parseFloat_numeral (n : DecimalNumeral) (h : n.intDigits ≠ []) :
    parseFloat (JsValue.str n.render) = n.numberValue := by
  obtain ⟨d, ds, hds⟩ := List.exists_cons_of_ne_nil h
  have hspecial := digitChar_not_special d
  have hpre : stripSign (List.dropWhile isStrWhiteSpaceChar
      ((if n.negative then ['-'] else []) ++ (n.intDigits.map digitChar ++
        (if n.fracDigits.isEmpty then [] else '.' :: n.fracDigits.map digitChar))))
      = ((if n.negative then (-1 : Int) else 1), n.intDigits.map digitChar ++
        (if n.fracDigits.isEmpty then [] else '.' :: n.fracDigits.map digitChar)) := by
    cases hneg : n.negative with
    | true =>
      have hminus : isStrWhiteSpaceChar '-' = false := by decide
      simp only [if_true, List.singleton_append, List.dropWhile_cons, hminus,
        Bool.false_eq_true, if_false]
      rfl
    | false =>
      simp only [Bool.false_eq_true, if_false, List.nil_append, hds, List.map_cons,
        List.cons_append, List.dropWhile_cons, hspecial.1]
      exact stripSign_of_not_sign _ _ hspecial.2.1 hspecial.2.2.1
  have hscan := scanDecimal_digits _ _ n.intDigits n.fracDigits h hpre
  have hchars : n.render.toList = (if n.negative then ['-'] else []) ++
      (n.intDigits.map digitChar ++
        (if n.fracDigits.isEmpty then [] else '.' :: n.fracDigits.map digitChar)) := rfl
  have h1 : ((0 : Int) - (n.fracDigits.length : Int)).toNat = 0 := by omega
  have h2 : (-((0 : Int) - (n.fracDigits.length : Int))).toNat = n.fracDigits.length := by
    omega
  have h3 : decide ((if n.negative then (-1 : Int) else 1) < 0) = n.negative := by
    cases n.negative <;> decide
  simp only [parseFloat, parseFloatChars, hchars, hscan, h1, h2, h3, pow_zero, mul_one,
    DecimalNumeral.numberValue, DecimalNumeral.numerator, DecimalNumeral.denominator]

/-- The number a decimal numeral denotes is its numerator over its
denominator, with its sign. -/
theorem value_eq_numerator_div (n : DecimalNumeral) :
    n.value = (if n.negative then -1 else 1) * ((n.numerator : ℚ) / (n.denominator : ℚ)) := by
  unfold DecimalNumeral.value DecimalNumeral.numerator DecimalNumeral.denominator
  have h10 : (10 : ℚ) ^ n.fracDigits.length ≠ 0 := by positivity
  push_cast
  field_simp

theorem numberValue_of_nearest (negative : Bool) (n d m : Nat) (u : Int)
    (h : nearestDouble n d = some (m, u)) :
    numberValue negative n d =
      JsValue.num ((if negative then -1 else 1) * (m : ℚ) * (2 : ℚ) ^ u) := by
  simp only [numberValue, h]

theorem numberValue_of_overflow (negative : Bool) (n d : Nat)
    (h : nearestDouble n d = none) : numberValue negative n d = JsValue.inf negative := by
  simp only [numberValue, h]

/-- The value of `parseFloat` on a string, from the scan of its literal and
the rounding of the number the literal denotes. -/
theorem parseFloat_of_scan (s : String) (sign : Int) (ip fp fd m : Nat) (ex u : Int)
    (hscan : scanDecimal s.toList = DecimalPrefix.decimal sign ip fp fd ex)
    (hnear : nearestDouble ((ip * 10 ^ fd + fp) * 10 ^ (ex - (fd : Int)).toNat)
      (10 ^ (-(ex - (fd : Int))).toNat) = some (m, u)) :
    parseFloat (JsValue.str s) =
      JsValue.num ((if decide (sign < 0) then -1 else 1) * (m : ℚ) * (2 : ℚ) ^ u) := by
  simp only [parseFloat, parseFloatChars, hscan]
  exact numberValue_of_nearest _ _ _ _ _ hnear

theorem toStored_of_valid (r : StoredReading) (t : Int) (ht : r.time = some t)
    (hd : r.deviceName ≠ JsValue.undefined) : Readings.toStored r = r := by
  obtain ⟨i, dn, pr, tm, la, lo, te, ap, mw, sr, vp, hu, wd⟩ := r
  simp only at ht hd
  subst ht
  cases dn <;> first | rfl | exact absurd rfl hd


theorem constructReading_measurements (freshId : String) (newDate : JsValue → Option Int)
    (body : ReadingBody) (doc : StoredReading)
    (hdoc : constructReading freshId newDate body = Except.ok doc) :
    doc.measurements = body.measurements.map parseFloat ∧
    (∀ s, body._id = some s → newObjectId (IdArg.text s) = Except.ok doc._id) := by
  unfold constructReading Readings.WeatherReading at hdoc
  cases hid : body._id with
  | none =>
    rw [hid] at hdoc
    simp only [Except.ok.injEq] at hdoc
    subst hdoc
    exact ⟨rfl, fun s hs => by cases hs⟩
  | some s =>
    rw [hid] at hdoc
    dsimp only at hdoc
    cases hoid : newObjectId (IdArg.text s) with
    | error e => rw [hoid] at hdoc; cases hdoc
    | ok oid =>
      rw [hoid] at hdoc
      simp only [Except.ok.injEq] at hdoc
      subst hdoc
      refine ⟨rfl, fun s2 hs => ?_⟩
      cases hs
      exact hoid

theorem find_appended (store : List StoredReading) (doc : StoredReading)
    (hnew : ∀ r ∈ store, r._id ≠ doc._id) :
    (store ++ [doc]).find? (fun r => r._id == doc._id) = some doc := by
  have hnone : store.find? (fun r => r._id == doc._id) = none := by
    rw [List.find?_eq_none]
    intro r hr
    simpa using hnew r hr
  rw [List.find?_append, hnone]
  simp

/-- C14, amended. For every insert body whose ten measurement and
geolocation fields are decimal-numeral strings, the `WeatherReading`
constructor stores in each of the ten fields the Number value of its string:
the double nearest to the number the string denotes, or `Infinity` when that
number is beyond the largest double. When no stored reading has the `_id` of
the constructed reading, the insert controller answers 200 and writes it,
after which get-by-id with that `_id` (the object id, or the string the
request gave) returns a reading with that `_id` and those same ten values:
the constructed reading as the driver writes it, which is the constructed
reading itself when its date is valid and its device name is given. -/
theorem insertReading_round_trip (freshId : String) (newDate : JsValue → Option Int)
    (store : List StoredReading) (body : ReadingBody) (ns : List DecimalNumeral)
    (doc : StoredReading)
    (hns : ∀ n ∈ ns, n.intDigits ≠ [])
    (hbody : body.measurements = ns.map (fun n => JsValue.str n.render))
    (hdoc : constructReading freshId newDate body = Except.ok doc)
    (hnew : ∀ r ∈ store, r._id ≠ doc._id) :
    doc.measurements = ns.map (fun n => n.numberValue) ∧
    (∀ n ∈ ns, n.value =
      (if n.negative then -1 else 1) * ((n.numerator : ℚ) / (n.denominator : ℚ))) ∧
    insertReading freshId newDate store body =
      (Outcome.sent (Reply.mk 200 "Added a new weather data reading."),
        store ++ [Readings.toStored doc]) ∧
    Readings.getReadingById (store ++ [Readings.toStored doc]) (IdArg.oid doc._id)
      = Except.ok (some (Readings.toStored doc)) ∧
    (∀ s, body._id = some s →
      Readings.getReadingById (store ++ [Readings.toStored doc]) (IdArg.text s)
        = Except.ok (some (Readings.toStored doc))) ∧
    (Readings.toStored doc)._id = doc._id ∧
    (Readings.toStored doc).measurements = ns.map (fun n => n.numberValue) ∧
    (∀ t, doc.time = some t → doc.deviceName ≠ JsValue.undefined →
      Readings.toStored doc = doc) := by
  obtain ⟨hm, hid⟩ := constructReading_measurements freshId newDate body doc hdoc
  have hnew2 : ∀ r ∈ store, r._id ≠ (Readings.toStored doc)._id := hnew
  have hfind : (store ++ [Readings.toStored doc]).find? (fun r => r._id == doc._id)
      = some (Readings.toStored doc) := find_appended store (Readings.toStored doc) hnew2
  have hvalues : doc.measurements = ns.map (fun n => n.numberValue) := by
    rw [hm, hbody, List.map_map]
    apply List.map_congr_left
    intro n hn
    exact parseFloat_numeral n (hns n hn)
  refine ⟨hvalues, fun n _ => value_eq_numerator_div n, ?_, ?_, ?_, rfl, hvalues, ?_⟩
  · have hany : store.any (fun r => r._id == doc._id) = false := by
      rw [List.any_eq_false]
      intro r hr
      simpa using hnew r hr
    simp only [insertReading, hdoc, Readings.insertReading, hany]
    rfl
  · simp only [Readings.getReadingById, newObjectId, hfind]
  · intro s hs
    simp only [Readings.getReadingById, hid s hs, hfind]
  · intro t ht hd
    exact toStored_of_valid doc t ht hd

theorem insertReading_round_trip_witness :
    sampleConstructedReading.measurements = sampleNumerals.map (fun n => n.numberValue) ∧
    insertReading "65f027649250bb7f552f6809" sampleNewDate sampleStoredStore
        (sampleBody none) =
      (Outcome.sent (Reply.mk 200 "Added a new weather data reading."),
        sampleStoredStore ++ [Readings.toStored sampleConstructedReading]) ∧
    Readings.getReadingById (sampleStoredStore ++ [Readings.toStored sampleConstructedReading])
        (IdArg.oid sampleConstructedReading._id)
      = Except.ok (some (Readings.toStored sampleConstructedReading)) ∧
    Readings.toStored sampleConstructedReading = sampleConstructedReading :=
  ⟨(insertReading_round_trip "65f027649250bb7f552f6809" sampleNewDate sampleStoredStore
      (sampleBody none) sampleNumerals sampleConstructedReading (by decide) (by decide) rfl
      (by decide)).1,
   (insertReading_round_trip "65f027649250bb7f552f6809" sampleNewDate sampleStoredStore
      (sampleBody none) sampleNumerals sampleConstructedReading (by decide) (by decide) rfl
      (by decide)).2.2.1,
   (insertReading_round_trip "65f027649250bb7f552f6809" sampleNewDate sampleStoredStore
      (sampleBody none) sampleNumerals sampleConstructedReading (by decide) (by decide) rfl
      (by decide)).2.2.2.1,
   (insertReading_round_trip "65f027649250bb7f552f6809" sampleNewDate sampleStoredStore
      (sampleBody none) sampleNumerals sampleConstructedReading (by decide) (by decide) rfl
      (by decide)).2.2.2.2.2.2.2 1710412200000 rfl (by decide)⟩

set_option maxRecDepth 100000 in
set_option exponentiation.threshold 2000 in
/-- C14, the claim as it stands fails. The numeral `1` followed by 309 zeros
denotes `10 ^ 309`; the constructor stores `Infinity` for it, not that
number. The fields are doubles also below that: `3.5` is stored as the number
it denotes, `0.1` is not, and the different numerals `0.30000000000000001`
and `0.3` are stored as the same number. -/
theorem insertReading_round_trip_counterexample :
    sampleHugeNumeral.value = 10 ^ 309 ∧
    (∃ doc : StoredReading,
      constructReading "65f027649250bb7f552f6809" sampleNewDate sampleHugeBody
        = Except.ok doc ∧
      doc.precipitation = JsValue.inf false ∧
      doc.precipitation ≠ JsValue.num sampleHugeNumeral.value) ∧
    parseFloat (JsValue.str "3.5") = JsValue.num (7 / 2) ∧
    parseFloat (JsValue.str "0.1") = JsValue.num (3602879701896397 / 36028797018963968) ∧
    parseFloat (JsValue.str "0.1") ≠ JsValue.num (1 / 10) ∧
    parseFloat (JsValue.str "0.30000000000000001") = parseFloat (JsValue.str "0.3") := by
  have hnum : sampleHugeNumeral.numerator = 10 ^ 309 := by decide
  have hden : sampleHugeNumeral.denominator = 1 := by decide
  have hover : nearestDouble (10 ^ 309) 1 = none := by decide
  have hparse : parseFloat (JsValue.str sampleHugeNumeral.render) = JsValue.inf false := by
    rw [parseFloat_numeral sampleHugeNumeral (by decide), DecimalNumeral.numberValue, hnum,
      hden]
    exact numberValue_of_overflow _ _ _ hover
  have h35 := parseFloat_of_scan "3.5" 1 3 5 1 7881299347898368 0 (-51) (by decide) (by decide)
  have h01 := parseFloat_of_scan "0.1" 1 0 1 1 7205759403792794 0 (-56) (by decide) (by decide)
  have h03 := parseFloat_of_scan "0.3" 1 0 3 1 5404319552844595 0 (-54) (by decide) (by decide)
  have h03long := parseFloat_of_scan "0.30000000000000001" 1 0 30000000000000001 17
    5404319552844595 0 (-54) (by decide) (by decide)
  refine ⟨?_, ⟨_, rfl, hparse, ?_⟩, ?_, ?_, ?_, ?_⟩
  · rw [value_eq_numerator_div, hnum, hden]
    have hneg : sampleHugeNumeral.negative = false := rfl
    rw [hneg]
    norm_num
  · show parseFloat (JsValue.str sampleHugeNumeral.render) ≠ _
    rw [hparse]
    intro h
    cases h
  · rw [h35]
    congr 1
    norm_num
  · rw [h01]
    congr 1
    norm_num
  · rw [h01]
    intro h
    injection h with h
    norm_num at h
  · rw [h03, h03long]

/-! ### Idempotence of the role reassignment -/

theorem applyPatch_idem (u : User) (p : UserPatch) :
    applyPatch (applyPatch u p) p = applyPatch u p := by
  cases p with
  | mk a b c d e f g h =>
    cases a <;> cases b <;> cases c <;> cases d <;> cases e <;> cases f <;> cases g <;>
      cases h <;> rfl

theorem updateRoleInDateRange_idem_patch (users : List User) (startDate endDate : Int)
    (p : UserPatch) :
    UserModel.updateRoleInDateRange
        (UserModel.updateRoleInDateRange users startDate endDate p) startDate endDate p =
      UserModel.updateRoleInDateRange users startDate endDate p := by
  unfold UserModel.updateRoleInDateRange
  rw [List.map_map]
  apply List.map_congr_left
  intro u _
  simp only [Function.comp]
  by_cases hf : UserModel.inRoleUpdateFilter startDate endDate u = true
  · rw [if_pos hf]
    by_cases hf2 : UserModel.inRoleUpdateFilter startDate endDate (applyPatch u p) = true
    · rw [if_pos hf2, applyPatch_idem]
    · rw [if_neg hf2]
  · rw [if_neg hf, if_neg hf]

/-- C30. `UserModel.updateRoleInDateRange` is idempotent: for every
collection, window and new role, `admin` and `station` included, applying the
reassignment twice in succession with the same arguments gives the same
collection as applying it once; the same holds for any `$set` document. -/
theorem updateRoleInDateRange_idempotent :
    (∀ (users : List User) (startDate endDate : Int) (newRole : String),
      UserModel.updateRoleInDateRange
          (UserModel.updateRoleInDateRange users startDate endDate { role := some newRole })
          startDate endDate { role := some newRole } =
        UserModel.updateRoleInDateRange users startDate endDate { role := some newRole }) ∧
    (∀ (users : List User) (startDate endDate : Int) (newRole : UserPatch),
      UserModel.updateRoleInDateRange
          (UserModel.updateRoleInDateRange users startDate endDate newRole)
          startDate endDate newRole =
        UserModel.updateRoleInDateRange users startDate endDate newRole) :=
  ⟨fun users s e r => updateRoleInDateRange_idem_patch users s e { role := some r },
   fun users s e p => updateRoleInDateRange_idem_patch users s e p⟩

/-! ### Page and limit are never zero -/

theorem orDefault_ne_zero (v : Option Int) (d : Int) (hd : d ≠ 0) : orDefault v d ≠ 0 := by
  unfold orDefault
  split
  · split
    · exact hd
    · assumption
  · exact hd

/-- C27. For every query parameter the page number and the limit computed by
the three paginated controllers are not 0, a literal `"0"` giving the default
1, respectively 10; so the quotient `count / limit` never has a zero divisor,
and every `totalPages` a controller sends is the ceiling of that quotient, for
the point-in-time controller its rounding to the nearest integer. -/
theorem page_and_limit_never_zero :
    (∀ q : Option String, pageNumber q ≠ 0 ∧ limitNumber q ≠ 0) ∧
    (pageNumber (some "0") = 1 ∧ limitNumber (some "0") = 10) ∧
    (∀ (store : List Reading) (page limit : Option String) (n : Int),
      (getAllReadings store page limit).totalPages = some n →
      n = ⌈(store.length : ℚ) / (limitNumber limit : ℚ)⌉) ∧
    (∀ (store : List Reading) (deviceName page limit : Option String) (d : String) (n : Int),
      deviceName = some d →
      (getAllReadingsByDeviceName store deviceName page limit).totalPages = some n →
      n = ⌈((store.filter (fun r => r.deviceName == d)).length : ℚ)
        / (limitNumber limit : ℚ)⌉) ∧
    (∀ (newDate : String → Int) (store : List Reading)
      (deviceName dateTime page limit : Option String) (d dt : String) (n : Int),
      deviceName = some d → dateTime = some dt →
      (getReadingsByDeviceAndDateTime newDate store deviceName dateTime page limit).totalPages
        = some n →
      n = ⌊((Readings.getReadingsByDeviceAndDateTime store d (newDate dt)).length : ℚ)
        / (limitNumber limit : ℚ) + 1 / 2⌋) := by
  have hlim : ∀ q : Option String, limitNumber q ≠ 0 :=
    fun q => orDefault_ne_zero _ 10 (by decide)
  refine ⟨fun q => ⟨orDefault_ne_zero _ 1 (by decide), hlim q⟩, ⟨by decide, by decide⟩,
    ?_, ?_, ?_⟩
  · intro store page limit n h
    unfold getAllReadings at h
    simp only at h
    split at h
    · simp only [Option.some.injEq] at h
      rw [← h, mathCeilDiv_eq_ceil _ _ (hlim limit)]
      simp [Readings.getAllReadings]
    · cases h
  · intro store deviceName page limit d n hd h
    subst hd
    unfold getAllReadingsByDeviceName at h
    simp only at h
    split at h
    · cases h
    · split at h
      · split at h
        · cases h
        · simp only [Option.some.injEq] at h
          rw [← h, mathCeilDiv_eq_ceil _ _ (hlim limit),
            getAllReadingsByDeviceName_model_length]
          simp
      · cases h
  · intro newDate store deviceName dateTime page limit d dt n hd hdt h
    subst hd
    subst hdt
    unfold getReadingsByDeviceAndDateTime at h
    simp only at h
    split at h
    · cases h
    · split at h
      · cases h
      · simp only [Option.some.injEq] at h
        rw [← h, mathRoundDiv_eq_floor _ _ (hlim limit)]
        simp

theorem page_and_limit_never_zero_witness :
    (3 : Int) = ⌈(sampleStore.length : ℚ) / (limitNumber (some "2") : ℚ)⌉ :=
  page_and_limit_never_zero.2.2.1 sampleStore (some "2") (some "2") 3 (by decide)

/-! ### What the precipitation patch can store -/

theorem mem_updateFirst {α : Type} (p : α → Bool) (f : α → α) (l : List α) (y : α)
    (hy : y ∈ updateFirst p f l) : y ∈ l ∨ ∃ x ∈ l, y = f x := by
  induction l with
  | nil => cases hy
  | cons x xs ih =>
    unfold updateFirst at hy
    by_cases hx : p x = true
    · rw [if_pos hx] at hy
      rcases List.mem_cons.1 hy with h | h
      · exact Or.inr ⟨x, List.mem_cons_self _ _, h⟩
      · exact Or.inl (List.mem_cons_of_mem _ h)
    · rw [if_neg hx] at hy
      rcases List.mem_cons.1 hy with h | h
      · exact Or.inl (by rw [h]; exact List.mem_cons_self _ _)
      · rcases ih h with h2 | ⟨z, hz, hyz⟩
        · exact Or.inl (List.mem_cons_of_mem _ h2)
        · exact Or.inr ⟨z, List.mem_cons_of_mem _ hz, hyz⟩

theorem patch_store_cases (store : List StoredReading) (_id : Option String) (v : JsValue) :
    (updatePrecipitationById store _id v).2 = store ∨
    (v.truthy = true ∧ ∃ oid : String, (updatePrecipitationById store _id v).2 =
      updateFirst (fun r => r._id == oid) (fun r => { r with precipitation := v }) store) := by
  cases _id with
  | none => exact Or.inl rfl
  | some id =>
    by_cases hv : v.truthy = true
    · by_cases hid : id = ""
      · subst hid
        left
        simp [updatePrecipitationById, truthy]
      · cases hoid : newObjectId (IdArg.text id) with
        | error e =>
          left
          simp [updatePrecipitationById, Readings.updatePrecipitationById, hoid,
            not_truthy_of_ne_empty id hid, hv]
        | ok oid =>
          cases hfind : store.find? (fun r => r._id == oid) with
          | none =>
            left
            simp [updatePrecipitationById, Readings.updatePrecipitationById, hoid, hfind,
              not_truthy_of_ne_empty id hid, hv]
          | some r =>
            right
            refine ⟨hv, oid, ?_⟩
            simp [updatePrecipitationById, Readings.updatePrecipitationById, hoid, hfind,
              not_truthy_of_ne_empty id hid, hv]
    · left
      have hv2 : v.truthy = false := by simpa using hv
      simp [updatePrecipitationById, hv2]

/-- C25. For every id, a precipitation patch whose `newPrecipitation` is the
number 0 is answered with 400 and the message `ID and new precipitation value
are required.`, and leaves the collection unchanged; and whatever the request,
a reading whose precipitation is the number 0 after the patch was in the
collection, with that value, before it. -/
theorem updatePrecipitationById_zero_rejected (store : List StoredReading)
    (_id : Option String) :
    updatePrecipitationById store _id (JsValue.num 0) =
      ({ status := 400, message := "ID and new precipitation value are required.",
         data := none }, store) ∧
    (∀ (v : JsValue) (r : StoredReading),
      r ∈ (updatePrecipitationById store _id v).2 →
      r.precipitation = JsValue.num 0 → r ∈ store) := by
  constructor
  · cases _id with
    | none => rfl
    | some id =>
      have hz : (JsValue.num 0).truthy = false := by simp [JsValue.truthy]
      simp [updatePrecipitationById, hz]
  · intro v r hr hzero
    rcases patch_store_cases store _id v with h | ⟨hv, oid, h⟩
    · rw [h] at hr
      exact hr
    · rw [h] at hr
      rcases mem_updateFirst _ _ _ _ hr with h1 | ⟨x, _, hx⟩
      · exact h1
      · exfalso
        rw [hx] at hzero
        simp only at hzero
        rw [hzero] at hv
        simp [JsValue.truthy] at hv

theorem updatePrecipitationById_zero_rejected_witness :
    sampleStoredReading "65f027649250bb7f552f6801" (JsValue.num 0) ∈
      [sampleStoredReading "65f027649250bb7f552f6801" (JsValue.num 0)] :=
  (updatePrecipitationById_zero_rejected
      [sampleStoredReading "65f027649250bb7f552f6801" (JsValue.num 0)]
      (some "65f027649250bb7f552f6802")).2 (JsValue.num 7)
    (sampleStoredReading "65f027649250bb7f552f6801" (JsValue.num 0))
    (by decide) rfl

theorem numberValue_isNumber (negative : Bool) (n d : Nat) :
    (numberValue negative n d).isNumber = true := by
  unfold numberValue
  split <;> rfl

theorem parseFloat_isNumber (v : JsValue) : (parseFloat v).isNumber = true := by
  cases v with
  | str s =>
    simp only [parseFloat, parseFloatChars]
    split
    · rfl
    · rfl
    · exact numberValue_isNumber _ _ _
  | _ => rfl

/-- C26. `Readings.updatePrecipitationById` stores the new value as it is
supplied: for an id that get-by-id resolves to `r` and any value `v`,
get-by-id afterwards returns `r` with precipitation `v`. The constructor
`WeatherReading` makes the precipitation of every reading it builds a number,
and the patch does not keep that: with the string `3.5` the stored
precipitation is that string, not the number 3.5. -/
theorem updatePrecipitationById_stores_uncoerced :
    (∀ (freshId : String) (newDate : JsValue → Option Int) (body : ReadingBody)
      (doc : StoredReading),
      constructReading freshId newDate body = Except.ok doc →
      doc.precipitation.isNumber = true) ∧
    (∀ (store : List StoredReading) (id : String) (v : JsValue) (r : StoredReading),
      Readings.getReadingById store (IdArg.text id) = Except.ok (some r) →
      ∃ (data : PatchData) (updated : List StoredReading),
        Readings.updatePrecipitationById store (IdArg.text id) v = Except.ok (data, updated) ∧
        Readings.getReadingById updated (IdArg.text id)
          = Except.ok (some { r with precipitation := v })) ∧
    (∃ (data : PatchData) (updated : List StoredReading) (r : StoredReading),
      (∀ x ∈ sampleStoredStore, x.precipitation.isNumber = true) ∧
      Readings.updatePrecipitationById sampleStoredStore
        (IdArg.text "65f027649250bb7f552f6802") (JsValue.str "3.5")
          = Except.ok (data, updated) ∧
      r ∈ updated ∧ r.precipitation = JsValue.str "3.5" ∧
      r.precipitation.isNumber = false ∧ r.precipitation ≠ JsValue.num (7 / 2)) := by
  refine ⟨?_, ?_, ?_⟩
  · intro freshId newDate body doc hdoc
    have hm := (constructReading_measurements freshId newDate body doc hdoc).1
    have hp : doc.precipitation = parseFloat body.precipitation := by
      have := congrArg List.head? hm
      simpa [StoredReading.measurements, ReadingBody.measurements] using this
    rw [hp]
    exact parseFloat_isNumber _
  · intro store id v r hget
    unfold Readings.getReadingById at hget
    cases hoid : newObjectId (IdArg.text id) with
    | error e => rw [hoid] at hget; cases hget
    | ok oid =>
      rw [hoid] at hget
      have hfind : store.find? (fun x => x._id == oid) = some r := by
        simpa using hget
      have hrid : (r._id == oid) = true := by
        have := List.find?_some hfind
        simpa using this
      obtain ⟨h1, _⟩ := updateFirst_spec (fun x : StoredReading => x._id == oid)
        (fun x => { x with precipitation := v }) store r hfind hrid
      refine ⟨PatchData.mk r.precipitation v,
        updateFirst (fun x => x._id == oid) (fun x => { x with precipitation := v }) store,
        ?_, ?_⟩
      · simp only [Readings.updatePrecipitationById, hoid, hfind]
      · simp only [Readings.getReadingById, hoid, h1]
  · refine ⟨_, _, { sampleStoredReading "65f027649250bb7f552f6802" (JsValue.num 1) with
        precipitation := JsValue.str "3.5" }, by decide, rfl, by decide, rfl, rfl, ?_⟩
    intro h
    cases h

theorem updatePrecipitationById_stores_uncoerced_witness :
    ∃ (data : PatchData) (updated : List StoredReading),
      Readings.updatePrecipitationById sampleStoredStore
        (IdArg.text "65f027649250bb7f552f6802") (JsValue.str "3.5")
          = Except.ok (data, updated) ∧
      Readings.getReadingById updated (IdArg.text "65f027649250bb7f552f6802")
        = Except.ok (some { sampleStoredReading "65f027649250bb7f552f6802" (JsValue.num 1)
            with precipitation := JsValue.str "3.5" }) :=
  updatePrecipitationById_stores_uncoerced.2.1 sampleStoredStore "65f027649250bb7f552f6802"
    (JsValue.str "3.5") (sampleStoredReading "65f027649250bb7f552f6802" (JsValue.num 1)) rfl

/-! ### Update of one user -/

theorem find_id_any (users : List User) (oid : String) (u : User)
    (h : users.find? (fun x => x._id == oid) = some u) :
    users.any (fun x => x._id == oid) = true ∧ (u._id == oid) = true := by
  have h1 : (u._id == oid) = true := by
    have := List.find?_some h
    simpa using this
  refine ⟨?_, h1⟩
  rw [List.any_eq_true]
  exact ⟨u, List.mem_of_find?_eq_some h, h1⟩

theorem find_id_none_any (users : List User) (oid : String)
    (h : users.find? (fun x => x._id == oid) = none) :
    users.any (fun x => x._id == oid) = false := by
  rw [List.any_eq_false]
  intro x hx
  have := List.find?_eq_none.1 h x hx
  simpa using this

/-- C22. For a well-formed id and any patch of the user fields,
`UserModel.updateUserById` does not fail. When a user has that id, it is
replaced at its position by itself with exactly the patched fields
overwritten and the other fields kept, and every other position is
unchanged; when no user has that id, one record is appended, made of that id
and the patch fields, and all users before it are unchanged. -/
theorem updateUserById_patch_or_insert (users : List User) (id oid : String)
    (patch : UserPatch) (hoid : newObjectId (IdArg.text id) = Except.ok oid) :
    (∀ u : User, users.find? (fun x => x._id == oid) = some u →
      ∃ (updated : List User) (i : Nat),
        UserModel.updateUserById users (IdArg.text id) patch = Except.ok updated ∧
        users[i]? = some u ∧ updated[i]? = some (applyPatch u patch) ∧
        updated.length = users.length ∧
        ∀ j : Nat, j ≠ i → updated[j]? = users[j]?) ∧
    (users.find? (fun x => x._id == oid) = none →
      UserModel.updateUserById users (IdArg.text id) patch =
        Except.ok (users ++ [applyPatch (blankUser oid) patch])) ∧
    (∀ u : User,
      (applyPatch u patch)._id = u._id ∧
      (applyPatch u patch).username = patch.username.getD u.username ∧
      (applyPatch u patch).email = patch.email.getD u.email ∧
      (applyPatch u patch).password = patch.password.getD u.password ∧
      (applyPatch u patch).role = patch.role.getD u.role ∧
      (applyPatch u patch).authToken = patch.authToken.getD u.authToken ∧
      (applyPatch u patch).lastLogin = patch.lastLogin.getD u.lastLogin ∧
      (applyPatch u patch).lastAccess = patch.lastAccess.getD u.lastAccess ∧
      (applyPatch u patch).createdAt = patch.createdAt.getD u.createdAt) ∧
    (blankUser oid)._id = oid := by
  refine ⟨?_, ?_, fun u => ⟨rfl, rfl, rfl, rfl, rfl, rfl, rfl, rfl, rfl⟩, rfl⟩
  · intro u hu
    obtain ⟨hany, hid⟩ := find_id_any users oid u hu
    obtain ⟨_, i, h2, h3, h4⟩ := updateFirst_spec (fun x : User => x._id == oid)
      (fun x => applyPatch x patch) users u hu hid
    refine ⟨updateFirst (fun x => x._id == oid) (fun x => applyPatch x patch) users, i,
      ?_, h2, h3, updateFirst_length _ _ _, h4⟩
    simp only [UserModel.updateUserById, hoid, hany, if_true]
  · intro hnone
    have hany := find_id_none_any users oid hnone
    simp only [UserModel.updateUserById, hoid, hany]
    rfl

theorem updateUserById_patch_or_insert_witness :
    UserModel.updateUserById sampleUsers (IdArg.text "65f027649250bb7f552f6803")
        { role := some "teacher" } =
      Except.ok (sampleUsers ++
        [applyPatch (blankUser "65f027649250bb7f552f6803") { role := some "teacher" }]) :=
  (updateUserById_patch_or_insert sampleUsers "65f027649250bb7f552f6803"
    "65f027649250bb7f552f6803" { role := some "teacher" } rfl).2.1 (by decide)

/-- C28. For a well-formed id that matches no user and any patch body, the
controller `updateUserById` responds 404 and leaves the collection unchanged;
and whatever the id and the body, the collection has as many users after the
controller as before, so the insert branch of the upsert is not taken. -/
theorem updateUserById_unknown_is_404 :
    (∀ (users : List User) (id : String) (body : UserPatch),
      UserModel.getUserById users (IdArg.text id) = Except.ok none →
      updateUserById users id body = (Reply.mk 404 "User not found.", users)) ∧
    (∀ (users : List User) (id : String) (body : UserPatch),
      (updateUserById users id body).2.length = users.length) := by
  constructor
  · intro users id body hget
    simp only [updateUserById, hget]
  · intro users id body
    unfold updateUserById
    cases hget : UserModel.getUserById users (IdArg.text id) with
    | error e => rfl
    | ok found =>
      cases found with
      | none => rfl
      | some u =>
        unfold UserModel.getUserById at hget
        cases hoid : newObjectId (IdArg.text id) with
        | error e => rw [hoid] at hget; cases hget
        | ok oid =>
          rw [hoid] at hget
          have hfind : users.find? (fun x => x._id == oid) = some u := by
            simpa using hget
          have hany := (find_id_any users oid u hfind).1
          simp only [UserModel.updateUserById, hoid, hany, if_true]
          exact updateFirst_length _ _ _

theorem updateUserById_unknown_is_404_witness :
    updateUserById sampleUsers "65f027649250bb7f552f6803" { role := some "teacher" } =
      (Reply.mk 404 "User not found.", sampleUsers) :=
  updateUserById_unknown_is_404.1 sampleUsers "65f027649250bb7f552f6803"
    { role := some "teacher" } rfl

/-! ### Creation of users and the uniqueness of emails -/

theorem getUserByEmail_of_mem (users : List User) (email : String)
    (h : ∃ u ∈ users, u.email = email) :
    ∃ v : User, UserModel.getUserByEmail users email = some v := by
  cases hg : UserModel.getUserByEmail users email with
  | some v => exact ⟨v, rfl⟩
  | none =>
    exfalso
    obtain ⟨u, hu, hue⟩ := h
    unfold UserModel.getUserByEmail at hg
    have := List.find?_eq_none.1 hg u hu
    simp [hue] at this

theorem getUserByEmail_none (users : List User) (email : String)
    (hg : UserModel.getUserByEmail users email = none) :
    ∀ u ∈ users, u.email ≠ email := by
  intro u hu
  unfold UserModel.getUserByEmail at hg
  have := List.find?_eq_none.1 hg u hu
  simpa using this

theorem model_createUser_cases (freshId : String) (users : List User) (user : User) :
    UserModel.createUser freshId users user =
        Except.ok (users ++ [{ user with _id := freshId }]) ∨
      ∃ e : String, UserModel.createUser freshId users user = Except.error e := by
  unfold UserModel.createUser
  split
  · exact Or.inr ⟨_, rfl⟩
  · exact Or.inl rfl

theorem append_email_nodup (users : List User) (x : User)
    (hn : (users.map (fun u => u.email)).Nodup)
    (hx : ∀ u ∈ users, u.email ≠ x.email) :
    ((users ++ [x]).map (fun u => u.email)).Nodup := by
  rw [List.map_append, List.nodup_append]
  refine ⟨hn, by simp, ?_⟩
  intro e he hx2
  simp only [List.map_cons, List.map_nil, List.mem_singleton] at hx2
  rw [List.mem_map] at he
  obtain ⟨u, hu, hue⟩ := he
  exact hx u hu (hue.trans hx2)

/-- C21. A create-user or register request whose email is the email of an
existing user is answered with 409 and leaves the user collection unchanged;
and when no two users share an email before a create-user or register call,
none do after it. -/
theorem duplicate_email_is_409 :
    (∀ (hashSync : String → String) (freshId : String) (now : Int) (users : List User)
      (body : NewUserBody), (∃ u ∈ users, u.email = body.email) →
      createUser hashSync freshId now users body =
        (Reply.mk 409 "The provided email address is already associated with an account.",
          users) ∧
      registerUser hashSync freshId now users body =
        (Reply.mk 409 "Email already exists", users)) ∧
    (∀ (hashSync : String → String) (freshId : String) (now : Int) (users : List User)
      (body : NewUserBody), (users.map (fun u => u.email)).Nodup →
      ((createUser hashSync freshId now users body).2.map (fun u => u.email)).Nodup ∧
      ((registerUser hashSync freshId now users body).2.map (fun u => u.email)).Nodup) := by
  constructor
  · intro hashSync freshId now users body h
    obtain ⟨v, hv⟩ := getUserByEmail_of_mem users body.email h
    constructor
    · simp only [createUser, hv]
    · simp only [registerUser, hv]
  · intro hashSync freshId now users body hn
    cases hg : UserModel.getUserByEmail users body.email with
    | some v =>
      constructor
      · simp only [createUser, hg]
        exact hn
      · simp only [registerUser, hg]
        exact hn
    | none =>
      have hfresh := getUserByEmail_none users body.email hg
      constructor
      · rcases model_createUser_cases freshId users
          (UserModel.User "" body.username body.email (hashSync body.password) body.role
            none (some now)) with h | ⟨e, h⟩
        · simp only [createUser, hg, h]
          exact append_email_nodup users _ hn hfresh
        · simp only [createUser, hg, h]
          exact hn
      · rcases model_createUser_cases freshId users
          (UserModel.User "" body.username body.email (hashSync body.password) "student"
            none (some now)) with h | ⟨e, h⟩
        · simp only [registerUser, hg, h]
          exact append_email_nodup users _ hn hfresh
        · simp only [registerUser, hg, h]
          exact hn

theorem duplicate_email_is_409_witness :
    createUser (fun password => password) "65f027649250bb7f552f6810" 80 sampleUsers
        (NewUserBody.mk "t2" "s@example.org" "pw" "teacher") =
      (Reply.mk 409 "The provided email address is already associated with an account.",
        sampleUsers) ∧
    registerUser (fun password => password) "65f027649250bb7f552f6810" 80 sampleUsers
        (NewUserBody.mk "t2" "s@example.org" "pw" "teacher") =
      (Reply.mk 409 "Email already exists", sampleUsers) :=
  duplicate_email_is_409.1 (fun password => password) "65f027649250bb7f552f6810" 80
    sampleUsers (NewUserBody.mk "t2" "s@example.org" "pw" "teacher")
    ⟨sampleStudent, by decide, rfl⟩

/-! ### Logout and the access gate -/

theorem controlAccess_no_holder (allowedRoles : List String) (users : List User) (t : String)
    (ht : t ≠ "") (h : ∀ x ∈ users, x.authToken ≠ some t) :
    controlAccess allowedRoles users (some t) =
      [Effect.respond 401 "Invalid authorization token."] := by
  have hg := (getUserByAuthToken_eq_none_iff users t).2 h
  simp [controlAccess, truthy, ht, hg]

/-- C23. In a store where the non-empty token `t` is held by exactly one user
`u`, `logoutUser` with `authToken` `t` succeeds with 200, clears the token of
`u` and changes no other record; afterwards, and in every store where no user
holds `t`, `controlAccess` with `Auth-Key` `t` responds 401 for every
allow-list; and a user whose token is cleared or was never set is not the
user that any header value resolves to. -/
theorem logoutUser_clears_token (users : List User) (t : String) (u : User)
    (ht : t ≠ "") (hids : (users.map (fun x => x._id)).Nodup)
    (hu : u ∈ users) (htok : u.authToken = some t)
    (huniq : ∀ x ∈ users, x.authToken = some t → x = u) :
    logoutUser users (some t) =
      (Reply.mk 200 "User logged out successfully.",
        users.map (fun x => if x = u then { x with authToken := none } else x)) ∧
    (∀ allowedRoles : List String,
      controlAccess allowedRoles (logoutUser users (some t)).2 (some t) =
        [Effect.respond 401 "Invalid authorization token."]) ∧
    (∀ (us : List User) (allowedRoles : List String),
      (∀ x ∈ us, x.authToken ≠ some t) →
      controlAccess allowedRoles us (some t) =
        [Effect.respond 401 "Invalid authorization token."]) ∧
    (∀ (us : List User) (x : User) (header : String), x ∈ us → x.authToken = none →
      UserModel.getUserByAuthToken us header ≠ some x) := by
  have hget : UserModel.getUserByAuthToken users t = some u := by
    cases hg : UserModel.getUserByAuthToken users t with
    | none => exact absurd htok ((getUserByAuthToken_eq_none_iff users t).1 hg u hu)
    | some y =>
      obtain ⟨hy, hyt⟩ := getUserByAuthToken_some users t y hg
      rw [huniq y hy hyt]
  have hany : users.any (fun x => x._id == u._id) = true := by
    rw [List.any_eq_true]
    exact ⟨u, hu, by simp⟩
  have hlog : logoutUser users (some t) =
      (Reply.mk 200 "User logged out successfully.",
        users.map (fun x => if x = u then { x with authToken := none } else x)) := by
    unfold logoutUser
    simp only [not_truthy_of_ne_empty t ht, hget, UserModel.updateUserById, newObjectId, hany,
      if_true, Bool.false_eq_true, if_false]
    rw [updateFirst_unique_id _ u users hids hu]
    rfl
  refine ⟨hlog, ?_, ?_, ?_⟩
  · intro allowedRoles
    rw [hlog]
    apply controlAccess_no_holder _ _ _ ht
    intro y hy
    simp only [List.mem_map] at hy
    obtain ⟨x, hx, hxy⟩ := hy
    by_cases hxu : x = u
    · rw [if_pos hxu] at hxy
      rw [← hxy]
      intro h
      cases h
    · rw [if_neg hxu] at hxy
      rw [← hxy]
      intro h
      exact hxu (huniq x hx h)
  · intro us allowedRoles h
    exact controlAccess_no_holder allowedRoles us t ht h
  · intro us x header _ hx hget2
    have := (getUserByAuthToken_some us header x hget2).2
    rw [hx] at this
    cases this

theorem logoutUser_clears_token_witness :
    logoutUser sampleUsers (some "stu") =
      (Reply.mk 200 "User logged out successfully.",
        [sampleTeacher, { sampleStudent with authToken := none }, sampleStation,
          sampleNewStudent]) ∧
    controlAccess ["student"] (logoutUser sampleUsers (some "stu")).2 (some "stu") =
      [Effect.respond 401 "Invalid authorization token."] :=
  ⟨(logoutUser_clears_token sampleUsers "stu" sampleStudent (by decide) (by decide)
      (by decide) rfl (by decide)).1,
   (logoutUser_clears_token sampleUsers "stu" sampleStudent (by decide) (by decide)
      (by decide) rfl (by decide)).2.1 ["student"]⟩

/-! ### The allow-lists of the gated routes -/

/-- C29. Every route registered with `controlAccess` has an allow-list within
teacher and station: the seven `/user` routes and `DELETE
/weather-reading/delete` admit `teacher` only, and the reading insert, the
bulk insert and the precipitation patch admit `station` and `teacher`; so on
every gated route a non-empty token that resolves to a user whose role is
`admin` or `student` is answered with 403. -/
theorem gated_routes_forbid_admin_and_student :
    (∀ r ∈ gatedRoutes, ∀ role ∈ r.allowedRoles, role = "teacher" ∨ role = "station") ∧
    (userRoutes.length = 7 ∧ ∀ r ∈ userRoutes, r.allowedRoles = ["teacher"]) ∧
    (∀ r ∈ weatherGatedRoutes,
      (r.method = "DELETE" → r.path = "/weather-reading/delete" ∧
        r.allowedRoles = ["teacher"]) ∧
      (r.method ≠ "DELETE" → r.allowedRoles = ["station", "teacher"])) ∧
    (∀ r ∈ gatedRoutes, ∀ (users : List User) (t : String) (u : User),
      t ≠ "" → UserModel.getUserByAuthToken users t = some u →
      u.role = "admin" ∨ u.role = "student" →
      controlAccess r.allowedRoles users (some t) =
        [Effect.respond 403 "Access forbidden for this role."]) := by
  refine ⟨by decide, ⟨rfl, by decide⟩, by decide, ?_⟩
  have hno : ∀ r ∈ gatedRoutes, r.allowedRoles.contains "admin" = false ∧
      r.allowedRoles.contains "student" = false := by decide
  intro r hr users t u ht hget hrole
  have hc : r.allowedRoles.contains u.role = false := by
    rcases hrole with h | h <;> rw [h]
    · exact (hno r hr).1
    · exact (hno r hr).2
  have hc2 : u.role ∉ r.allowedRoles := by simpa using hc
  simp [controlAccess, truthy, ht, hget, hc2]

theorem gated_routes_forbid_admin_and_student_witness :
    controlAccess ["station", "teacher"] sampleUsers (some "stu") =
      [Effect.respond 403 "Access forbidden for this role."] :=
  gated_routes_forbid_admin_and_student.2.2.2
    (GatedRoute.mk "POST" "/weather-reading" ["station", "teacher"]) (by decide)
    sampleUsers "stu" sampleStudent (by decide) (by decide) (Or.inr rfl)

/-! ### The roles along a sequence of requests -/

theorem model_update_known (users : List User) (arg : IdArg) (oid : String)
    (hoid : newObjectId arg = Except.ok oid)
    (hany : users.any (fun u => u._id == oid) = true) (patch : UserPatch)
    (h0 : ∀ u ∈ users, isKnownRole u.role = true)
    (hp : ∀ r : String, patch.role = some r → isKnownRole r = true) :
    ∃ updated : List User,
      UserModel.updateUserById users arg patch = Except.ok updated ∧
      ∀ u ∈ updated, isKnownRole u.role = true := by
  refine ⟨updateFirst (fun u => u._id == oid) (fun u => applyPatch u patch) users, ?_, ?_⟩
  · simp only [UserModel.updateUserById, hoid, hany, if_true]
  · intro y hy
    rcases mem_updateFirst _ _ _ _ hy with h | ⟨x, hx, hyx⟩
    · exact h0 y h
    · rw [hyx]
      cases hr : patch.role with
      | none =>
        have : (applyPatch x patch).role = x.role := by simp [applyPatch, hr]
        rw [this]
        exact h0 x hx
      | some r =>
        have : (applyPatch x patch).role = r := by simp [applyPatch, hr]
        rw [this]
        exact hp r hr

theorem apply_known (users : List User) (op : UserOp)
    (h0 : ∀ u ∈ users, isKnownRole u.role = true)
    (hop : ∀ r : String, op.requestedRole = some r → isKnownRole r = true) :
    ∀ u ∈ op.apply users, isKnownRole u.role = true := by
  cases op with
  | register hashSync freshId now body =>
    simp only [UserOp.apply]
    cases hg : UserModel.getUserByEmail users body.email with
    | some v =>
      simp only [registerUser, hg]
      exact h0
    | none =>
      rcases model_createUser_cases freshId users
        (UserModel.User "" body.username body.email (hashSync body.password) "student"
          none (some now)) with h | ⟨e, h⟩
      · simp only [registerUser, hg, h]
        intro u hu
        rcases List.mem_append.1 hu with h1 | h1
        · exact h0 u h1
        · rw [List.mem_singleton.1 h1]
          rfl
      · simp only [registerUser, hg, h]
        exact h0
  | create hashSync freshId now body =>
    simp only [UserOp.apply]
    cases hg : UserModel.getUserByEmail users body.email with
    | some v =>
      simp only [createUser, hg]
      exact h0
    | none =>
      rcases model_createUser_cases freshId users
        (UserModel.User "" body.username body.email (hashSync body.password) body.role
          none (some now)) with h | ⟨e, h⟩
      · simp only [createUser, hg, h]
        intro u hu
        rcases List.mem_append.1 hu with h1 | h1
        · exact h0 u h1
        · rw [List.mem_singleton.1 h1]
          exact hop body.role rfl
      · simp only [createUser, hg, h]
        exact h0
  | updateById id body =>
    simp only [UserOp.apply]
    unfold updateUserById
    cases hget : UserModel.getUserById users (IdArg.text id) with
    | error e => exact h0
    | ok found =>
      cases found with
      | none => exact h0
      | some v =>
        unfold UserModel.getUserById at hget
        cases hoid : newObjectId (IdArg.text id) with
        | error e => rw [hoid] at hget; cases hget
        | ok oid =>
          rw [hoid] at hget
          have hfind : users.find? (fun x => x._id == oid) = some v := by
            simpa using hget
          have hany := (find_id_any users oid v hfind).1
          obtain ⟨updated, hupd, hk⟩ := model_update_known users (IdArg.text id) oid hoid hany
            body h0 (fun r hr => hop r hr)
          simp only [hupd]
          exact hk
  | updateRole newDate startDate endDate newRole =>
    simp only [UserOp.apply]
    cases startDate with
    | none => cases endDate <;> cases newRole <;> exact h0
    | some s =>
      cases endDate with
      | none => cases newRole <;> exact h0
      | some e =>
        cases newRole with
        | none => exact h0
        | some r =>
          simp only [updateRoleInDateRange]
          split
          · exact h0
          · intro u hu
            simp only [UserModel.updateRoleInDateRange, List.mem_map] at hu
            obtain ⟨x, hx, hxu⟩ := hu
            rw [← hxu]
            split
            · exact hop r rfl
            · exact h0 x hx
  | login compare uuid4 now email password =>
    simp only [UserOp.apply]
    unfold loginUser
    cases hg : UserModel.getUserByEmail users email with
    | none => exact h0
    | some v =>
      have hv : v ∈ users := List.mem_of_find?_eq_some hg
      have hany : users.any (fun x => x._id == v._id) = true := by
        rw [List.any_eq_true]
        exact ⟨v, hv, by simp⟩
      obtain ⟨updated, hupd, hk⟩ := model_update_known users (IdArg.oid v._id) v._id rfl hany
        { authToken := some (some uuid4), lastLogin := some (some now) } h0
        (fun r hr => by cases hr)
      simp only [hupd]
      cases hcmp : compare password v.password with
      | false =>
        simp only [Bool.not_false, if_true]
        exact h0
      | true =>
        simp only [Bool.not_true, Bool.false_eq_true, if_false]
        split <;> exact hk
  | logout authToken =>
    simp only [UserOp.apply]
    unfold logoutUser
    cases authToken with
    | none => exact h0
    | some token =>
      by_cases hc : (!truthy (some token)) = true
      · simp only [hc, if_true]
        exact h0
      · simp only [hc, if_false]
        cases hg : UserModel.getUserByAuthToken users token with
        | none => exact h0
        | some v =>
          have hv : v ∈ users := (getUserByAuthToken_some users token v hg).1
          have hany : users.any (fun x => x._id == v._id) = true := by
            rw [List.any_eq_true]
            exact ⟨v, hv, by simp⟩
          obtain ⟨updated, hupd, hk⟩ := model_update_known users (IdArg.oid v._id) v._id rfl
            hany { authToken := some none } h0 (fun r hr => by cases hr)
          simp only [hupd]
          exact hk

theorem runUserOps_known (ops : List UserOp) :
    ∀ users : List User, (∀ u ∈ users, isKnownRole u.role = true) →
    (∀ op ∈ ops, ∀ r : String, op.requestedRole = some r → isKnownRole r = true) →
    ∀ u ∈ runUserOps users ops, isKnownRole u.role = true := by
  induction ops with
  | nil =>
    intro users h0 _
    exact h0
  | cons op rest ih =>
    intro users h0 hops
    show ∀ u ∈ runUserOps (op.apply users) rest, isKnownRole u.role = true
    apply ih
    · exact apply_known users op h0 (hops op (List.mem_cons_self _ _))
    · intro op2 h2
      exact hops op2 (List.mem_cons_of_mem _ h2)

/-- C24, the claim as it stands fails. From the four sample users, whose
roles are all among admin, teacher, student and station, one role
reassignment that asks for the role `superuser` leaves users with the role
`superuser`. -/
theorem known_roles_counterexample :
    (∀ u ∈ sampleUsers, isKnownRole u.role = true) ∧
    (runUserOps sampleUsers [sampleRoleRequest]).map (fun u => u.role) =
      ["teacher", "superuser", "station", "superuser"] ∧
    ¬ (∀ u ∈ runUserOps sampleUsers [sampleRoleRequest], isKnownRole u.role = true) := by
  decide

/-- C24, amended. Register, login and logout name no role, and create-user,
update-by-id and role reassignment store the role they are asked for. From a
store whose users all have a role among admin, teacher, student and station,
every sequence of these six operations in which each requested role is one
of the four leads to a store whose users all have a role among the four. -/
theorem known_roles_preserved (users : List User) (ops : List UserOp)
    (h0 : ∀ u ∈ users, isKnownRole u.role = true)
    (hops : ∀ op ∈ ops, ∀ r : String, op.requestedRole = some r → isKnownRole r = true) :
    ∀ u ∈ runUserOps users ops, isKnownRole u.role = true :=
  runUserOps_known ops users h0 hops

theorem known_roles_preserved_witness :
    (runUserOps sampleUsers [sampleCreateRequest, UserOp.logout (some "stu")]).all
      (fun u => isKnownRole u.role) = true :=
  List.all_eq_true.2 (known_roles_preserved sampleUsers
    [sampleCreateRequest, UserOp.logout (some "stu")] (by decide)
    (by
      intro op hop r hr
      rcases List.mem_cons.1 hop with h | h
      · rw [h] at hr
        cases hr
        decide
      · rw [List.mem_singleton.1 h] at hr
        cases hr))

end WeatherAPI
